import Mathlib

/-!
# Color legend displayable manager

A shallow embedding of `vtkMRMLColorLegendDisplayableManager.cxx` (3D Slicer, Colors module).

Conventions of the embedding:

* The embedding comes in two readings of C++ `double`. The first part reads `double` values as
  exact rationals (`ℚ`): it carries the control flow of the whole file (registry, visibility,
  events) and the statements about the geometry in exact arithmetic. The namespace `Binary64`
  reads them as IEEE 754 binary64 values with correctly rounded operations: it carries the
  statements about the numbers that `UpdateActor` stores (layout, label annotations, table
  range). The two readings differ in nothing but the arithmetic.
* C++ `int` values are `Int`.
* A pointer that the code tests against null is an `Option`.
* VTK objects that are shared through pointers (scalar bar actors, text properties) live in
  heaps indexed by `Nat` handles; the manager state carries the heaps.
* The MRML classes and the VTK classes are declared outside the embedded file; each one is
  represented by a record of exactly the attributes that the embedded code reads or writes.
-/

namespace vtkMRMLColorLegendDisplayableManager

/-! ## VTK side -/

/-- Horizontal justification of a `vtkTextProperty`. -/
inductive Justification where
  | Left
  | Centered
  | Right
deriving DecidableEq

/-- A `vtkTextProperty`: the justification, which the manager writes, and the remaining style
attributes (font, size, color), which it never looks at. -/
structure vtkTextProperty where
  Justification : Justification
  Style : Nat
deriving DecidableEq

/-- Orientation of a `vtkScalarBarActor`. -/
inductive BarOrientation where
  | Horizontal
  | Vertical
deriving DecidableEq

/-- Placement of title and labels relative to the bar (`SetTextPositionTo...ScalarBar`). -/
inductive TextPosition where
  | PrecedeScalarBar
  | SucceedScalarBar
deriving DecidableEq

/-- A `vtkLookupTable`, as far as the manager touches it: the table range handed to
`SetTableRange` and the list of annotated values with their texts. -/
structure vtkLookupTable where
  TableRange : ℚ × ℚ
  Annotations : List (Int × String)
deriving DecidableEq

/-- The call `vtkScalarsToColors::ResetAnnotations`. -/
def vtkLookupTable.ResetAnnotations (lut : vtkLookupTable) : vtkLookupTable :=
  { lut with Annotations := [] }

/-- Replace the text of an annotated value, or append the value when it is not annotated yet. -/
def setAnnotationEntry (value : Int) (text : String) : List (Int × String) → List (Int × String)
  | [] => [(value, text)]
  | (v, t) :: rest =>
    if v = value then (v, text) :: rest else (v, t) :: setAnnotationEntry value text rest

/-- The call `vtkScalarsToColors::SetAnnotation(value, text)`. -/
def vtkLookupTable.SetAnnotation (lut : vtkLookupTable) (value : Int) (text : String) :
    vtkLookupTable :=
  { lut with Annotations := setAnnotationEntry value text lut.Annotations }

/-- The text annotated at a value, if any. -/
def vtkLookupTable.GetAnnotation (lut : vtkLookupTable) (value : Int) : Option String :=
  (lut.Annotations.find? (fun e => e.1 == value)).map Prod.snd

/-- A `vtkSlicerScalarBarActor`: the attributes set by the manager. The two text properties are
handles into the heap of text properties, because `SetTitleTextProperty` and
`SetLabelTextProperty` store the pointer they are given. -/
structure vtkSlicerScalarBarActor where
  Visibility : Bool
  Title : String
  TitleTextProperty : Nat
  LabelTextProperty : Nat
  LabelFormat : String
  Orientation : BarOrientation
  Position : ℚ × ℚ
  Width : ℚ
  Height : ℚ
  TextPosition : TextPosition
  TextPad : Int
  LookupTable : Option vtkLookupTable
  NumberOfLabels : Int
  MaximumNumberOfColors : Int
  UseAnnotationAsLabel : Bool
  CenterLabel : Bool
  UnconstrainedFontSize : Bool
  BarRatio : ℚ
deriving DecidableEq

/-- A `vtkRenderer`, reduced to its collection of view props (actor handles). -/
structure vtkRenderer where
  ViewProps : List Nat
deriving DecidableEq

/-- The query `vtkViewport::HasViewProp`. -/
def vtkRenderer.HasViewProp (r : vtkRenderer) (actor : Nat) : Bool :=
  r.ViewProps.contains actor

/-- The call `vtkViewport::AddActor2D`: a prop that is already present is not added again. -/
def vtkRenderer.AddActor2D (r : vtkRenderer) (actor : Nat) : vtkRenderer :=
  if r.HasViewProp actor then r else { ViewProps := r.ViewProps ++ [actor] }

/-- The call `vtkRenderer::RemoveActor`: the prop is no longer among the view props. -/
def vtkRenderer.RemoveActor (r : vtkRenderer) (actor : Nat) : vtkRenderer :=
  { ViewProps := r.ViewProps.filter (fun p => p != actor) }

/-! ## MRML side -/

/-- Values of `vtkMRMLDisplayNode::ScalarRangeFlagType`. -/
inductive ScalarRangeFlagType where
  | UseManual
  | UseData
  | UseColorNode
  | UseDataType
  | UseDirectMapping
deriving DecidableEq

/-- A `vtkMRMLColorNode`: number of colors, color names by index, and its lookup table (which
may be absent). -/
structure vtkMRMLColorNode where
  NumberOfColors : Int
  GetColorName : Int → String
  LookupTable : Option vtkLookupTable

/-- The call `vtkMRMLColorNode::CreateLookupTableCopy` on a node that has a lookup table. -/
def CreateLookupTableCopy (lookupTable : vtkLookupTable) : vtkLookupTable :=
  lookupTable

/-- What `vtkMRMLDisplayNode::GetDisplayableNode` points to: a node with an optional ID that
may or may not be a `vtkMRMLVolumeNode`. -/
structure DisplayableNodeRef where
  ID : Option String
  IsVolumeNode : Bool
deriving DecidableEq

/-- The classes of display node that the manager tells apart with `SafeDownCast`. A scalar
volume display node is a volume display node and carries window and level. -/
inductive DisplayNodeClass where
  | ColorLegendDisplayNode
  | VolumeDisplayNode
  | ScalarVolumeDisplayNode (Window Level : ℚ)
  | OtherDisplayNode
deriving DecidableEq

/-- A `vtkMRMLDisplayNode` as seen through the base-class interface. -/
structure vtkMRMLDisplayNode where
  Class : DisplayNodeClass
  /-- The query `GetVisibility(viewNodeID)`. -/
  GetVisibility : String → Bool
  ColorNode : Option vtkMRMLColorNode
  ScalarRange : ℚ × ℚ
  ScalarRangeFlag : ScalarRangeFlagType
  DisplayableNode : Option DisplayableNodeRef

/-- The cast `vtkMRMLColorLegendDisplayNode::SafeDownCast` on an optional display node. -/
def SafeDownCastColorLegendDisplayNode (n : Option vtkMRMLDisplayNode) :
    Option vtkMRMLDisplayNode :=
  match n with
  | none => none
  | some n =>
    match n.Class with
    | .ColorLegendDisplayNode => some n
    | _ => none

/-- The cast `vtkMRMLVolumeDisplayNode::SafeDownCast`. -/
def SafeDownCastVolumeDisplayNode (n : vtkMRMLDisplayNode) : Option vtkMRMLDisplayNode :=
  match n.Class with
  | .VolumeDisplayNode => some n
  | .ScalarVolumeDisplayNode _ _ => some n
  | _ => none

/-- The cast `vtkMRMLScalarVolumeDisplayNode::SafeDownCast`, giving window and level. -/
def SafeDownCastScalarVolumeDisplayNode (n : vtkMRMLDisplayNode) : Option (ℚ × ℚ) :=
  match n.Class with
  | .ScalarVolumeDisplayNode window level => some (window, level)
  | _ => none

/-- The cast `vtkMRMLVolumeNode::SafeDownCast` on an optional displayable node. -/
def SafeDownCastVolumeNode (n : Option DisplayableNodeRef) : Option DisplayableNodeRef :=
  match n with
  | none => none
  | some n => if n.IsVolumeNode then some n else none

/-- A `vtkMRMLDisplayableNode` with its display nodes in display-node order. -/
structure vtkMRMLDisplayableNode where
  DisplayNodes : List vtkMRMLDisplayNode

/-- The query `vtkMRMLDisplayableNode::GetNumberOfDisplayNodes`. -/
def vtkMRMLDisplayableNode.GetNumberOfDisplayNodes (n : vtkMRMLDisplayableNode) : Nat :=
  n.DisplayNodes.length

/-- The query `vtkMRMLDisplayableNode::GetDisplayNode()` without an index: display node 0. -/
def vtkMRMLDisplayableNode.GetDisplayNode (n : vtkMRMLDisplayableNode) :
    Option vtkMRMLDisplayNode :=
  n.DisplayNodes.head?

/-- Values of `vtkMRMLColorLegendDisplayNode::OrientationType`; `Unknown` stands for any value
that is neither of the two named ones. -/
inductive OrientationType where
  | Horizontal
  | Vertical
  | Unknown (value : Int)
deriving DecidableEq

/-- A `vtkMRMLColorLegendDisplayNode` (the legend descriptor). -/
structure vtkMRMLColorLegendDisplayNode where
  ID : String
  /-- The query `GetVisibility()` without a view. -/
  Visibility : Bool
  /-- The query `GetVisibility(viewNodeID)`. -/
  GetVisibility : String → Bool
  DisplayableNode : Option vtkMRMLDisplayableNode
  PrimaryDisplayNode : Option vtkMRMLDisplayNode
  TitleText : String
  TitleTextProperty : Nat
  LabelTextProperty : Nat
  LabelFormat : String
  Size : ℚ × ℚ
  Position : ℚ × ℚ
  Orientation : OrientationType
  UseColorNamesForLabels : Bool
  NumberOfLabels : Int
  MaxNumberOfColors : Int

/-- A `vtkMRMLSliceCompositeNode`: the three volume IDs, each possibly unset. -/
structure vtkMRMLSliceCompositeNode where
  BackgroundVolumeID : Option String
  ForegroundVolumeID : Option String
  LabelVolumeID : Option String
deriving DecidableEq

/-- The view node returned by `GetMRMLDisplayableNode`. -/
structure vtkMRMLViewNode where
  ID : String
deriving DecidableEq

/-- A scene node as the event handlers classify it with `IsA` and `SafeDownCast`. -/
inductive vtkMRMLNode where
  | ColorLegendDisplayNode (node : vtkMRMLColorLegendDisplayNode)
  | SliceCompositeNode (ID : String) (node : vtkMRMLSliceCompositeNode)
  | OtherNode (ID : String)

/-- The query `vtkMRMLNode::GetID`. -/
def vtkMRMLNode.GetID : vtkMRMLNode → String
  | .ColorLegendDisplayNode node => node.ID
  | .SliceCompositeNode ID _ => ID
  | .OtherNode ID => ID

/-- The test `node->IsA("vtkMRMLColorLegendDisplayNode")`. -/
def vtkMRMLNode.IsAColorLegendDisplayNode : vtkMRMLNode → Bool
  | .ColorLegendDisplayNode _ => true
  | _ => false

/-- A `vtkMRMLScene`: the nodes it holds. -/
structure vtkMRMLScene where
  Nodes : List vtkMRMLNode

/-- The query `vtkMRMLScene::GetNodeByID`. -/
def vtkMRMLScene.GetNodeByID (scene : vtkMRMLScene) (id : String) : Option vtkMRMLNode :=
  scene.Nodes.find? (fun n => n.GetID == id)

/-! ## The manager -/

/-- The value of `vtkCommand::ModifiedEvent`. -/
def ModifiedEvent : Nat := 33

/-- The state of a `vtkMRMLColorLegendDisplayableManager` together with the objects it reaches
through pointers.

* `ColorLegendActorsMap` is the `std::map` from legend display node ID to actor, kept in key
  order, one entry per key; the value is the handle of the actor.
* `Actors` and `TextProperties` are the heaps of actors and text properties, `NextObject` is the
  first handle that has not been handed out.
* `RenderRequests` counts the calls of `RequestRender`. -/
structure Manager where
  MRMLScene : Option vtkMRMLScene
  MRMLDisplayableNode : Option vtkMRMLViewNode
  ColorLegendActorsMap : List (String × Nat)
  SliceCompositeNode : Option vtkMRMLSliceCompositeNode
  ColorLegendRenderer : Option vtkRenderer
  Actors : Nat → vtkSlicerScalarBarActor
  TextProperties : Nat → vtkTextProperty
  NextObject : Nat
  UpdateFromMRMLRequested : Bool
  RenderRequests : Nat

/-- The lookup `std::map::find`: the value stored under a key, if any. -/
def mapFind (m : List (String × Nat)) (key : String) : Option Nat :=
  (m.find? (fun e => e.1 == key)).map Prod.snd

/-- The assignment `map[key] = value`: overwrite the entry of the key, or insert a new entry at
its place in key order. -/
def mapAssign (key : String) (value : Nat) : List (String × Nat) → List (String × Nat)
  | [] => [(key, value)]
  | (k, v) :: rest =>
    if k = key then (key, value) :: rest
    else if key.data < k.data then (key, value) :: (k, v) :: rest
    else (k, v) :: mapAssign key value rest

/-- The removal `std::map::erase` of the entry found under a key. -/
def mapErase (key : String) (m : List (String × Nat)) : List (String × Nat) :=
  m.filter (fun e => e.1 != key)

/-- The keys of the map, in iteration order. -/
def mapKeys (m : List (String × Nat)) : List String :=
  m.map Prod.fst

/-- The shape of a `std::map`: keys strictly increasing in iteration order. -/
def mapOrdered (m : List (String × Nat)) : Prop :=
  (mapKeys m).Pairwise (fun a b => a.data < b.data)

/-- Apply a change to one actor of the heap. -/
def Manager.modifyActor (s : Manager) (actor : Nat)
    (f : vtkSlicerScalarBarActor → vtkSlicerScalarBarActor) : Manager :=
  { s with Actors := Function.update s.Actors actor (f (s.Actors actor)) }

/-- Set the justification of one text property of the heap. -/
def Manager.setJustification (s : Manager) (textProperty : Nat) (j : Justification) : Manager :=
  let old := s.TextProperties textProperty
  { s with TextProperties :=
      Function.update s.TextProperties textProperty ⟨j, old.Style⟩ }

/-- Whether an actor is among the view props of the legend renderer. -/
def Manager.IsAttached (s : Manager) (actor : Nat) : Bool :=
  match s.ColorLegendRenderer with
  | none => false
  | some renderer => renderer.HasViewProp actor

/-- Modelled from the spec: the render request signal of the base class
(`vtkMRMLAbstractDisplayableManager::RequestRender`, declared outside the embedded file),
recorded as a count of requests. -/
def RequestRender (s : Manager) : Manager :=
  { s with RenderRequests := s.RenderRequests + 1 }

/-- Modelled from the spec: the deferred full resync flag of the base class
(`vtkMRMLAbstractDisplayableManager::SetUpdateFromMRMLRequested`, declared outside the
embedded file). -/
def SetUpdateFromMRMLRequested (s : Manager) (requested : Bool) : Manager :=
  { s with UpdateFromMRMLRequested := requested }

/-- The method `GetColorLegendActor` (lines 478–491). -/
def GetColorLegendActor (s : Manager) (dispNode : Option vtkMRMLColorLegendDisplayNode) :
    Option Nat :=
  match dispNode with
  | none => none
  | some dispNode => mapFind s.ColorLegendActorsMap dispNode.ID

/-- The method `vtkInternal::ShowActor` (lines 123–141): returns whether visibility changed,
and the new state. -/
def ShowActor (s : Manager) (actor : Nat) (show_ : Bool) : Bool × Manager :=
  match s.ColorLegendRenderer with
  | none => (false, s)
  | some renderer =>
    let wasInRenderer := renderer.HasViewProp actor
    let wasVisible := wasInRenderer && (s.Actors actor).Visibility
    let renderer :=
      if show_ && !wasInRenderer then renderer.AddActor2D actor
      else if !show_ && wasInRenderer then renderer.RemoveActor actor
      else renderer
    let s := { s with ColorLegendRenderer := some renderer }
    let s := s.modifyActor actor (fun a => { a with Visibility := show_ })
    (wasVisible != show_, s)

/-- Whether an optional volume ID of the slice composite node is set and equal to the ID. -/
def volumeIDMatches (compositeID : Option String) (volumeNodeID : String) : Bool :=
  match compositeID with
  | none => false
  | some id => id == volumeNodeID

/-- The method `vtkInternal::IsVolumeVisibleInSliceView` (lines 144–182). -/
def IsVolumeVisibleInSliceView (s : Manager) (volumeNode : Option DisplayableNodeRef) : Bool :=
  match volumeNode with
  | none => false
  | some volumeNode =>
    match s.SliceCompositeNode with
    | none => false
    | some sliceCompositeNode =>
      match volumeNode.ID with
      | none => false
      | some volumeNodeID =>
        if volumeIDMatches sliceCompositeNode.BackgroundVolumeID volumeNodeID then true
        else if volumeIDMatches sliceCompositeNode.ForegroundVolumeID volumeNodeID then true
        else if volumeIDMatches sliceCompositeNode.LabelVolumeID volumeNodeID then true
        else false

/-- Conversion of a `double` to `int` in the exact-arithmetic reading: truncation toward
zero. -/
def truncToInt (x : ℚ) : Int :=
  if 0 ≤ x then ⌊x⌋ else ⌈x⌉

/-- Lines 208–216 of `UpdateActor`: the fallback loop over `i`, given the number of iterations
that remain. Every iteration inspects `displayableNode->GetDisplayNode()`. -/
def UpdateActor.fallbackLoop (displayableNode : vtkMRMLDisplayableNode) :
    Nat → Option vtkMRMLDisplayNode
  | 0 => none
  | remaining + 1 =>
    match SafeDownCastColorLegendDisplayNode displayableNode.GetDisplayNode with
    | none => displayableNode.GetDisplayNode
    | some _ => UpdateActor.fallbackLoop displayableNode remaining

/-- Lines 204–217 of `UpdateActor`: the explicit primary display node, or else the result of
the fallback loop. -/
def UpdateActor.primaryDisplayNode (colorLegendDisplayNode : vtkMRMLColorLegendDisplayNode)
    (displayableNode : vtkMRMLDisplayableNode) : Option vtkMRMLDisplayNode :=
  match colorLegendDisplayNode.PrimaryDisplayNode with
  | some primaryDisplayNode => some primaryDisplayNode
  | none => UpdateActor.fallbackLoop displayableNode displayableNode.GetNumberOfDisplayNodes

/-- Lines 193–264 of `UpdateActor`: the checks that precede the appearance update. The result
is `none` when one of the `return this->ShowActor(actor, false)` statements of these lines is
reached, and the primary display node when control arrives at line 266. -/
def UpdateActor.visibility (s : Manager)
    (colorLegendDisplayNode : vtkMRMLColorLegendDisplayNode) : Option vtkMRMLDisplayNode :=
  if !colorLegendDisplayNode.Visibility then none
  else
    match colorLegendDisplayNode.DisplayableNode with
    | none => none
    | some displayableNode =>
      match UpdateActor.primaryDisplayNode colorLegendDisplayNode displayableNode with
      | none => none
      | some primaryDisplayNode =>
        match s.MRMLDisplayableNode with
        | none => none
        | some viewNode =>
          let visible := colorLegendDisplayNode.GetVisibility viewNode.ID
          let visible :=
            if visible then
              match SafeDownCastVolumeDisplayNode primaryDisplayNode with
              | some volumeDisplayNode =>
                if s.SliceCompositeNode.isSome then
                  visible && IsVolumeVisibleInSliceView s
                    (SafeDownCastVolumeNode volumeDisplayNode.DisplayableNode)
                else false
              | none => visible && primaryDisplayNode.GetVisibility viewNode.ID
            else visible
          if !visible then none else some primaryDisplayNode

/-- Lines 266–325 of `UpdateActor`: title, text properties, label format and the layout
switch on the orientation. The products are exact; `Binary64.UpdateActor.layout` is the same
code with rounded products. -/
def UpdateActor.layout (s : Manager) (actor : Nat)
    (colorLegendDisplayNode : vtkMRMLColorLegendDisplayNode) : Manager :=
  let s := s.modifyActor actor (fun a => { a with Title := colorLegendDisplayNode.TitleText })
  let s := s.modifyActor actor (fun a =>
    { a with TitleTextProperty := colorLegendDisplayNode.TitleTextProperty })
  let s := s.modifyActor actor (fun a =>
    { a with LabelTextProperty := colorLegendDisplayNode.LabelTextProperty })
  let s := s.modifyActor actor (fun a =>
    { a with LabelFormat := colorLegendDisplayNode.LabelFormat })
  let size := colorLegendDisplayNode.Size
  let position := colorLegendDisplayNode.Position
  match colorLegendDisplayNode.Orientation with
  | .Vertical =>
    let s := s.modifyActor actor (fun a => { a with Orientation := .Vertical })
    let s := s.modifyActor actor (fun a =>
      { a with Position := (position.1 * (1 - size.1), position.2 * (1 - size.2)) })
    let s := s.modifyActor actor (fun a => { a with Width := size.1 })
    let s := s.modifyActor actor (fun a => { a with Height := size.2 })
    if position.1 < 0.5 then
      let s := s.modifyActor actor (fun a => { a with TextPosition := .SucceedScalarBar })
      let s := s.modifyActor actor (fun a => { a with TextPad := 2 })
      s.setJustification (s.Actors actor).TitleTextProperty .Left
    else
      let s := s.modifyActor actor (fun a => { a with TextPosition := .PrecedeScalarBar })
      let s := s.modifyActor actor (fun a => { a with TextPad := -2 })
      s.setJustification (s.Actors actor).TitleTextProperty .Right
  | .Horizontal =>
    let s := s.modifyActor actor (fun a => { a with Orientation := .Horizontal })
    let s := s.modifyActor actor (fun a =>
      { a with Position := (position.1 * (1 - size.2), position.2 * (1 - size.1)) })
    let s := s.modifyActor actor (fun a => { a with Width := size.2 })
    let s := s.modifyActor actor (fun a => { a with Height := size.1 })
    let s := s.modifyActor actor (fun a => { a with TextPad := 0 })
    let s := s.setJustification (s.Actors actor).TitleTextProperty .Centered
    if position.2 < 0.5 then
      s.modifyActor actor (fun a => { a with TextPosition := .SucceedScalarBar })
    else
      s.modifyActor actor (fun a => { a with TextPosition := .PrecedeScalarBar })
  | .Unknown _ => s

/-- Lines 338–352 of `UpdateActor`: the displayed scalar range, in exact arithmetic;
`Binary64.UpdateActor.range` is the same code with rounded operations. -/
def UpdateActor.range (primaryDisplayNode : vtkMRMLDisplayNode) : ℚ × ℚ :=
  match SafeDownCastScalarVolumeDisplayNode primaryDisplayNode with
  | some (window, level) => (level - window / 2, level + window / 2)
  | none => primaryDisplayNode.ScalarRange

/-- Line 384 of `UpdateActor`: `256.0 / colorNode->GetNumberOfColors()`, as an exact
quotient; `Binary64.UpdateActor.oversampling` is the rounded quotient. -/
def UpdateActor.oversampling (colorNode : vtkMRMLColorNode) : ℚ :=
  256 / (colorNode.NumberOfColors : ℚ)

/-- Line 385 of `UpdateActor`: `int newNumberOfColors = GetNumberOfColors() * oversampling`,
with an exact product; `Binary64.UpdateActor.newNumberOfColors` takes the rounded product. -/
def UpdateActor.newNumberOfColors (colorNode : vtkMRMLColorNode) : Int :=
  truncToInt ((colorNode.NumberOfColors : ℚ) * UpdateActor.oversampling colorNode)

/-- Line 391 of `UpdateActor`: the body of the loop over `colorIndex`, on the lookup table
of the actor, with an exact quotient `colorIndex / oversampling`;
`Binary64.UpdateActor.annotate` takes the rounded quotient. -/
def UpdateActor.annotate (colorNode : vtkMRMLColorNode) (lut : vtkLookupTable)
    (colorIndex : Nat) : vtkLookupTable :=
  lut.SetAnnotation (colorIndex : Int)
    (colorNode.GetColorName
      (truncToInt (((colorIndex : Int) : ℚ) / UpdateActor.oversampling colorNode)))

/-- Lines 377–404 of `UpdateActor`: labels, number of colors and lookup table of the actor. -/
def UpdateActor.labels (s : Manager) (actor : Nat)
    (colorLegendDisplayNode : vtkMRMLColorLegendDisplayNode) (colorNode : vtkMRMLColorNode)
    (lut : vtkLookupTable) : Manager :=
  if colorLegendDisplayNode.UseColorNamesForLabels && decide (colorNode.NumberOfColors > 0) then
    let s := s.modifyActor actor (fun a => { a with LookupTable := some lut })
    let newNumberOfColors := UpdateActor.newNumberOfColors colorNode
    let s := s.modifyActor actor (fun a => { a with NumberOfLabels := colorNode.NumberOfColors })
    let s := s.modifyActor actor (fun a => { a with MaximumNumberOfColors := newNumberOfColors })
    let s := s.modifyActor actor (fun a =>
      { a with LookupTable := a.LookupTable.map vtkLookupTable.ResetAnnotations })
    let s := s.modifyActor actor (fun a =>
      { a with LookupTable := a.LookupTable.map (fun table =>
          (List.range newNumberOfColors.toNat).foldl (UpdateActor.annotate colorNode) table) })
    let s := s.modifyActor actor (fun a => { a with UseAnnotationAsLabel := true })
    s.modifyActor actor (fun a => { a with CenterLabel := true })
  else
    let s := s.modifyActor actor (fun a =>
      { a with NumberOfLabels := colorLegendDisplayNode.NumberOfLabels })
    let s := s.modifyActor actor (fun a =>
      { a with MaximumNumberOfColors := colorLegendDisplayNode.MaxNumberOfColors })
    let s := s.modifyActor actor (fun a => { a with UseAnnotationAsLabel := false })
    let s := s.modifyActor actor (fun a => { a with CenterLabel := false })
    s.modifyActor actor (fun a => { a with LookupTable := some lut })

/-- The method `vtkInternal::UpdateActor` (lines 185–410): returns whether the actor is
reported as changed, and the new state. -/
def UpdateActor (s : Manager) (colorLegendDisplayNode : Option vtkMRMLColorLegendDisplayNode) :
    Bool × Manager :=
  match GetColorLegendActor s colorLegendDisplayNode, colorLegendDisplayNode with
  | some actor, some colorLegendDisplayNode =>
    match UpdateActor.visibility s colorLegendDisplayNode with
    | none => ShowActor s actor false
    | some primaryDisplayNode =>
      let s := UpdateActor.layout s actor colorLegendDisplayNode
      match primaryDisplayNode.ColorNode with
      | none => ShowActor s actor false
      | some colorNode =>
        let range := UpdateActor.range primaryDisplayNode
        if primaryDisplayNode.ScalarRangeFlag = .UseDirectMapping then ShowActor s actor false
        else
          match colorNode.LookupTable with
          | none => ShowActor s actor false
          | some lookupTable =>
            let lut := CreateLookupTableCopy lookupTable
            let lut := { lut with TableRange := range }
            let s := UpdateActor.labels s actor colorLegendDisplayNode colorNode lut
            (true, (ShowActor s actor true).2)
  | _, _ => (false, s)

/-- The method `ProcessMRMLNodesEvents` (lines 627–649). -/
def ProcessMRMLNodesEvents (s : Manager) (caller : Option vtkMRMLNode) (event : Nat) :
    Manager :=
  if event ≠ ModifiedEvent then s
  else
    match caller with
    | some (.ColorLegendDisplayNode dispNode) =>
      let result := UpdateActor s (some dispNode)
      if result.1 then RequestRender result.2 else result.2
    | some (.SliceCompositeNode _ _) => RequestRender (SetUpdateFromMRMLRequested s true)
    | _ => s

/-- A freshly constructed `vtkSlicerScalarBarActor` with its own two text properties; the
attribute values are the defaults of the VTK class. -/
def newScalarBarActor (titleTextProperty labelTextProperty : Nat) : vtkSlicerScalarBarActor :=
  { Visibility := true, Title := "", TitleTextProperty := titleTextProperty,
    LabelTextProperty := labelTextProperty, LabelFormat := "%-#6.3g", Orientation := .Vertical,
    Position := (0.82, 0.1), Width := 0.17, Height := 0.8, TextPosition := .SucceedScalarBar,
    TextPad := 1, LookupTable := none, NumberOfLabels := 5, MaximumNumberOfColors := 64,
    UseAnnotationAsLabel := false, CenterLabel := false, UnconstrainedFontSize := false,
    BarRatio := 0.375 }

/-- The statement `vtkNew<vtkSlicerScalarBarActor> scalarBarActor`: the new actor takes the
next three handles, for itself and for its title and label text properties. -/
def Manager.newActor (s : Manager) : Nat × Manager :=
  let actor := s.NextObject
  (actor,
    { s with
      Actors := Function.update s.Actors actor (newScalarBarActor (actor + 1) (actor + 2))
      TextProperties :=
        Function.update (Function.update s.TextProperties (actor + 1) ⟨.Left, 0⟩)
          (actor + 2) ⟨.Left, 0⟩
      NextObject := actor + 3 })

/-- The method `OnMRMLSceneNodeAdded` (lines 545–573). -/
def OnMRMLSceneNodeAdded (s : Manager) (node : Option vtkMRMLNode) : Manager :=
  match node, s.MRMLScene with
  | some node, some _ =>
    if node.IsAColorLegendDisplayNode then
      let created := s.newActor
      let scalarBarActor := created.1
      let s := created.2
      let s := s.modifyActor scalarBarActor (fun a => { a with UnconstrainedFontSize := true })
      let s := s.modifyActor scalarBarActor (fun a => { a with BarRatio := 0.2 })
      let id := node.GetID
      let s := { s with
        ColorLegendActorsMap := mapAssign id scalarBarActor s.ColorLegendActorsMap }
      ProcessMRMLNodesEvents s (some node) ModifiedEvent
    else s
  | _, _ => s

/-- The method `OnMRMLSceneNodeRemoved` (lines 576–600). -/
def OnMRMLSceneNodeRemoved (s : Manager) (node : Option vtkMRMLNode) : Manager :=
  match node, s.MRMLScene with
  | some node, some _ =>
    if node.IsAColorLegendDisplayNode then
      match mapFind s.ColorLegendActorsMap node.GetID with
      | some actor =>
        let s := { s with ColorLegendActorsMap := mapErase node.GetID s.ColorLegendActorsMap }
        match s.ColorLegendRenderer with
        | some renderer => { s with ColorLegendRenderer := some (renderer.RemoveActor actor) }
        | none => s
      | none => s
    else s
  | _, _ => s

/-- The method `UpdateFromMRML` (lines 603–624): run `UpdateActor` for every entry of the map
whose ID resolves to a color legend display node of the scene; skip the others. -/
def UpdateFromMRML (s : Manager) : Manager :=
  match s.MRMLScene with
  | none => s
  | some scene =>
    s.ColorLegendActorsMap.foldl
      (fun s colorBarNodeIdToActorIt =>
        match scene.GetNodeByID colorBarNodeIdToActorIt.1 with
        | some (.ColorLegendDisplayNode displayNode) => (UpdateActor s (some displayNode)).2
        | _ => s)
      s

/-- The state after the constructors (lines 98–102 and 460–463): empty map, a legend renderer
without props, nothing else set. -/
def Manager.initial : Manager :=
  { MRMLScene := none, MRMLDisplayableNode := none, ColorLegendActorsMap := [],
    SliceCompositeNode := none, ColorLegendRenderer := some ⟨[]⟩,
    Actors := fun _ => newScalarBarActor 0 0, TextProperties := fun _ => ⟨.Left, 0⟩,
    NextObject := 0, UpdateFromMRMLRequested := false, RenderRequests := 0 }

/-! ## Scene events -/

/-- A scene event delivered to the manager, with its (non-null) node. -/
inductive SceneEvent where
  | NodeAdded (node : vtkMRMLNode)
  | NodeRemoved (node : vtkMRMLNode)

/-- Process one scene event. -/
def deliver (s : Manager) : SceneEvent → Manager
  | .NodeAdded node => OnMRMLSceneNodeAdded s (some node)
  | .NodeRemoved node => OnMRMLSceneNodeRemoved s (some node)

/-- Process a sequence of scene events in arrival order. -/
def deliverAll (s : Manager) (events : List SceneEvent) : Manager :=
  events.foldl deliver s

/-- The event adds a color legend display node with the given ID. -/
def SceneEvent.addsLegend (id : String) : SceneEvent → Bool
  | .NodeAdded node => node.IsAColorLegendDisplayNode && node.GetID == id
  | .NodeRemoved _ => false

/-- The event removes a color legend display node with the given ID. -/
def SceneEvent.removesLegend (id : String) : SceneEvent → Bool
  | .NodeAdded _ => false
  | .NodeRemoved node => node.IsAColorLegendDisplayNode && node.GetID == id

/-- The ID belongs to a color legend display node that has been added and not since removed:
some event of the history adds it and no later event removes it. -/
def IsLive (events : List SceneEvent) (id : String) : Prop :=
  ∃ before e after, events = before ++ e :: after ∧ e.addsLegend id = true ∧
    ∀ e' ∈ after, SceneEvent.removesLegend id e' = false

/-! ## Example scene -/

/-- A color table with four named colors and a lookup table. -/
def exampleColorNode : vtkMRMLColorNode :=
  { NumberOfColors := 4
    GetColorName := fun i =>
      if i = 0 then "background" else if i = 1 then "liver" else if i = 2 then "kidney"
      else if i = 3 then "spleen" else "invalid"
    LookupTable := some { TableRange := (0, 255), Annotations := [] } }

/-- A model display node, visible in every view, colored through `exampleColorNode`. -/
def exampleModelDisplayNode : vtkMRMLDisplayNode :=
  { Class := .OtherDisplayNode, GetVisibility := fun _ => true,
    ColorNode := some exampleColorNode, ScalarRange := (10, 20), ScalarRangeFlag := .UseData,
    DisplayableNode := some { ID := some "vtkMRMLModelNode1", IsVolumeNode := false } }

/-- A legend for a model whose only display node is `exampleModelDisplayNode`; no explicit
primary display node, vertical, at position (0.3, 0.5) with size (0.2, 0.4). -/
def exampleLegend : vtkMRMLColorLegendDisplayNode :=
  { ID := "vtkMRMLColorLegendDisplayNode1", Visibility := true, GetVisibility := fun _ => true,
    DisplayableNode := some { DisplayNodes := [exampleModelDisplayNode] },
    PrimaryDisplayNode := none, TitleText := "Organs", TitleTextProperty := 100,
    LabelTextProperty := 101, LabelFormat := "%.1f", Size := (0.2, 0.4), Position := (0.3, 0.5),
    Orientation := .Vertical, UseColorNamesForLabels := false, NumberOfLabels := 5,
    MaxNumberOfColors := 256 }

/-- A second legend node, switched off. -/
def exampleLegend2 : vtkMRMLColorLegendDisplayNode :=
  { exampleLegend with ID := "vtkMRMLColorLegendDisplayNode2", Visibility := false }

/-- A manager with a scene and a slice view node, before any node event. -/
def exampleManager : Manager :=
  { Manager.initial with
    MRMLScene := some { Nodes := [] }
    MRMLDisplayableNode := some { ID := "vtkMRMLSliceNodeRed" }
    NextObject := 1 }

/-- A history: legend 1 added, a model node added, legend 1 removed, legend 2 added. -/
def exampleEvents : List SceneEvent :=
  [.NodeAdded (.ColorLegendDisplayNode exampleLegend),
   .NodeAdded (.OtherNode "vtkMRMLModelNode1"),
   .NodeRemoved (.ColorLegendDisplayNode exampleLegend),
   .NodeAdded (.ColorLegendDisplayNode exampleLegend2)]

/-- The value of the argument `show` in the `ShowActor` call that ends `UpdateActor`: `false`
on each path that returns `this->ShowActor(actor, false)` (lines 195, 200, 221, 229, 263, 334,
357, 363) and `true` when line 406 is reached. This is the visibility the call computes. -/
def UpdateActor.shows (s : Manager) (colorLegendDisplayNode : vtkMRMLColorLegendDisplayNode) :
    Bool :=
  match UpdateActor.visibility s colorLegendDisplayNode with
  | none => false
  | some primaryDisplayNode =>
    match primaryDisplayNode.ColorNode with
    | none => false
    | some colorNode =>
      if primaryDisplayNode.ScalarRangeFlag = .UseDirectMapping then false
      else colorNode.LookupTable.isSome

/-- The example manager after the node-added event of `exampleLegend`. -/
def exampleRegistered : Manager :=
  OnMRMLSceneNodeAdded exampleManager (some (.ColorLegendDisplayNode exampleLegend))

/-- The example manager after the node-added event of the switched-off `exampleLegend2`. -/
def exampleRegistered2 : Manager :=
  OnMRMLSceneNodeAdded exampleManager (some (.ColorLegendDisplayNode exampleLegend2))

/-- A color legend display node as it appears among the display nodes of its displayable
node. -/
def exampleLegendAsDisplayNode : vtkMRMLDisplayNode :=
  { Class := .ColorLegendDisplayNode, GetVisibility := fun _ => true, ColorNode := none,
    ScalarRange := (0, 0), ScalarRangeFlag := .UseData,
    DisplayableNode := some { ID := some "vtkMRMLModelNode1", IsVolumeNode := false } }

/-- A model node that lists the legend display node first and the model display node
second. -/
def exampleModelNode : vtkMRMLDisplayableNode :=
  { DisplayNodes := [exampleLegendAsDisplayNode, exampleModelDisplayNode] }

/-- A legend of `exampleModelNode` without explicit primary display node. -/
def exampleLegendListedFirst : vtkMRMLColorLegendDisplayNode :=
  { exampleLegend with
    ID := "vtkMRMLColorLegendDisplayNode3"
    DisplayableNode := some exampleModelNode }

/-- The first display node, in display-node order, that is not a color legend display node. -/
def firstNonLegendDisplayNode (displayableNode : vtkMRMLDisplayableNode) :
    Option vtkMRMLDisplayNode :=
  displayableNode.DisplayNodes.find?
    (fun n => (SafeDownCastColorLegendDisplayNode (some n)).isNone)

/-- A scalar volume display node with window 100 and level 50, showing volume 1. -/
def exampleVolumeDisplayNode : vtkMRMLDisplayNode :=
  { Class := .ScalarVolumeDisplayNode 100 50, GetVisibility := fun _ => true,
    ColorNode := some exampleColorNode, ScalarRange := (0, 4095), ScalarRangeFlag := .UseData,
    DisplayableNode := some { ID := some "vtkMRMLScalarVolumeNode1", IsVolumeNode := true } }

/-- A legend whose explicit primary display node is `exampleVolumeDisplayNode`. -/
def exampleVolumeLegend : vtkMRMLColorLegendDisplayNode :=
  { exampleLegend with
    ID := "vtkMRMLColorLegendDisplayNode4"
    DisplayableNode := some { DisplayNodes := [exampleVolumeDisplayNode] }
    PrimaryDisplayNode := some exampleVolumeDisplayNode }

/-- The example manager (no slice composite node) after the node-added event of
`exampleVolumeLegend`. -/
def exampleRegisteredVolume : Manager :=
  OnMRMLSceneNodeAdded exampleManager (some (.ColorLegendDisplayNode exampleVolumeLegend))

/-- A model display node with direct RGB color mapping: visible in every view and with a color
table, like `exampleModelDisplayNode`. -/
def exampleDirectDisplayNode : vtkMRMLDisplayNode :=
  { exampleModelDisplayNode with ScalarRangeFlag := .UseDirectMapping }

/-- A visible legend whose explicit primary display node is `exampleDirectDisplayNode`. -/
def exampleDirectLegend : vtkMRMLColorLegendDisplayNode :=
  { exampleLegend with
    ID := "vtkMRMLColorLegendDisplayNode7"
    DisplayableNode := some { DisplayNodes := [exampleDirectDisplayNode] }
    PrimaryDisplayNode := some exampleDirectDisplayNode }

/-- The example manager after the node-added event of `exampleDirectLegend`. -/
def exampleRegisteredDirect : Manager :=
  OnMRMLSceneNodeAdded exampleManager (some (.ColorLegendDisplayNode exampleDirectLegend))

/-- The example manager with a centered text property at handle 100, the handle that the
example legends use for their title. -/
def exampleCenteredManager : Manager :=
  { exampleManager with
    TextProperties := fun t => if t = 100 then ⟨.Centered, 0⟩ else ⟨.Left, 0⟩ }

/-- A visible legend whose orientation value is neither Horizontal nor Vertical. -/
def exampleUnknownLegend : vtkMRMLColorLegendDisplayNode :=
  { exampleLegend with
    ID := "vtkMRMLColorLegendDisplayNode8"
    Orientation := .Unknown 2 }

/-- The same legend node while it is switched off. -/
def exampleUnknownLegendHidden : vtkMRMLColorLegendDisplayNode :=
  { exampleUnknownLegend with Visibility := false }

/-- The manager after the node-added event of the legend while it is switched off: the actor
exists and still has the title text property it was constructed with. -/
def exampleRegisteredUnknown : Manager :=
  OnMRMLSceneNodeAdded exampleCenteredManager
    (some (.ColorLegendDisplayNode exampleUnknownLegendHidden))

/-- The color legend display node that an ID resolves to in the scene
(`SafeDownCast(GetNodeByID(id))`), if there is one. -/
def resolveLegend (scene : vtkMRMLScene) (id : String) : Option vtkMRMLColorLegendDisplayNode :=
  match scene.GetNodeByID id with
  | some (.ColorLegendDisplayNode displayNode) => some displayNode
  | _ => none

/-- The color legend display nodes that the registered IDs resolve to, in iteration order of
the registry; IDs that do not resolve contribute nothing. -/
def resolvedLegends (scene : vtkMRMLScene) (m : List (String × Nat)) :
    List vtkMRMLColorLegendDisplayNode :=
  m.filterMap (fun e => resolveLegend scene e.1)

/-- Run `UpdateActor` for each descriptor of a list, in order. -/
def updateActors (s : Manager) (ds : List vtkMRMLColorLegendDisplayNode) : Manager :=
  ds.foldl (fun s d => (UpdateActor s (some d)).2) s

/-- Distinct IDs of the registry have distinct actors: every entry holds the actor that was
constructed for it. -/
def mapInjective (m : List (String × Nat)) : Prop :=
  ∀ e1 ∈ m, ∀ e2 ∈ m, e1.2 = e2.2 → e1.1 = e2.1

/-- Every actor of the registry was handed out by `Manager.newActor`. -/
def Manager.HandlesAllocated (s : Manager) : Prop :=
  ∀ e ∈ s.ColorLegendActorsMap, e.2 < s.NextObject

/-- A scene that holds `exampleLegend2` and no other node. -/
def exampleOtherScene : vtkMRMLScene :=
  { Nodes := [.ColorLegendDisplayNode exampleLegend2] }

/-- The example manager in `exampleOtherScene`. -/
def exampleOtherSceneManager : Manager :=
  { exampleManager with MRMLScene := some exampleOtherScene }

/-- The manager after the node-added event of `exampleLegend` while the scene holds only
`exampleLegend2`: the registered ID does not resolve in the scene. -/
def exampleStale : Manager :=
  OnMRMLSceneNodeAdded exampleOtherSceneManager (some (.ColorLegendDisplayNode exampleLegend))

/-- A color table with 300 colors, more than the 256 oversampled indices. -/
def exampleLargeColorNode : vtkMRMLColorNode :=
  { NumberOfColors := 300, GetColorName := fun _ => "color",
    LookupTable := some { TableRange := (0, 299), Annotations := [] } }

/-! ## Double precision

The definitions above read C++ `double` as exact rationals. The namespace `Binary64` repeats
the part of the embedding that `UpdateActor` reads and writes with IEEE 754 binary64
arithmetic: every operation gives the correctly rounded result (round to nearest, ties to
even), with signed zeros, infinities and a single NaN. This is the arithmetic of `double` on
the platforms the program is built for (x86-64 and arm64); the expressions of `UpdateActor`
contain no product followed by a sum, so no fused operation can replace two roundings by
one. Types without numbers (text properties, renderer, slice composite node, view node, the
map operations) are shared with the definitions above. -/

namespace Binary64

/-- An IEEE 754 binary64 value. `finite negative mantissa exponent` stands for
`(-1)^negative * mantissa * 2^exponent`; the values produced by the operations have
`mantissa < 2^53` and `-1074 ≤ exponent ≤ 971`, with `2^52 ≤ mantissa` unless
`exponent = -1074`, and zero is `mantissa = 0` at `exponent = -1074`. -/
inductive Double where
  | finite (negative : Bool) (mantissa : Nat) (exponent : Int)
  | infinite (negative : Bool)
  | nan
deriving DecidableEq

/-- The power of two `2 ^ k`. -/
def pow2 (k : Nat) : Nat := 1 <<< k

/-- The least `level`, counted up from the given one, with `n < 2 ^ (2 ^ level)`. -/
def log2Levels : Nat → Nat → Nat → Nat
  | 0, level, _ => level
  | fuel + 1, level, n => if n < pow2 (pow2 level) then level else log2Levels fuel (level + 1) n

/-- The integer part of the binary logarithm of `n`, for `0 < n < 2 ^ (2 ^ level)`, by
descent over the binary digits of the result. -/
def log2Descent : Nat → Nat → Nat
  | 0, _ => 0
  | level + 1, n =>
    if pow2 (pow2 level) ≤ n then pow2 level + log2Descent level (n / pow2 (pow2 level))
    else log2Descent level n

/-- The integer part of the binary logarithm of a positive natural number. -/
def floorLog2Nat (n : Nat) : Nat := log2Descent (log2Levels 64 0 n) n

/-- The integer part of the binary logarithm of the positive fraction `n / d`. -/
def floorLog2 (n d : Nat) : Int :=
  let l : Int := (floorLog2Nat n : Int) - (floorLog2Nat d : Int)
  if (if 0 ≤ l then d * pow2 l.toNat ≤ n else d ≤ n * pow2 (-l).toNat) then l else l - 1

/-- The binary64 value nearest to the fraction `n / d` with the given sign (`0 < d`): the
mantissa is the quotient at the exponent of the leading bit, rounded to nearest with ties to
even; results below the normal range are subnormal, results beyond the largest finite value
are infinite. -/
def Double.round (negative : Bool) (n d : Nat) : Double :=
  if n = 0 then .finite negative 0 (-1074)
  else
    let e : Int := max (floorLog2 n d - 52) (-1074)
    let a : Nat := if e < 0 then n * pow2 (-e).toNat else n
    let b : Nat := if e < 0 then d else d * pow2 e.toNat
    let q := a / b
    let r := a % b
    let m := if 2 * r < b then q else if b < 2 * r then q + 1 else q + q % 2
    let m1 := if m = pow2 53 then pow2 52 else m
    let e1 := if m = pow2 53 then e + 1 else e
    if 971 < e1 then .infinite negative else .finite negative m1 e1

/-- The value of a decimal literal, given as the fraction `n / d`. -/
def Double.ofRatio (n : Int) (d : Nat) : Double :=
  Double.round (decide (n < 0)) n.natAbs d

/-- Conversion of an `int` to `double`; exact for every value of a 32-bit `int`. -/
def Double.ofInt (n : Int) : Double :=
  Double.round (decide (n < 0)) n.natAbs 1

/-- Negation. -/
def Double.neg : Double → Double
  | .finite s m e => .finite (!s) m e
  | .infinite s => .infinite (!s)
  | .nan => .nan

/-- The signed integer `(-1)^s * m * 2^(e - base)`, for `base ≤ e`. -/
def scaled (s : Bool) (m : Nat) (e base : Int) : Int :=
  let magnitude : Nat := m * pow2 (e - base).toNat
  if s then -(magnitude : Int) else (magnitude : Int)

/-- The operator `+` on `double`. -/
def Double.add : Double → Double → Double
  | .nan, _ => .nan
  | _, .nan => .nan
  | .infinite a, .infinite b => if a = b then .infinite a else .nan
  | .infinite a, .finite _ _ _ => .infinite a
  | .finite _ _ _, .infinite b => .infinite b
  | .finite s1 m1 e1, .finite s2 m2 e2 =>
    let base := min e1 e2
    let total : Int := scaled s1 m1 e1 base + scaled s2 m2 e2 base
    if total = 0 then .finite (s1 && s2) 0 (-1074)
    else if 0 ≤ base then Double.round (decide (total < 0)) (total.natAbs * pow2 base.toNat) 1
    else Double.round (decide (total < 0)) total.natAbs (pow2 (-base).toNat)

/-- The operator `-` on `double`. -/
def Double.sub (x y : Double) : Double := x.add y.neg

/-- The operator `*` on `double`. -/
def Double.mul : Double → Double → Double
  | .nan, _ => .nan
  | _, .nan => .nan
  | .infinite a, .infinite b => .infinite (xor a b)
  | .infinite a, .finite s m _ => if m = 0 then .nan else .infinite (xor a s)
  | .finite s m _, .infinite b => if m = 0 then .nan else .infinite (xor s b)
  | .finite s1 m1 e1, .finite s2 m2 e2 =>
    let e := e1 + e2
    if 0 ≤ e then Double.round (xor s1 s2) (m1 * m2 * pow2 e.toNat) 1
    else Double.round (xor s1 s2) (m1 * m2) (pow2 (-e).toNat)

/-- The operator `/` on `double`. -/
def Double.div : Double → Double → Double
  | .nan, _ => .nan
  | _, .nan => .nan
  | .infinite _, .infinite _ => .nan
  | .infinite a, .finite s _ _ => .infinite (xor a s)
  | .finite s _ _, .infinite b => .finite (xor s b) 0 (-1074)
  | .finite s1 m1 e1, .finite s2 m2 e2 =>
    if m2 = 0 then (if m1 = 0 then .nan else .infinite (xor s1 s2))
    else
      let e := e1 - e2
      if 0 ≤ e then Double.round (xor s1 s2) (m1 * pow2 e.toNat) m2
      else Double.round (xor s1 s2) m1 (m2 * pow2 (-e).toNat)

/-- The operator `<` on `double`. -/
def Double.lt : Double → Double → Bool
  | .nan, _ => false
  | _, .nan => false
  | .infinite a, .infinite b => a && !b
  | .infinite a, .finite _ _ _ => a
  | .finite _ _ _, .infinite b => !b
  | .finite s1 m1 e1, .finite s2 m2 e2 =>
    let base := min e1 e2
    decide (scaled s1 m1 e1 base < scaled s2 m2 e2 base)

/-- Conversion of a `double` to `int`: truncation toward zero. The conversion is undefined in
C++ for infinities, NaN and values outside the range of `int`; here infinities and NaN give 0
and the range is not bounded. -/
def Double.toInt : Double → Int
  | .finite s m e =>
    let magnitude : Nat := if 0 ≤ e then m * pow2 e.toNat else m / pow2 (-e).toNat
    if s then -(magnitude : Int) else (magnitude : Int)
  | _ => 0

/-- A `vtkLookupTable`: the table range handed to `SetTableRange` and the annotated values. -/
structure vtkLookupTable where
  TableRange : Double × Double
  Annotations : List (Int × String)
deriving DecidableEq

/-- The call `vtkScalarsToColors::ResetAnnotations`. -/
def vtkLookupTable.ResetAnnotations (lut : vtkLookupTable) : vtkLookupTable :=
  { lut with Annotations := [] }

/-- The call `vtkScalarsToColors::SetAnnotation(value, text)`. -/
def vtkLookupTable.SetAnnotation (lut : vtkLookupTable) (value : Int) (text : String) :
    vtkLookupTable :=
  { lut with Annotations := setAnnotationEntry value text lut.Annotations }

/-- The text annotated at a value, if any. -/
def vtkLookupTable.GetAnnotation (lut : vtkLookupTable) (value : Int) : Option String :=
  (lut.Annotations.find? (fun e => e.1 == value)).map Prod.snd

/-- A `vtkSlicerScalarBarActor`: the attributes set by the manager. -/
structure vtkSlicerScalarBarActor where
  Visibility : Bool
  Title : String
  TitleTextProperty : Nat
  LabelTextProperty : Nat
  LabelFormat : String
  Orientation : BarOrientation
  Position : Double × Double
  Width : Double
  Height : Double
  TextPosition : TextPosition
  TextPad : Int
  LookupTable : Option vtkLookupTable
  NumberOfLabels : Int
  MaximumNumberOfColors : Int
  UseAnnotationAsLabel : Bool
  CenterLabel : Bool
  UnconstrainedFontSize : Bool
  BarRatio : Double
deriving DecidableEq

/-- A `vtkMRMLColorNode`: number of colors, color names by index, and its lookup table (which
may be absent). -/
structure vtkMRMLColorNode where
  NumberOfColors : Int
  GetColorName : Int → String
  LookupTable : Option vtkLookupTable

/-- The call `vtkMRMLColorNode::CreateLookupTableCopy` on a node that has a lookup table. -/
def CreateLookupTableCopy (lookupTable : vtkLookupTable) : vtkLookupTable :=
  lookupTable

/-- The classes of display node that the manager tells apart with `SafeDownCast`. A scalar
volume display node is a volume display node and carries window and level. -/
inductive DisplayNodeClass where
  | ColorLegendDisplayNode
  | VolumeDisplayNode
  | ScalarVolumeDisplayNode (Window Level : Double)
  | OtherDisplayNode
deriving DecidableEq

/-- A `vtkMRMLDisplayNode` as seen through the base-class interface. -/
structure vtkMRMLDisplayNode where
  Class : DisplayNodeClass
  /-- The query `GetVisibility(viewNodeID)`. -/
  GetVisibility : String → Bool
  ColorNode : Option vtkMRMLColorNode
  ScalarRange : Double × Double
  ScalarRangeFlag : ScalarRangeFlagType
  DisplayableNode : Option DisplayableNodeRef

/-- The cast `vtkMRMLColorLegendDisplayNode::SafeDownCast` on an optional display node. -/
def SafeDownCastColorLegendDisplayNode (n : Option vtkMRMLDisplayNode) :
    Option vtkMRMLDisplayNode :=
  match n with
  | none => none
  | some n =>
    match n.Class with
    | .ColorLegendDisplayNode => some n
    | _ => none

/-- The cast `vtkMRMLVolumeDisplayNode::SafeDownCast`. -/
def SafeDownCastVolumeDisplayNode (n : vtkMRMLDisplayNode) : Option vtkMRMLDisplayNode :=
  match n.Class with
  | .VolumeDisplayNode => some n
  | .ScalarVolumeDisplayNode _ _ => some n
  | _ => none

/-- The cast `vtkMRMLScalarVolumeDisplayNode::SafeDownCast`, giving window and level. -/
def SafeDownCastScalarVolumeDisplayNode (n : vtkMRMLDisplayNode) : Option (Double × Double) :=
  match n.Class with
  | .ScalarVolumeDisplayNode window level => some (window, level)
  | _ => none

/-- A `vtkMRMLDisplayableNode` with its display nodes in display-node order. -/
structure vtkMRMLDisplayableNode where
  DisplayNodes : List vtkMRMLDisplayNode

/-- The query `vtkMRMLDisplayableNode::GetNumberOfDisplayNodes`. -/
def vtkMRMLDisplayableNode.GetNumberOfDisplayNodes (n : vtkMRMLDisplayableNode) : Nat :=
  n.DisplayNodes.length

/-- The query `vtkMRMLDisplayableNode::GetDisplayNode()` without an index: display node 0. -/
def vtkMRMLDisplayableNode.GetDisplayNode (n : vtkMRMLDisplayableNode) :
    Option vtkMRMLDisplayNode :=
  n.DisplayNodes.head?

/-- A `vtkMRMLColorLegendDisplayNode` (the legend descriptor). -/
structure vtkMRMLColorLegendDisplayNode where
  ID : String
  /-- The query `GetVisibility()` without a view. -/
  Visibility : Bool
  /-- The query `GetVisibility(viewNodeID)`. -/
  GetVisibility : String → Bool
  DisplayableNode : Option vtkMRMLDisplayableNode
  PrimaryDisplayNode : Option vtkMRMLDisplayNode
  TitleText : String
  TitleTextProperty : Nat
  LabelTextProperty : Nat
  LabelFormat : String
  Size : Double × Double
  Position : Double × Double
  Orientation : OrientationType
  UseColorNamesForLabels : Bool
  NumberOfLabels : Int
  MaxNumberOfColors : Int

/-- The part of the manager state that `UpdateActor` reads or writes: the view node, the map
from legend display node ID to actor handle, the slice composite node, the legend renderer,
and the heaps of actors and text properties. -/
structure Manager where
  MRMLDisplayableNode : Option vtkMRMLViewNode
  ColorLegendActorsMap : List (String × Nat)
  SliceCompositeNode : Option vtkMRMLSliceCompositeNode
  ColorLegendRenderer : Option vtkRenderer
  Actors : Nat → vtkSlicerScalarBarActor
  TextProperties : Nat → vtkTextProperty

/-- Apply a change to one actor of the heap. -/
def Manager.modifyActor (s : Manager) (actor : Nat)
    (f : vtkSlicerScalarBarActor → vtkSlicerScalarBarActor) : Manager :=
  { s with Actors := Function.update s.Actors actor (f (s.Actors actor)) }

/-- Set the justification of one text property of the heap. -/
def Manager.setJustification (s : Manager) (textProperty : Nat) (j : Justification) : Manager :=
  let old := s.TextProperties textProperty
  { s with TextProperties :=
      Function.update s.TextProperties textProperty ⟨j, old.Style⟩ }

/-- Whether an actor is among the view props of the legend renderer. -/
def Manager.IsAttached (s : Manager) (actor : Nat) : Bool :=
  match s.ColorLegendRenderer with
  | none => false
  | some renderer => renderer.HasViewProp actor

/-- The method `GetColorLegendActor` (lines 478–491). -/
def GetColorLegendActor (s : Manager) (dispNode : Option vtkMRMLColorLegendDisplayNode) :
    Option Nat :=
  match dispNode with
  | none => none
  | some dispNode => mapFind s.ColorLegendActorsMap dispNode.ID

/-- The method `vtkInternal::ShowActor` (lines 123–141): returns whether visibility changed,
and the new state. -/
def ShowActor (s : Manager) (actor : Nat) (show_ : Bool) : Bool × Manager :=
  match s.ColorLegendRenderer with
  | none => (false, s)
  | some renderer =>
    let wasInRenderer := renderer.HasViewProp actor
    let wasVisible := wasInRenderer && (s.Actors actor).Visibility
    let renderer :=
      if show_ && !wasInRenderer then renderer.AddActor2D actor
      else if !show_ && wasInRenderer then renderer.RemoveActor actor
      else renderer
    let s := { s with ColorLegendRenderer := some renderer }
    let s := s.modifyActor actor (fun a => { a with Visibility := show_ })
    (wasVisible != show_, s)

/-- The method `vtkInternal::IsVolumeVisibleInSliceView` (lines 144–182). -/
def IsVolumeVisibleInSliceView (s : Manager) (volumeNode : Option DisplayableNodeRef) : Bool :=
  match volumeNode with
  | none => false
  | some volumeNode =>
    match s.SliceCompositeNode with
    | none => false
    | some sliceCompositeNode =>
      match volumeNode.ID with
      | none => false
      | some volumeNodeID =>
        if volumeIDMatches sliceCompositeNode.BackgroundVolumeID volumeNodeID then true
        else if volumeIDMatches sliceCompositeNode.ForegroundVolumeID volumeNodeID then true
        else if volumeIDMatches sliceCompositeNode.LabelVolumeID volumeNodeID then true
        else false

/-- Lines 208–216 of `UpdateActor`: the fallback loop over `i`, given the number of iterations
that remain. Every iteration inspects `displayableNode->GetDisplayNode()`. -/
def UpdateActor.fallbackLoop (displayableNode : vtkMRMLDisplayableNode) :
    Nat → Option vtkMRMLDisplayNode
  | 0 => none
  | remaining + 1 =>
    match SafeDownCastColorLegendDisplayNode displayableNode.GetDisplayNode with
    | none => displayableNode.GetDisplayNode
    | some _ => UpdateActor.fallbackLoop displayableNode remaining

/-- Lines 204–217 of `UpdateActor`: the explicit primary display node, or else the result of
the fallback loop. -/
def UpdateActor.primaryDisplayNode (colorLegendDisplayNode : vtkMRMLColorLegendDisplayNode)
    (displayableNode : vtkMRMLDisplayableNode) : Option vtkMRMLDisplayNode :=
  match colorLegendDisplayNode.PrimaryDisplayNode with
  | some primaryDisplayNode => some primaryDisplayNode
  | none => UpdateActor.fallbackLoop displayableNode displayableNode.GetNumberOfDisplayNodes

/-- Lines 193–264 of `UpdateActor`: the checks that precede the appearance update. The result
is `none` when one of the `return this->ShowActor(actor, false)` statements of these lines is
reached, and the primary display node when control arrives at line 266. -/
def UpdateActor.visibility (s : Manager)
    (colorLegendDisplayNode : vtkMRMLColorLegendDisplayNode) : Option vtkMRMLDisplayNode :=
  if !colorLegendDisplayNode.Visibility then none
  else
    match colorLegendDisplayNode.DisplayableNode with
    | none => none
    | some displayableNode =>
      match UpdateActor.primaryDisplayNode colorLegendDisplayNode displayableNode with
      | none => none
      | some primaryDisplayNode =>
        match s.MRMLDisplayableNode with
        | none => none
        | some viewNode =>
          let visible := colorLegendDisplayNode.GetVisibility viewNode.ID
          let visible :=
            if visible then
              match SafeDownCastVolumeDisplayNode primaryDisplayNode with
              | some volumeDisplayNode =>
                if s.SliceCompositeNode.isSome then
                  visible && IsVolumeVisibleInSliceView s
                    (SafeDownCastVolumeNode volumeDisplayNode.DisplayableNode)
                else false
              | none => visible && primaryDisplayNode.GetVisibility viewNode.ID
            else visible
          if !visible then none else some primaryDisplayNode

/-- Lines 266–325 of `UpdateActor`: title, text properties, label format and the layout
switch on the orientation, in `double` arithmetic. The `int` literal `1` is converted to
`double`; `0.5` is a `double` literal. -/
def UpdateActor.layout (s : Manager) (actor : Nat)
    (colorLegendDisplayNode : vtkMRMLColorLegendDisplayNode) : Manager :=
  let s := s.modifyActor actor (fun a => { a with Title := colorLegendDisplayNode.TitleText })
  let s := s.modifyActor actor (fun a =>
    { a with TitleTextProperty := colorLegendDisplayNode.TitleTextProperty })
  let s := s.modifyActor actor (fun a =>
    { a with LabelTextProperty := colorLegendDisplayNode.LabelTextProperty })
  let s := s.modifyActor actor (fun a =>
    { a with LabelFormat := colorLegendDisplayNode.LabelFormat })
  let size := colorLegendDisplayNode.Size
  let position := colorLegendDisplayNode.Position
  match colorLegendDisplayNode.Orientation with
  | .Vertical =>
    let s := s.modifyActor actor (fun a => { a with Orientation := .Vertical })
    let s := s.modifyActor actor (fun a =>
      { a with Position := (position.1.mul ((Double.ofInt 1).sub size.1),
                            position.2.mul ((Double.ofInt 1).sub size.2)) })
    let s := s.modifyActor actor (fun a => { a with Width := size.1 })
    let s := s.modifyActor actor (fun a => { a with Height := size.2 })
    if position.1.lt (Double.ofRatio 5 10) then
      let s := s.modifyActor actor (fun a => { a with TextPosition := .SucceedScalarBar })
      let s := s.modifyActor actor (fun a => { a with TextPad := 2 })
      s.setJustification (s.Actors actor).TitleTextProperty .Left
    else
      let s := s.modifyActor actor (fun a => { a with TextPosition := .PrecedeScalarBar })
      let s := s.modifyActor actor (fun a => { a with TextPad := -2 })
      s.setJustification (s.Actors actor).TitleTextProperty .Right
  | .Horizontal =>
    let s := s.modifyActor actor (fun a => { a with Orientation := .Horizontal })
    let s := s.modifyActor actor (fun a =>
      { a with Position := (position.1.mul ((Double.ofInt 1).sub size.2),
                            position.2.mul ((Double.ofInt 1).sub size.1)) })
    let s := s.modifyActor actor (fun a => { a with Width := size.2 })
    let s := s.modifyActor actor (fun a => { a with Height := size.1 })
    let s := s.modifyActor actor (fun a => { a with TextPad := 0 })
    let s := s.setJustification (s.Actors actor).TitleTextProperty .Centered
    if position.2.lt (Double.ofRatio 5 10) then
      s.modifyActor actor (fun a => { a with TextPosition := .SucceedScalarBar })
    else
      s.modifyActor actor (fun a => { a with TextPosition := .PrecedeScalarBar })
  | .Unknown _ => s

/-- Lines 338–352 of `UpdateActor`: the displayed scalar range, `level - window / 2.0` and
`level + window / 2.0` in `double` arithmetic for a scalar volume display node. -/
def UpdateActor.range (primaryDisplayNode : vtkMRMLDisplayNode) : Double × Double :=
  match SafeDownCastScalarVolumeDisplayNode primaryDisplayNode with
  | some (window, level) =>
    (level.sub (window.div (Double.ofRatio 2 1)), level.add (window.div (Double.ofRatio 2 1)))
  | none => primaryDisplayNode.ScalarRange

/-- Line 384 of `UpdateActor`: `256.0 / colorNode->GetNumberOfColors()`, the `int` converted
to `double`. -/
def UpdateActor.oversampling (colorNode : vtkMRMLColorNode) : Double :=
  (Double.ofRatio 256 1).div (Double.ofInt colorNode.NumberOfColors)

/-- Line 385 of `UpdateActor`: `int newNumberOfColors = GetNumberOfColors() * oversampling`,
the product taken in `double` and converted to `int`. -/
def UpdateActor.newNumberOfColors (colorNode : vtkMRMLColorNode) : Int :=
  ((Double.ofInt colorNode.NumberOfColors).mul (UpdateActor.oversampling colorNode)).toInt

/-- Line 391 of `UpdateActor`: the body of the loop over `colorIndex`, on the lookup table
of the actor; `colorIndex / oversampling` is taken in `double` and converted to `int`. -/
def UpdateActor.annotate (colorNode : vtkMRMLColorNode) (lut : vtkLookupTable)
    (colorIndex : Nat) : vtkLookupTable :=
  lut.SetAnnotation (colorIndex : Int)
    (colorNode.GetColorName
      ((Double.ofInt (colorIndex : Int)).div (UpdateActor.oversampling colorNode)).toInt)

/-- Lines 377–404 of `UpdateActor`: labels, number of colors and lookup table of the actor. -/
def UpdateActor.labels (s : Manager) (actor : Nat)
    (colorLegendDisplayNode : vtkMRMLColorLegendDisplayNode) (colorNode : vtkMRMLColorNode)
    (lut : vtkLookupTable) : Manager :=
  if colorLegendDisplayNode.UseColorNamesForLabels && decide (colorNode.NumberOfColors > 0) then
    let s := s.modifyActor actor (fun a => { a with LookupTable := some lut })
    let newNumberOfColors := UpdateActor.newNumberOfColors colorNode
    let s := s.modifyActor actor (fun a => { a with NumberOfLabels := colorNode.NumberOfColors })
    let s := s.modifyActor actor (fun a => { a with MaximumNumberOfColors := newNumberOfColors })
    let s := s.modifyActor actor (fun a =>
      { a with LookupTable := a.LookupTable.map vtkLookupTable.ResetAnnotations })
    let s := s.modifyActor actor (fun a =>
      { a with LookupTable := a.LookupTable.map (fun table =>
          (List.range newNumberOfColors.toNat).foldl (UpdateActor.annotate colorNode) table) })
    let s := s.modifyActor actor (fun a => { a with UseAnnotationAsLabel := true })
    s.modifyActor actor (fun a => { a with CenterLabel := true })
  else
    let s := s.modifyActor actor (fun a =>
      { a with NumberOfLabels := colorLegendDisplayNode.NumberOfLabels })
    let s := s.modifyActor actor (fun a =>
      { a with MaximumNumberOfColors := colorLegendDisplayNode.MaxNumberOfColors })
    let s := s.modifyActor actor (fun a => { a with UseAnnotationAsLabel := false })
    let s := s.modifyActor actor (fun a => { a with CenterLabel := false })
    s.modifyActor actor (fun a => { a with LookupTable := some lut })

/-- The method `vtkInternal::UpdateActor` (lines 185–410) in `double` arithmetic: returns
whether the actor is reported as changed, and the new state. -/
def UpdateActor (s : Manager) (colorLegendDisplayNode : Option vtkMRMLColorLegendDisplayNode) :
    Bool × Manager :=
  match GetColorLegendActor s colorLegendDisplayNode, colorLegendDisplayNode with
  | some actor, some colorLegendDisplayNode =>
    match UpdateActor.visibility s colorLegendDisplayNode with
    | none => ShowActor s actor false
    | some primaryDisplayNode =>
      let s := UpdateActor.layout s actor colorLegendDisplayNode
      match primaryDisplayNode.ColorNode with
      | none => ShowActor s actor false
      | some colorNode =>
        let range := UpdateActor.range primaryDisplayNode
        if primaryDisplayNode.ScalarRangeFlag = .UseDirectMapping then ShowActor s actor false
        else
          match colorNode.LookupTable with
          | none => ShowActor s actor false
          | some lookupTable =>
            let lut := CreateLookupTableCopy lookupTable
            let lut := { lut with TableRange := range }
            let s := UpdateActor.labels s actor colorLegendDisplayNode colorNode lut
            (true, (ShowActor s actor true).2)
  | _, _ => (false, s)

/-- The value of the argument `show` in the `ShowActor` call that ends `UpdateActor`. -/
def UpdateActor.shows (s : Manager) (colorLegendDisplayNode : vtkMRMLColorLegendDisplayNode) :
    Bool :=
  match UpdateActor.visibility s colorLegendDisplayNode with
  | none => false
  | some primaryDisplayNode =>
    match primaryDisplayNode.ColorNode with
    | none => false
    | some colorNode =>
      if primaryDisplayNode.ScalarRangeFlag = .UseDirectMapping then false
      else colorNode.LookupTable.isSome

/-! ### Example states in double precision -/

/-- A color table with four named colors and a lookup table. -/
def exampleColorNode : vtkMRMLColorNode :=
  { NumberOfColors := 4
    GetColorName := fun i =>
      if i = 0 then "background" else if i = 1 then "liver" else if i = 2 then "kidney"
      else if i = 3 then "spleen" else "invalid"
    LookupTable := some { TableRange := (Double.ofInt 0, Double.ofInt 255), Annotations := [] } }

/-- A model display node, visible in every view, colored through `exampleColorNode`. -/
def exampleModelDisplayNode : vtkMRMLDisplayNode :=
  { Class := .OtherDisplayNode, GetVisibility := fun _ => true,
    ColorNode := some exampleColorNode, ScalarRange := (Double.ofInt 10, Double.ofInt 20),
    ScalarRangeFlag := .UseData,
    DisplayableNode := some { ID := some "vtkMRMLModelNode1", IsVolumeNode := false } }

/-- A legend for a model whose only display node is `exampleModelDisplayNode`; no explicit
primary display node, vertical, at position (0.3, 0.5) with size (0.2, 0.4). -/
def exampleLegend : vtkMRMLColorLegendDisplayNode :=
  { ID := "vtkMRMLColorLegendDisplayNode1", Visibility := true, GetVisibility := fun _ => true,
    DisplayableNode := some { DisplayNodes := [exampleModelDisplayNode] },
    PrimaryDisplayNode := none, TitleText := "Organs", TitleTextProperty := 100,
    LabelTextProperty := 101, LabelFormat := "%.1f",
    Size := (Double.ofRatio 2 10, Double.ofRatio 4 10),
    Position := (Double.ofRatio 3 10, Double.ofRatio 5 10),
    Orientation := .Vertical, UseColorNamesForLabels := false, NumberOfLabels := 5,
    MaxNumberOfColors := 256 }

/-- An actor as it is before the first update: vertical, anchored at (0.82, 0.1), width 0.17,
height 0.8, with text properties 2 and 3. -/
def exampleActor : vtkSlicerScalarBarActor :=
  { Visibility := true, Title := "", TitleTextProperty := 2, LabelTextProperty := 3,
    LabelFormat := "%-#6.3g", Orientation := .Vertical,
    Position := (Double.ofRatio 82 100, Double.ofRatio 1 10), Width := Double.ofRatio 17 100,
    Height := Double.ofRatio 8 10, TextPosition := .SucceedScalarBar, TextPad := 1,
    LookupTable := none, NumberOfLabels := 5, MaximumNumberOfColors := 64,
    UseAnnotationAsLabel := false, CenterLabel := false, UnconstrainedFontSize := false,
    BarRatio := Double.ofRatio 375 1000 }

/-- A manager of the view `vtkMRMLSliceNodeRed` in which the given legend ID is registered
with actor 1, attached to the legend renderer; no slice composite node. -/
def exampleRegisteredAs (id : String) : Manager :=
  { MRMLDisplayableNode := some { ID := "vtkMRMLSliceNodeRed" }
    ColorLegendActorsMap := [(id, 1)]
    SliceCompositeNode := none
    ColorLegendRenderer := some ⟨[1]⟩
    Actors := fun _ => exampleActor
    TextProperties := fun _ => ⟨.Left, 0⟩ }

/-- The manager in which `exampleLegend` is registered. -/
def exampleRegistered : Manager := exampleRegisteredAs "vtkMRMLColorLegendDisplayNode1"

/-- A horizontal legend at position (0.7, 0.2) with size (0.1, 0.3). -/
def exampleHorizontalLegend : vtkMRMLColorLegendDisplayNode :=
  { exampleLegend with
    ID := "vtkMRMLColorLegendDisplayNode5"
    Orientation := .Horizontal
    Position := (Double.ofRatio 7 10, Double.ofRatio 2 10)
    Size := (Double.ofRatio 1 10, Double.ofRatio 3 10) }

/-- The manager in which `exampleHorizontalLegend` is registered. -/
def exampleRegisteredHorizontal : Manager :=
  exampleRegisteredAs "vtkMRMLColorLegendDisplayNode5"

/-- A legend of the model display node that asks for color names as labels. -/
def exampleNamedLegend : vtkMRMLColorLegendDisplayNode :=
  { exampleLegend with
    ID := "vtkMRMLColorLegendDisplayNode6"
    UseColorNamesForLabels := true }

/-- The manager in which `exampleNamedLegend` is registered. -/
def exampleRegisteredNamed : Manager := exampleRegisteredAs "vtkMRMLColorLegendDisplayNode6"

/-- A scalar volume display node with window 100 and level 50, showing volume 1. -/
def exampleVolumeDisplayNode : vtkMRMLDisplayNode :=
  { Class := .ScalarVolumeDisplayNode (Double.ofInt 100) (Double.ofInt 50),
    GetVisibility := fun _ => true, ColorNode := some exampleColorNode,
    ScalarRange := (Double.ofInt 0, Double.ofInt 4095), ScalarRangeFlag := .UseData,
    DisplayableNode := some { ID := some "vtkMRMLScalarVolumeNode1", IsVolumeNode := true } }

/-- A legend whose explicit primary display node is `exampleVolumeDisplayNode`. -/
def exampleVolumeLegend : vtkMRMLColorLegendDisplayNode :=
  { exampleLegend with
    ID := "vtkMRMLColorLegendDisplayNode4"
    DisplayableNode := some { DisplayNodes := [exampleVolumeDisplayNode] }
    PrimaryDisplayNode := some exampleVolumeDisplayNode }

/-- A manager of a slice view whose composite node shows volume 1 as background, with
`exampleVolumeLegend` registered. -/
def exampleRegisteredVolumeInSlice : Manager :=
  { exampleRegisteredAs "vtkMRMLColorLegendDisplayNode4" with
    SliceCompositeNode :=
      some { BackgroundVolumeID := some "vtkMRMLScalarVolumeNode1",
             ForegroundVolumeID := none, LabelVolumeID := none } }

/-- A color table with 49 colors, all of the same name. -/
def exampleColorNode49 : vtkMRMLColorNode :=
  { NumberOfColors := 49, GetColorName := fun _ => "color",
    LookupTable := some { TableRange := (Double.ofInt 0, Double.ofInt 48), Annotations := [] } }

/-- A color table with 300 colors, all of the same name. -/
def exampleColorNode300 : vtkMRMLColorNode :=
  { NumberOfColors := 300, GetColorName := fun _ => "color",
    LookupTable := some { TableRange := (Double.ofInt 0, Double.ofInt 299), Annotations := [] } }

end Binary64

end vtkMRMLColorLegendDisplayableManager

namespace vtkMRMLColorLegendDisplayableManager

/-! ## Frame lemmas -/

@[simp] theorem modifyActor_scene (s : Manager) (a : Nat) (f) :
    (s.modifyActor a f).MRMLScene = s.MRMLScene := rfl

@[simp] theorem modifyActor_view (s : Manager) (a : Nat) (f) :
    (s.modifyActor a f).MRMLDisplayableNode = s.MRMLDisplayableNode := rfl

@[simp] theorem modifyActor_map (s : Manager) (a : Nat) (f) :
    (s.modifyActor a f).ColorLegendActorsMap = s.ColorLegendActorsMap := rfl

@[simp] theorem modifyActor_composite (s : Manager) (a : Nat) (f) :
    (s.modifyActor a f).SliceCompositeNode = s.SliceCompositeNode := rfl

@[simp] theorem modifyActor_renderer (s : Manager) (a : Nat) (f) :
    (s.modifyActor a f).ColorLegendRenderer = s.ColorLegendRenderer := rfl

@[simp] theorem modifyActor_requests (s : Manager) (a : Nat) (f) :
    (s.modifyActor a f).RenderRequests = s.RenderRequests := rfl

@[simp] theorem modifyActor_textProperties (s : Manager) (a : Nat) (f) :
    (s.modifyActor a f).TextProperties = s.TextProperties := rfl

@[simp] theorem modifyActor_actors_self (s : Manager) (a : Nat) (f) :
    (s.modifyActor a f).Actors a = f (s.Actors a) := by
  simp [Manager.modifyActor]

theorem modifyActor_actors_other (s : Manager) (a b : Nat) (f) (h : b ≠ a) :
    (s.modifyActor a f).Actors b = s.Actors b := by
  simp [Manager.modifyActor, Function.update_noteq h]

@[simp] theorem setJustification_scene (s : Manager) (t : Nat) (j) :
    (s.setJustification t j).MRMLScene = s.MRMLScene := rfl

@[simp] theorem setJustification_view (s : Manager) (t : Nat) (j) :
    (s.setJustification t j).MRMLDisplayableNode = s.MRMLDisplayableNode := rfl

@[simp] theorem setJustification_map (s : Manager) (t : Nat) (j) :
    (s.setJustification t j).ColorLegendActorsMap = s.ColorLegendActorsMap := rfl

@[simp] theorem setJustification_composite (s : Manager) (t : Nat) (j) :
    (s.setJustification t j).SliceCompositeNode = s.SliceCompositeNode := rfl

@[simp] theorem setJustification_renderer (s : Manager) (t : Nat) (j) :
    (s.setJustification t j).ColorLegendRenderer = s.ColorLegendRenderer := rfl

@[simp] theorem setJustification_requests (s : Manager) (t : Nat) (j) :
    (s.setJustification t j).RenderRequests = s.RenderRequests := rfl

@[simp] theorem setJustification_actors (s : Manager) (t : Nat) (j) :
    (s.setJustification t j).Actors = s.Actors := rfl

@[simp] theorem setJustification_textProperties_self (s : Manager) (t : Nat) (j) :
    ((s.setJustification t j).TextProperties t).Justification = j := by
  simp [Manager.setJustification]

@[simp] theorem layout_scene (s : Manager) (a : Nat) (d : vtkMRMLColorLegendDisplayNode) :
    (UpdateActor.layout s a d).MRMLScene = s.MRMLScene := by
  unfold UpdateActor.layout
  cases d.Orientation <;> simp only [] <;> first | (split <;> simp) | simp

@[simp] theorem layout_view (s : Manager) (a : Nat) (d : vtkMRMLColorLegendDisplayNode) :
    (UpdateActor.layout s a d).MRMLDisplayableNode = s.MRMLDisplayableNode := by
  unfold UpdateActor.layout
  cases d.Orientation <;> simp only [] <;> first | (split <;> simp) | simp

@[simp] theorem layout_map (s : Manager) (a : Nat) (d : vtkMRMLColorLegendDisplayNode) :
    (UpdateActor.layout s a d).ColorLegendActorsMap = s.ColorLegendActorsMap := by
  unfold UpdateActor.layout
  cases d.Orientation <;> simp only [] <;> first | (split <;> simp) | simp

@[simp] theorem layout_composite (s : Manager) (a : Nat) (d : vtkMRMLColorLegendDisplayNode) :
    (UpdateActor.layout s a d).SliceCompositeNode = s.SliceCompositeNode := by
  unfold UpdateActor.layout
  cases d.Orientation <;> simp only [] <;> first | (split <;> simp) | simp

@[simp] theorem layout_renderer (s : Manager) (a : Nat) (d : vtkMRMLColorLegendDisplayNode) :
    (UpdateActor.layout s a d).ColorLegendRenderer = s.ColorLegendRenderer := by
  unfold UpdateActor.layout
  cases d.Orientation <;> simp only [] <;> first | (split <;> simp) | simp

@[simp] theorem layout_requests (s : Manager) (a : Nat) (d : vtkMRMLColorLegendDisplayNode) :
    (UpdateActor.layout s a d).RenderRequests = s.RenderRequests := by
  unfold UpdateActor.layout
  cases d.Orientation <;> simp only [] <;> first | (split <;> simp) | simp

@[simp] theorem labels_scene (s : Manager) (a : Nat) (d : vtkMRMLColorLegendDisplayNode)
    (c : vtkMRMLColorNode) (lut : vtkLookupTable) :
    (UpdateActor.labels s a d c lut).MRMLScene = s.MRMLScene := by
  unfold UpdateActor.labels
  split <;> simp

@[simp] theorem labels_view (s : Manager) (a : Nat) (d : vtkMRMLColorLegendDisplayNode)
    (c : vtkMRMLColorNode) (lut : vtkLookupTable) :
    (UpdateActor.labels s a d c lut).MRMLDisplayableNode = s.MRMLDisplayableNode := by
  unfold UpdateActor.labels
  split <;> simp

@[simp] theorem labels_map (s : Manager) (a : Nat) (d : vtkMRMLColorLegendDisplayNode)
    (c : vtkMRMLColorNode) (lut : vtkLookupTable) :
    (UpdateActor.labels s a d c lut).ColorLegendActorsMap = s.ColorLegendActorsMap := by
  unfold UpdateActor.labels
  split <;> simp

@[simp] theorem labels_composite (s : Manager) (a : Nat) (d : vtkMRMLColorLegendDisplayNode)
    (c : vtkMRMLColorNode) (lut : vtkLookupTable) :
    (UpdateActor.labels s a d c lut).SliceCompositeNode = s.SliceCompositeNode := by
  unfold UpdateActor.labels
  split <;> simp

@[simp] theorem labels_renderer (s : Manager) (a : Nat) (d : vtkMRMLColorLegendDisplayNode)
    (c : vtkMRMLColorNode) (lut : vtkLookupTable) :
    (UpdateActor.labels s a d c lut).ColorLegendRenderer = s.ColorLegendRenderer := by
  unfold UpdateActor.labels
  split <;> simp

@[simp] theorem labels_requests (s : Manager) (a : Nat) (d : vtkMRMLColorLegendDisplayNode)
    (c : vtkMRMLColorNode) (lut : vtkLookupTable) :
    (UpdateActor.labels s a d c lut).RenderRequests = s.RenderRequests := by
  unfold UpdateActor.labels
  split <;> simp

@[simp] theorem ShowActor_scene (s : Manager) (a : Nat) (b : Bool) :
    (ShowActor s a b).2.MRMLScene = s.MRMLScene := by
  unfold ShowActor
  cases s.ColorLegendRenderer <;> simp [Manager.modifyActor]

@[simp] theorem ShowActor_view (s : Manager) (a : Nat) (b : Bool) :
    (ShowActor s a b).2.MRMLDisplayableNode = s.MRMLDisplayableNode := by
  unfold ShowActor
  cases s.ColorLegendRenderer <;> simp [Manager.modifyActor]

@[simp] theorem ShowActor_map (s : Manager) (a : Nat) (b : Bool) :
    (ShowActor s a b).2.ColorLegendActorsMap = s.ColorLegendActorsMap := by
  unfold ShowActor
  cases s.ColorLegendRenderer <;> simp [Manager.modifyActor]

@[simp] theorem ShowActor_composite (s : Manager) (a : Nat) (b : Bool) :
    (ShowActor s a b).2.SliceCompositeNode = s.SliceCompositeNode := by
  unfold ShowActor
  cases s.ColorLegendRenderer <;> simp [Manager.modifyActor]

@[simp] theorem ShowActor_requests (s : Manager) (a : Nat) (b : Bool) :
    (ShowActor s a b).2.RenderRequests = s.RenderRequests := by
  unfold ShowActor
  cases s.ColorLegendRenderer <;> simp [Manager.modifyActor]

/-- With a known actor, `UpdateActor` is the chain of its phases. -/
theorem UpdateActor_of_actor (s : Manager) (d : vtkMRMLColorLegendDisplayNode) (a : Nat)
    (ha : GetColorLegendActor s (some d) = some a) :
    UpdateActor s (some d) =
      match UpdateActor.visibility s d with
      | none => ShowActor s a false
      | some primaryDisplayNode =>
        match primaryDisplayNode.ColorNode with
        | none => ShowActor (UpdateActor.layout s a d) a false
        | some colorNode =>
          if primaryDisplayNode.ScalarRangeFlag = .UseDirectMapping then
            ShowActor (UpdateActor.layout s a d) a false
          else
            match colorNode.LookupTable with
            | none => ShowActor (UpdateActor.layout s a d) a false
            | some lookupTable =>
              (true, (ShowActor (UpdateActor.labels (UpdateActor.layout s a d) a d colorNode
                { CreateLookupTableCopy lookupTable with
                  TableRange := UpdateActor.range primaryDisplayNode }) a true).2) := by
  simp only [UpdateActor, ha]

theorem UpdateActor_of_no_actor (s : Manager) (d : Option vtkMRMLColorLegendDisplayNode)
    (ha : GetColorLegendActor s d = none) : UpdateActor s d = (false, s) := by
  simp only [UpdateActor, ha]

@[simp] theorem UpdateActor_scene (s : Manager) (d : Option vtkMRMLColorLegendDisplayNode) :
    (UpdateActor s d).2.MRMLScene = s.MRMLScene := by
  cases ha : GetColorLegendActor s d with
  | none => rw [UpdateActor_of_no_actor s d ha]
  | some a =>
    cases d with
    | none => simp [GetColorLegendActor] at ha
    | some d =>
      rw [UpdateActor_of_actor s d a ha]
      repeat (first | split | simp)

@[simp] theorem UpdateActor_view (s : Manager) (d : Option vtkMRMLColorLegendDisplayNode) :
    (UpdateActor s d).2.MRMLDisplayableNode = s.MRMLDisplayableNode := by
  cases ha : GetColorLegendActor s d with
  | none => rw [UpdateActor_of_no_actor s d ha]
  | some a =>
    cases d with
    | none => simp [GetColorLegendActor] at ha
    | some d =>
      rw [UpdateActor_of_actor s d a ha]
      repeat (first | split | simp)

@[simp] theorem UpdateActor_map (s : Manager) (d : Option vtkMRMLColorLegendDisplayNode) :
    (UpdateActor s d).2.ColorLegendActorsMap = s.ColorLegendActorsMap := by
  cases ha : GetColorLegendActor s d with
  | none => rw [UpdateActor_of_no_actor s d ha]
  | some a =>
    cases d with
    | none => simp [GetColorLegendActor] at ha
    | some d =>
      rw [UpdateActor_of_actor s d a ha]
      repeat (first | split | simp)

@[simp] theorem UpdateActor_composite (s : Manager) (d : Option vtkMRMLColorLegendDisplayNode) :
    (UpdateActor s d).2.SliceCompositeNode = s.SliceCompositeNode := by
  cases ha : GetColorLegendActor s d with
  | none => rw [UpdateActor_of_no_actor s d ha]
  | some a =>
    cases d with
    | none => simp [GetColorLegendActor] at ha
    | some d =>
      rw [UpdateActor_of_actor s d a ha]
      repeat (first | split | simp)

@[simp] theorem UpdateActor_requests (s : Manager) (d : Option vtkMRMLColorLegendDisplayNode) :
    (UpdateActor s d).2.RenderRequests = s.RenderRequests := by
  cases ha : GetColorLegendActor s d with
  | none => rw [UpdateActor_of_no_actor s d ha]
  | some a =>
    cases d with
    | none => simp [GetColorLegendActor] at ha
    | some d =>
      rw [UpdateActor_of_actor s d a ha]
      repeat (first | split | simp)

/-! ## The actor registry -/

theorem mem_mapKeys_mapAssign (key : String) (value : Nat) (m : List (String × Nat))
    (k : String) : k ∈ mapKeys (mapAssign key value m) ↔ k = key ∨ k ∈ mapKeys m := by
  induction m with
  | nil => simp [mapAssign, mapKeys]
  | cons e rest ih =>
    obtain ⟨k0, v0⟩ := e
    simp only [mapAssign]
    split
    · rename_i h
      subst h
      simp [mapKeys]
    · split
      · simp [mapKeys]
      · simp only [mapKeys, List.map_cons, List.mem_cons] at ih ⊢
        rw [ih]
        tauto

theorem mem_mapKeys_mapErase (key : String) (m : List (String × Nat)) (k : String) :
    k ∈ mapKeys (mapErase key m) ↔ k ≠ key ∧ k ∈ mapKeys m := by
  simp only [mapKeys, mapErase, List.mem_map, List.mem_filter, bne_iff_ne, ne_eq]
  constructor
  · rintro ⟨e, ⟨he, hne⟩, rfl⟩
    exact ⟨hne, e, he, rfl⟩
  · rintro ⟨hne, e, he, rfl⟩
    exact ⟨e, ⟨he, hne⟩, rfl⟩

theorem mapOrdered_mapAssign (key : String) (value : Nat) (m : List (String × Nat))
    (h : mapOrdered m) : mapOrdered (mapAssign key value m) := by
  induction m with
  | nil => simp [mapAssign, mapKeys, mapOrdered]
  | cons e rest ih =>
    obtain ⟨k0, v0⟩ := e
    simp only [mapOrdered, mapKeys, List.map_cons, List.pairwise_cons] at h
    simp only [mapAssign]
    split
    · rename_i hk
      subst hk
      simpa [mapOrdered, mapKeys] using h
    · rename_i hk
      split
      · rename_i hlt
        simp only [mapOrdered, mapKeys, List.map_cons, List.pairwise_cons, List.mem_cons]
        refine ⟨?_, h⟩
        rintro b (rfl | hb)
        · exact hlt
        · exact lt_trans hlt (h.1 b hb)
      · rename_i hlt
        have hrest := ih h.2
        have hmem := mem_mapKeys_mapAssign key value rest
        simp only [mapOrdered, mapKeys, List.map_cons, List.pairwise_cons] at hrest hmem ⊢
        refine ⟨?_, hrest⟩
        intro b hb
        rcases (hmem b).mp hb with rfl | hb
        · have hne : k0.data ≠ b.data := fun h' => hk (String.ext h')
          exact lt_of_le_of_ne (not_lt.mp hlt) hne
        · exact h.1 b hb

theorem mapOrdered_mapErase (key : String) (m : List (String × Nat)) (h : mapOrdered m) :
    mapOrdered (mapErase key m) := by
  unfold mapOrdered mapKeys mapErase at *
  exact h.sublist ((List.filter_sublist m).map Prod.fst)

theorem mapOrdered_nodup (m : List (String × Nat)) (h : mapOrdered m) :
    (mapKeys m).Nodup := by
  unfold mapOrdered at h
  exact h.imp (fun hab heq => by rw [heq] at hab; exact lt_irrefl _ hab)

theorem mapFind_eq_none_iff (m : List (String × Nat)) (key : String) :
    mapFind m key = none ↔ key ∉ mapKeys m := by
  simp only [mapFind, mapKeys, Option.map_eq_none', List.find?_eq_none, beq_iff_eq,
    List.mem_map, not_exists, not_and]

theorem mapErase_of_not_mem (m : List (String × Nat)) (key : String)
    (h : key ∉ mapKeys m) : mapErase key m = m := by
  simp only [mapErase, List.filter_eq_self, bne_iff_ne, ne_eq]
  intro e he heq
  exact h (List.mem_map.mpr ⟨e, he, heq⟩)

@[simp] theorem ProcessMRMLNodesEvents_map (s : Manager) (caller : Option vtkMRMLNode)
    (event : Nat) :
    (ProcessMRMLNodesEvents s caller event).ColorLegendActorsMap = s.ColorLegendActorsMap := by
  unfold ProcessMRMLNodesEvents
  repeat (first | split | simp [RequestRender, SetUpdateFromMRMLRequested])

@[simp] theorem ProcessMRMLNodesEvents_scene (s : Manager) (caller : Option vtkMRMLNode)
    (event : Nat) :
    (ProcessMRMLNodesEvents s caller event).MRMLScene = s.MRMLScene := by
  unfold ProcessMRMLNodesEvents
  repeat (first | split | simp [RequestRender, SetUpdateFromMRMLRequested])

@[simp] theorem ProcessMRMLNodesEvents_view (s : Manager) (caller : Option vtkMRMLNode)
    (event : Nat) :
    (ProcessMRMLNodesEvents s caller event).MRMLDisplayableNode = s.MRMLDisplayableNode := by
  unfold ProcessMRMLNodesEvents
  repeat (first | split | simp [RequestRender, SetUpdateFromMRMLRequested])

@[simp] theorem ProcessMRMLNodesEvents_composite (s : Manager) (caller : Option vtkMRMLNode)
    (event : Nat) :
    (ProcessMRMLNodesEvents s caller event).SliceCompositeNode = s.SliceCompositeNode := by
  unfold ProcessMRMLNodesEvents
  repeat (first | split | simp [RequestRender, SetUpdateFromMRMLRequested])

@[simp] theorem OnMRMLSceneNodeAdded_view (s : Manager) (node : Option vtkMRMLNode) :
    (OnMRMLSceneNodeAdded s node).MRMLDisplayableNode = s.MRMLDisplayableNode := by
  unfold OnMRMLSceneNodeAdded
  repeat (first | split | simp [Manager.newActor])

@[simp] theorem OnMRMLSceneNodeAdded_composite (s : Manager) (node : Option vtkMRMLNode) :
    (OnMRMLSceneNodeAdded s node).SliceCompositeNode = s.SliceCompositeNode := by
  unfold OnMRMLSceneNodeAdded
  repeat (first | split | simp [Manager.newActor])

@[simp] theorem OnMRMLSceneNodeRemoved_view (s : Manager) (node : Option vtkMRMLNode) :
    (OnMRMLSceneNodeRemoved s node).MRMLDisplayableNode = s.MRMLDisplayableNode := by
  unfold OnMRMLSceneNodeRemoved
  repeat (first | split | simp)

@[simp] theorem OnMRMLSceneNodeRemoved_composite (s : Manager) (node : Option vtkMRMLNode) :
    (OnMRMLSceneNodeRemoved s node).SliceCompositeNode = s.SliceCompositeNode := by
  unfold OnMRMLSceneNodeRemoved
  repeat (first | split | simp)

@[simp] theorem OnMRMLSceneNodeAdded_scene (s : Manager) (node : Option vtkMRMLNode) :
    (OnMRMLSceneNodeAdded s node).MRMLScene = s.MRMLScene := by
  unfold OnMRMLSceneNodeAdded
  repeat (first | split | simp [Manager.newActor])

@[simp] theorem OnMRMLSceneNodeRemoved_scene (s : Manager) (node : Option vtkMRMLNode) :
    (OnMRMLSceneNodeRemoved s node).MRMLScene = s.MRMLScene := by
  unfold OnMRMLSceneNodeRemoved
  repeat (first | split | simp)

theorem OnMRMLSceneNodeAdded_map (s : Manager) (node : vtkMRMLNode)
    (hscene : s.MRMLScene.isSome = true) :
    (OnMRMLSceneNodeAdded s (some node)).ColorLegendActorsMap =
      if node.IsAColorLegendDisplayNode then
        mapAssign node.GetID s.NextObject s.ColorLegendActorsMap
      else s.ColorLegendActorsMap := by
  obtain ⟨scene, hs⟩ := Option.isSome_iff_exists.mp hscene
  simp only [OnMRMLSceneNodeAdded, hs]
  split <;> simp [Manager.newActor]

theorem OnMRMLSceneNodeRemoved_map (s : Manager) (node : vtkMRMLNode)
    (hscene : s.MRMLScene.isSome = true) :
    (OnMRMLSceneNodeRemoved s (some node)).ColorLegendActorsMap =
      if node.IsAColorLegendDisplayNode then mapErase node.GetID s.ColorLegendActorsMap
      else s.ColorLegendActorsMap := by
  obtain ⟨scene, hs⟩ := Option.isSome_iff_exists.mp hscene
  simp only [OnMRMLSceneNodeRemoved, hs]
  split
  · split
    · split <;> simp
    · rename_i hnone
      simp [mapErase_of_not_mem _ _ ((mapFind_eq_none_iff _ _).mp hnone)]
  · simp

theorem deliverAll_snoc (s : Manager) (events : List SceneEvent) (e : SceneEvent) :
    deliverAll s (events ++ [e]) = deliver (deliverAll s events) e := by
  simp [deliverAll, List.foldl_append]

theorem deliverAll_scene (s : Manager) (events : List SceneEvent) :
    (deliverAll s events).MRMLScene = s.MRMLScene := by
  induction events using List.reverseRecOn with
  | nil => rfl
  | append_singleton es e ih =>
    rw [deliverAll_snoc]
    cases e <;> simp [deliver, ih]

theorem not_isLive_nil (id : String) : ¬ IsLive [] id := by
  rintro ⟨before, e, after, h, _⟩
  simp at h

theorem isLive_snoc (events : List SceneEvent) (e : SceneEvent) (id : String) :
    IsLive (events ++ [e]) id ↔
      e.addsLegend id = true ∨ (IsLive events id ∧ e.removesLegend id = false) := by
  constructor
  · rintro ⟨before, x, after, heq, hadd, hrem⟩
    rcases List.eq_nil_or_concat after with rfl | ⟨L, b, rfl⟩
    · have h2 : events ++ [e] = before ++ [x] := by simpa using heq
      have h3 := List.append_inj' h2 rfl
      have hx : e = x := by simpa using h3.2
      left
      rw [hx]
      exact hadd
    · have h2 : events ++ [e] = (before ++ x :: L) ++ [b] := by simpa using heq
      have h3 := List.append_inj' h2 rfl
      have hb : e = b := by simpa using h3.2
      right
      refine ⟨⟨before, x, L, h3.1, hadd, fun e' he' => hrem e' ?_⟩, ?_⟩
      · simp [he']
      · rw [hb]
        exact hrem b (by simp)
  · rintro (hadd | ⟨⟨before, x, after, heq, hadd, hrem⟩, hnot⟩)
    · exact ⟨events, e, [], rfl, hadd, by simp⟩
    · refine ⟨before, x, after ++ [e], by simp [heq], hadd, ?_⟩
      intro e' he'
      rcases List.mem_append.mp he' with h | h
      · exact hrem e' h
      · have : e' = e := by simpa using h
        rw [this]
        exact hnot

/-! ## C1: the registry follows the scene -/

theorem deliver_map (s : Manager) (e : SceneEvent) (hscene : s.MRMLScene.isSome = true)
    (id : String) :
    id ∈ mapKeys (deliver s e).ColorLegendActorsMap ↔
      e.addsLegend id = true ∨
        (id ∈ mapKeys s.ColorLegendActorsMap ∧ e.removesLegend id = false) := by
  cases e with
  | NodeAdded node =>
    simp only [deliver, OnMRMLSceneNodeAdded_map s node hscene, SceneEvent.addsLegend,
      SceneEvent.removesLegend]
    cases hn : node.IsAColorLegendDisplayNode
    · simp
    · simp only [if_true, mem_mapKeys_mapAssign, Bool.true_and, beq_iff_eq, and_true]
      constructor
      · rintro (h | h)
        · exact Or.inl h.symm
        · exact Or.inr h
      · rintro (h | h)
        · exact Or.inl h.symm
        · exact Or.inr h
  | NodeRemoved node =>
    simp only [deliver, OnMRMLSceneNodeRemoved_map s node hscene, SceneEvent.addsLegend,
      SceneEvent.removesLegend]
    cases hn : node.IsAColorLegendDisplayNode
    · simp
    · simp only [if_true, mem_mapKeys_mapErase, Bool.true_and, beq_eq_false_iff_ne, ne_eq,
        false_or, Bool.false_eq_true]
      constructor
      · rintro ⟨h1, h2⟩
        exact ⟨h2, fun h => h1 h.symm⟩
      · rintro ⟨h1, h2⟩
        exact ⟨fun h => h2 h.symm, h1⟩

theorem deliver_mapOrdered (s : Manager) (e : SceneEvent) (hscene : s.MRMLScene.isSome = true)
    (h : mapOrdered s.ColorLegendActorsMap) : mapOrdered (deliver s e).ColorLegendActorsMap := by
  cases e with
  | NodeAdded node =>
    simp only [deliver, OnMRMLSceneNodeAdded_map s node hscene]
    split
    · exact mapOrdered_mapAssign _ _ _ h
    · exact h
  | NodeRemoved node =>
    simp only [deliver, OnMRMLSceneNodeRemoved_map s node hscene]
    split
    · exact mapOrdered_mapErase _ _ h
    · exact h

theorem deliverAll_mapOrdered (s : Manager) (events : List SceneEvent)
    (hscene : s.MRMLScene.isSome = true) (h : mapOrdered s.ColorLegendActorsMap) :
    mapOrdered (deliverAll s events).ColorLegendActorsMap := by
  induction events using List.reverseRecOn with
  | nil => exact h
  | append_singleton es e ih =>
    rw [deliverAll_snoc]
    exact deliver_mapOrdered _ e (by rw [deliverAll_scene]; exact hscene) ih

/-- C1: starting from an empty registry and with a valid scene, after any sequence of
node-added and node-removed events (with non-null nodes) an ID is a key of
`ColorLegendActorsMap` exactly when a color legend display node with that ID has been added
and not since removed; no key occurs twice; and an event for a node of any other type leaves
the registry unchanged. -/
theorem C1_registry_keys_are_live_legend_ids (s : Manager) (events : List SceneEvent)
    (hscene : s.MRMLScene.isSome = true) (hempty : s.ColorLegendActorsMap = []) :
    (∀ id, id ∈ mapKeys (deliverAll s events).ColorLegendActorsMap ↔ IsLive events id) ∧
    (mapKeys (deliverAll s events).ColorLegendActorsMap).Nodup ∧
    (∀ (s0 : Manager) (node : vtkMRMLNode), node.IsAColorLegendDisplayNode = false →
      (deliver s0 (.NodeAdded node)).ColorLegendActorsMap = s0.ColorLegendActorsMap ∧
      (deliver s0 (.NodeRemoved node)).ColorLegendActorsMap = s0.ColorLegendActorsMap) := by
  refine ⟨?_, ?_, ?_⟩
  · intro id
    induction events using List.reverseRecOn with
    | nil =>
      simp only [deliverAll, List.foldl_nil, hempty, mapKeys, List.map_nil, List.not_mem_nil,
        false_iff]
      exact not_isLive_nil id
    | append_singleton es e ih =>
      rw [deliverAll_snoc, isLive_snoc,
        deliver_map _ e (by rw [deliverAll_scene]; exact hscene), ih]
  · apply mapOrdered_nodup
    apply deliverAll_mapOrdered s events hscene
    simp [hempty, mapOrdered, mapKeys]
  · intro s0 node hnode
    cases hs : s0.MRMLScene <;>
      simp [deliver, OnMRMLSceneNodeAdded, OnMRMLSceneNodeRemoved, hs, hnode]

theorem C1_witness :
    exampleManager.MRMLScene.isSome = true ∧ exampleManager.ColorLegendActorsMap = [] ∧
    IsLive exampleEvents "vtkMRMLColorLegendDisplayNode2" ∧
    ¬ IsLive exampleEvents "vtkMRMLColorLegendDisplayNode1" :=
  have h := (C1_registry_keys_are_live_legend_ids exampleManager exampleEvents rfl rfl).1
  have hkeys : mapKeys (deliverAll exampleManager exampleEvents).ColorLegendActorsMap =
      ["vtkMRMLColorLegendDisplayNode2"] := by
    simp [deliverAll, exampleEvents, deliver, OnMRMLSceneNodeAdded_map,
      OnMRMLSceneNodeRemoved_map, exampleManager, Manager.initial,
      vtkMRMLNode.IsAColorLegendDisplayNode, vtkMRMLNode.GetID, exampleLegend, exampleLegend2,
      mapAssign, mapErase, mapKeys]
  ⟨rfl, rfl, (h _).mp (by rw [hkeys]; simp), fun hl => by
    have := (h _).mpr hl
    rw [hkeys] at this
    simp at this⟩

/-! ## Showing and hiding an actor -/

theorem ShowActor_no_renderer (s : Manager) (a : Nat) (b : Bool)
    (hr : s.ColorLegendRenderer = none) : ShowActor s a b = (false, s) := by
  simp [ShowActor, hr]

theorem ShowActor_isAttached (s : Manager) (a : Nat) (b : Bool)
    (hr : s.ColorLegendRenderer.isSome = true) : (ShowActor s a b).2.IsAttached a = b := by
  obtain ⟨r, hr⟩ := Option.isSome_iff_exists.mp hr
  cases b <;> by_cases hin : a ∈ r.ViewProps <;>
    simp [ShowActor, hr, Manager.IsAttached, Manager.modifyActor, vtkRenderer.HasViewProp,
      vtkRenderer.AddActor2D, vtkRenderer.RemoveActor, hin]

theorem ShowActor_isAttached_other (s : Manager) (a x : Nat) (b : Bool) (hx : x ≠ a) :
    (ShowActor s a b).2.IsAttached x = s.IsAttached x := by
  cases hr : s.ColorLegendRenderer with
  | none => rw [ShowActor_no_renderer s a b hr]
  | some r =>
    cases b <;> by_cases hin : a ∈ r.ViewProps <;>
      simp [ShowActor, hr, Manager.IsAttached, Manager.modifyActor, vtkRenderer.HasViewProp,
        vtkRenderer.AddActor2D, vtkRenderer.RemoveActor, hin, hx]

theorem ShowActor_visibility (s : Manager) (a : Nat) (b : Bool)
    (hr : s.ColorLegendRenderer.isSome = true) :
    ((ShowActor s a b).2.Actors a).Visibility = b := by
  obtain ⟨r, hr⟩ := Option.isSome_iff_exists.mp hr
  simp [ShowActor, hr]

theorem ShowActor_changed (s : Manager) (a : Nat) (b : Bool) :
    (ShowActor s a b).1 =
      (s.ColorLegendRenderer.isSome &&
        ((s.IsAttached a && (s.Actors a).Visibility) != b)) := by
  cases hr : s.ColorLegendRenderer with
  | none => simp [ShowActor, hr]
  | some r => simp [ShowActor, hr, Manager.IsAttached]

@[simp] theorem ShowActor_renderer_isSome (s : Manager) (a : Nat) (b : Bool) :
    (ShowActor s a b).2.ColorLegendRenderer.isSome = s.ColorLegendRenderer.isSome := by
  cases hr : s.ColorLegendRenderer with
  | none => simp [ShowActor, hr]
  | some r => simp [ShowActor, hr]

@[simp] theorem ShowActor_textProperties (s : Manager) (a : Nat) (b : Bool) :
    (ShowActor s a b).2.TextProperties = s.TextProperties := by
  cases hr : s.ColorLegendRenderer with
  | none => simp [ShowActor, hr]
  | some r => simp [ShowActor, hr]

/-- The call `ShowActor` changes no attribute of an actor other than its visibility flag. -/
theorem ShowActor_actors (s : Manager) (a x : Nat) (b : Bool) :
    ∃ v, (ShowActor s a b).2.Actors x = { (s.Actors x) with Visibility := v } := by
  cases hr : s.ColorLegendRenderer with
  | none => exact ⟨(s.Actors x).Visibility, by simp [ShowActor, hr]⟩
  | some r =>
    by_cases hx : x = a
    · subst hx
      exact ⟨b, by simp [ShowActor, hr]⟩
    · exact ⟨(s.Actors x).Visibility, by
        simp [ShowActor, hr, modifyActor_actors_other _ _ _ _ hx]⟩

/-! ## The visibility computed by `UpdateActor` -/

theorem visibility_congr (s s1 : Manager) (d : vtkMRMLColorLegendDisplayNode)
    (hv : s1.MRMLDisplayableNode = s.MRMLDisplayableNode)
    (hc : s1.SliceCompositeNode = s.SliceCompositeNode) :
    UpdateActor.visibility s1 d = UpdateActor.visibility s d := by
  simp only [UpdateActor.visibility, IsVolumeVisibleInSliceView, hv, hc]

theorem shows_congr (s s1 : Manager) (d : vtkMRMLColorLegendDisplayNode)
    (hv : s1.MRMLDisplayableNode = s.MRMLDisplayableNode)
    (hc : s1.SliceCompositeNode = s.SliceCompositeNode) :
    UpdateActor.shows s1 d = UpdateActor.shows s d := by
  simp only [UpdateActor.shows, visibility_congr s s1 d hv hc]

/-- When the computed visibility is `true`, `UpdateActor` runs all its phases. -/
theorem UpdateActor_of_shows (s : Manager) (d : vtkMRMLColorLegendDisplayNode) (a : Nat)
    (ha : GetColorLegendActor s (some d) = some a) (hs : UpdateActor.shows s d = true) :
    ∃ p c l, UpdateActor.visibility s d = some p ∧ p.ColorNode = some c ∧
      p.ScalarRangeFlag ≠ .UseDirectMapping ∧ c.LookupTable = some l ∧
      UpdateActor s (some d) =
        (true, (ShowActor (UpdateActor.labels (UpdateActor.layout s a d) a d c
          { CreateLookupTableCopy l with TableRange := UpdateActor.range p }) a true).2) := by
  rw [UpdateActor_of_actor s d a ha]
  unfold UpdateActor.shows at hs
  cases hv : UpdateActor.visibility s d with
  | none => simp [hv] at hs
  | some p =>
    cases hc : p.ColorNode with
    | none => simp [hv, hc] at hs
    | some c =>
      by_cases hd : p.ScalarRangeFlag = .UseDirectMapping
      · simp [hv, hc, hd] at hs
      · cases hl : c.LookupTable with
        | none => simp [hv, hc, hd, hl] at hs
        | some l => exact ⟨p, c, l, rfl, hc, hd, hl, by simp [hc, hd, hl]⟩

/-- When the computed visibility is `false`, `UpdateActor` ends in `ShowActor(actor, false)`,
before or after the layout phase. -/
theorem UpdateActor_of_not_shows (s : Manager) (d : vtkMRMLColorLegendDisplayNode) (a : Nat)
    (ha : GetColorLegendActor s (some d) = some a) (hs : UpdateActor.shows s d = false) :
    UpdateActor s (some d) = ShowActor s a false ∨
      UpdateActor s (some d) = ShowActor (UpdateActor.layout s a d) a false := by
  rw [UpdateActor_of_actor s d a ha]
  unfold UpdateActor.shows at hs
  cases hv : UpdateActor.visibility s d with
  | none => simp
  | some p =>
    cases hc : p.ColorNode with
    | none => simp [hc]
    | some c =>
      by_cases hd : p.ScalarRangeFlag = .UseDirectMapping
      · simp [hc, hd]
      · cases hl : c.LookupTable with
        | none => simp [hc, hd, hl]
        | some l => simp [hv, hc, hd, hl] at hs

theorem UpdateActor_isAttached (s : Manager) (d : vtkMRMLColorLegendDisplayNode) (a : Nat)
    (ha : GetColorLegendActor s (some d) = some a)
    (hr : s.ColorLegendRenderer.isSome = true) :
    (UpdateActor s (some d)).2.IsAttached a = UpdateActor.shows s d := by
  cases hs : UpdateActor.shows s d with
  | true =>
    obtain ⟨p, c, l, -, -, -, -, h⟩ := UpdateActor_of_shows s d a ha hs
    rw [h]
    exact ShowActor_isAttached _ a true (by simpa using hr)
  | false =>
    rcases UpdateActor_of_not_shows s d a ha hs with h | h <;> rw [h]
    · exact ShowActor_isAttached _ a false hr
    · exact ShowActor_isAttached _ a false (by simpa using hr)

theorem UpdateActor_actor_visibility (s : Manager) (d : vtkMRMLColorLegendDisplayNode)
    (a : Nat) (ha : GetColorLegendActor s (some d) = some a)
    (hr : s.ColorLegendRenderer.isSome = true) :
    ((UpdateActor s (some d)).2.Actors a).Visibility = UpdateActor.shows s d := by
  cases hs : UpdateActor.shows s d with
  | true =>
    obtain ⟨p, c, l, -, -, -, -, h⟩ := UpdateActor_of_shows s d a ha hs
    rw [h]
    exact ShowActor_visibility _ a true (by simpa using hr)
  | false =>
    rcases UpdateActor_of_not_shows s d a ha hs with h | h <;> rw [h]
    · exact ShowActor_visibility _ a false hr
    · exact ShowActor_visibility _ a false (by simpa using hr)

theorem UpdateActor_registered (s : Manager) (d1 : vtkMRMLColorLegendDisplayNode)
    (x : Option vtkMRMLColorLegendDisplayNode) :
    GetColorLegendActor (UpdateActor s x).2 (some d1) = GetColorLegendActor s (some d1) := by
  simp [GetColorLegendActor]

theorem UpdateActor_renderer_isSome (s : Manager) (x : Option vtkMRMLColorLegendDisplayNode) :
    (UpdateActor s x).2.ColorLegendRenderer.isSome = s.ColorLegendRenderer.isSome := by
  cases ha : GetColorLegendActor s x with
  | none => rw [UpdateActor_of_no_actor s x ha]
  | some a =>
    cases x with
    | none => simp [GetColorLegendActor] at ha
    | some d =>
      cases hs : UpdateActor.shows s d with
      | true =>
        obtain ⟨p, c, l, -, -, -, -, h⟩ := UpdateActor_of_shows s d a ha hs
        rw [h]
        simp
      | false =>
        rcases UpdateActor_of_not_shows s d a ha hs with h | h <;> rw [h] <;> simp

/-- The result of `UpdateActor` on a state that the same call has just produced. -/
theorem UpdateActor_twice (s : Manager) (d : vtkMRMLColorLegendDisplayNode) (a : Nat)
    (ha : GetColorLegendActor s (some d) = some a) :
    (UpdateActor (UpdateActor s (some d)).2 (some d)).1 = UpdateActor.shows s d := by
  have ha1 : GetColorLegendActor (UpdateActor s (some d)).2 (some d) = some a := by
    rw [UpdateActor_registered s d]
    exact ha
  have hs1 : UpdateActor.shows (UpdateActor s (some d)).2 d = UpdateActor.shows s d :=
    shows_congr s _ d (by simp) (by simp)
  cases hs : UpdateActor.shows s d with
  | true =>
    rw [hs] at hs1
    obtain ⟨p, c, l, -, -, -, -, h⟩ := UpdateActor_of_shows _ d a ha1 hs1
    rw [h]
  | false =>
    rw [hs] at hs1
    cases hr : s.ColorLegendRenderer.isSome with
    | false =>
      have hr1 : (UpdateActor s (some d)).2.ColorLegendRenderer.isSome = false := by
        rw [UpdateActor_renderer_isSome, hr]
      rcases UpdateActor_of_not_shows _ d a ha1 hs1 with h | h <;> rw [h, ShowActor_changed] <;>
        simp [hr1]
    | true =>
      have hatt := UpdateActor_isAttached s d a ha hr
      rw [hs] at hatt
      rcases UpdateActor_of_not_shows _ d a ha1 hs1 with h | h <;> rw [h, ShowActor_changed]
      · simp [hatt]
      · have : (UpdateActor.layout (UpdateActor s (some d)).2 a d).IsAttached a = false := by
          simpa [Manager.IsAttached] using hatt
        simp [this]

/-! ## C2: running `UpdateActor` twice -/

/-- C2, as amended: when `UpdateActor` is run twice in a row on a registered descriptor with
nothing changed in between, the second run reports "changed" exactly when the call computes
the legend as shown, and "unchanged" when it computes it as hidden; accordingly the second
descriptor-modified event handled by `ProcessMRMLNodesEvents` issues one render request when
the legend is shown and none when it is hidden. -/
theorem C2_second_update_changed_iff_shown (s : Manager) (d : vtkMRMLColorLegendDisplayNode)
    (a : Nat) (ha : GetColorLegendActor s (some d) = some a) :
    (UpdateActor (UpdateActor s (some d)).2 (some d)).1 = UpdateActor.shows s d ∧
    (ProcessMRMLNodesEvents (UpdateActor s (some d)).2 (some (.ColorLegendDisplayNode d))
        ModifiedEvent).RenderRequests =
      (UpdateActor s (some d)).2.RenderRequests + (if UpdateActor.shows s d then 1 else 0) := by
  have h := UpdateActor_twice s d a ha
  refine ⟨h, ?_⟩
  simp only [ProcessMRMLNodesEvents, ne_eq, not_true_eq_false, if_false, h]
  cases UpdateActor.shows s d <;> simp [RequestRender]

theorem exampleRegistered_actor :
    GetColorLegendActor exampleRegistered (some exampleLegend) = some 1 := by
  simp [exampleRegistered, GetColorLegendActor, OnMRMLSceneNodeAdded_map, exampleManager,
    Manager.initial, vtkMRMLNode.IsAColorLegendDisplayNode, vtkMRMLNode.GetID, mapAssign,
    mapFind]

theorem exampleRegistered_shows : UpdateActor.shows exampleRegistered exampleLegend = true :=
  (shows_congr exampleManager exampleRegistered exampleLegend
    (by simp [exampleRegistered]) (by simp [exampleRegistered])).trans (by decide)

/-- C2 fails as stated: for the registered, visible `exampleLegend` the second of two
consecutive `UpdateActor` runs reports "changed", and the second descriptor-modified event
issues a render request. -/
theorem C2_counterexample :
    GetColorLegendActor exampleRegistered (some exampleLegend) = some 1 ∧
    (UpdateActor (UpdateActor exampleRegistered (some exampleLegend)).2
      (some exampleLegend)).1 = true ∧
    (ProcessMRMLNodesEvents (UpdateActor exampleRegistered (some exampleLegend)).2
        (some (.ColorLegendDisplayNode exampleLegend)) ModifiedEvent).RenderRequests =
      (UpdateActor exampleRegistered (some exampleLegend)).2.RenderRequests + 1 := by
  have h := UpdateActor_twice exampleRegistered exampleLegend 1 exampleRegistered_actor
  rw [exampleRegistered_shows] at h
  refine ⟨exampleRegistered_actor, h, ?_⟩
  simp [ProcessMRMLNodesEvents, h, RequestRender]

@[simp] theorem ProcessMRMLNodesEvents_renderer_isSome (s : Manager)
    (caller : Option vtkMRMLNode) (event : Nat) :
    (ProcessMRMLNodesEvents s caller event).ColorLegendRenderer.isSome =
      s.ColorLegendRenderer.isSome := by
  unfold ProcessMRMLNodesEvents
  repeat (first | split | simp [RequestRender, SetUpdateFromMRMLRequested,
    UpdateActor_renderer_isSome])

@[simp] theorem OnMRMLSceneNodeAdded_renderer_isSome (s : Manager) (node : Option vtkMRMLNode) :
    (OnMRMLSceneNodeAdded s node).ColorLegendRenderer.isSome = s.ColorLegendRenderer.isSome := by
  unfold OnMRMLSceneNodeAdded
  repeat (first | split | simp [Manager.newActor])

theorem exampleRegistered2_actor :
    GetColorLegendActor exampleRegistered2 (some exampleLegend2) = some 1 := by
  simp [exampleRegistered2, GetColorLegendActor, OnMRMLSceneNodeAdded_map, exampleManager,
    Manager.initial, vtkMRMLNode.IsAColorLegendDisplayNode, vtkMRMLNode.GetID, mapAssign,
    mapFind]

theorem exampleRegistered2_shows :
    UpdateActor.shows exampleRegistered2 exampleLegend2 = false :=
  (shows_congr exampleManager exampleRegistered2 exampleLegend2
    (by simp [exampleRegistered2]) (by simp [exampleRegistered2])).trans (by decide)

theorem C2_witness :
    GetColorLegendActor exampleRegistered2 (some exampleLegend2) = some 1 ∧
    (UpdateActor (UpdateActor exampleRegistered2 (some exampleLegend2)).2
      (some exampleLegend2)).1 = false :=
  ⟨exampleRegistered2_actor,
    ((C2_second_update_changed_iff_shown exampleRegistered2 exampleLegend2 1
      exampleRegistered2_actor).1).trans exampleRegistered2_shows⟩

/-! ## C3: attached if and only if shown -/

/-- C3: after `UpdateActor` on a registered descriptor, with the legend renderer present, the
descriptor's actor is attached to the legend renderer if and only if the visibility computed
by the call is true, the actor's visibility flag equals that value, and the registry is the
same as before, so a call that hides the actor detaches it and keeps its registry entry. -/
theorem C3_attached_iff_computed_visibility (s : Manager) (d : vtkMRMLColorLegendDisplayNode)
    (a : Nat) (ha : GetColorLegendActor s (some d) = some a)
    (hr : s.ColorLegendRenderer.isSome = true) :
    ((UpdateActor s (some d)).2.IsAttached a = true ↔ UpdateActor.shows s d = true) ∧
    ((UpdateActor s (some d)).2.Actors a).Visibility = UpdateActor.shows s d ∧
    (UpdateActor s (some d)).2.ColorLegendActorsMap = s.ColorLegendActorsMap ∧
    (UpdateActor.shows s d = false →
      (UpdateActor s (some d)).2.IsAttached a = false ∧
      GetColorLegendActor (UpdateActor s (some d)).2 (some d) = some a) := by
  have h1 := UpdateActor_isAttached s d a ha hr
  have h2 := UpdateActor_actor_visibility s d a ha hr
  refine ⟨by rw [h1], h2, by simp, fun hs => ⟨by rw [h1, hs], ?_⟩⟩
  rw [UpdateActor_registered]
  exact ha

theorem C3_witness :
    GetColorLegendActor exampleRegistered2 (some exampleLegend2) = some 1 ∧
    exampleRegistered2.ColorLegendRenderer.isSome = true ∧
    (UpdateActor exampleRegistered2 (some exampleLegend2)).2.IsAttached 1 = false ∧
    GetColorLegendActor (UpdateActor exampleRegistered2 (some exampleLegend2)).2
      (some exampleLegend2) = some 1 :=
  have hr : exampleRegistered2.ColorLegendRenderer.isSome = true := by
    simp [exampleRegistered2, exampleManager, Manager.initial]
  have h := (C3_attached_iff_computed_visibility exampleRegistered2 exampleLegend2 1
    exampleRegistered2_actor hr).2.2.2 exampleRegistered2_shows
  ⟨exampleRegistered2_actor, hr, h.1, h.2⟩

/-! ## What the visibility checks require -/

theorem UpdateActor_isAttached_imp_shows (s : Manager) (d : vtkMRMLColorLegendDisplayNode)
    (a : Nat) (ha : GetColorLegendActor s (some d) = some a)
    (h : (UpdateActor s (some d)).2.IsAttached a = true) : UpdateActor.shows s d = true := by
  cases hr : s.ColorLegendRenderer.isSome with
  | true => rw [← UpdateActor_isAttached s d a ha hr]; exact h
  | false =>
    have hr1 := UpdateActor_renderer_isSome s (some d)
    rw [hr] at hr1
    simp only [Manager.IsAttached] at h
    split at h
    · simp at h
    · rename_i r hsome
      simp [hsome] at hr1

theorem shows_imp_visibility (s : Manager) (d : vtkMRMLColorLegendDisplayNode)
    (h : UpdateActor.shows s d = true) : ∃ p, UpdateActor.visibility s d = some p := by
  unfold UpdateActor.shows at h
  cases hv : UpdateActor.visibility s d with
  | none => simp [hv] at h
  | some p => exact ⟨p, rfl⟩

theorem volumeIDMatches_iff (x : Option String) (v : String) :
    volumeIDMatches x v = true ↔ x = some v := by
  cases x <;> simp [volumeIDMatches]

theorem IsVolumeVisibleInSliceView_iff (s : Manager) (volumeNode : Option DisplayableNodeRef) :
    IsVolumeVisibleInSliceView s volumeNode = true ↔
      ∃ vol sc vid, volumeNode = some vol ∧ s.SliceCompositeNode = some sc ∧
        vol.ID = some vid ∧
        (sc.BackgroundVolumeID = some vid ∨ sc.ForegroundVolumeID = some vid ∨
          sc.LabelVolumeID = some vid) := by
  unfold IsVolumeVisibleInSliceView
  cases volumeNode with
  | none => simp
  | some vol =>
    cases hsc : s.SliceCompositeNode with
    | none => simp
    | some sc =>
      cases hid : vol.ID with
      | none => simp [hid]
      | some vid => simp [hid, volumeIDMatches_iff]

theorem SafeDownCastVolumeNode_eq_some (n : Option DisplayableNodeRef)
    (vol : DisplayableNodeRef) :
    SafeDownCastVolumeNode n = some vol ↔ n = some vol ∧ vol.IsVolumeNode = true := by
  cases n with
  | none => simp [SafeDownCastVolumeNode]
  | some m =>
    simp only [SafeDownCastVolumeNode, Option.some.injEq]
    constructor
    · intro h
      split at h
      · rename_i hv
        simp only [Option.some.injEq] at h
        subst h
        exact ⟨rfl, hv⟩
      · simp at h
    · rintro ⟨rfl, hv⟩
      simp [hv]

theorem SafeDownCastVolumeDisplayNode_eq_some (p q : vtkMRMLDisplayNode)
    (h : SafeDownCastVolumeDisplayNode p = some q) : q = p := by
  unfold SafeDownCastVolumeDisplayNode at h
  split at h <;> simp at h <;> exact h.symm

/-- What the checks of lines 193–264 have established when control reaches line 266. -/
theorem visibility_eq_some (s : Manager) (d : vtkMRMLColorLegendDisplayNode)
    (p : vtkMRMLDisplayNode) (h : UpdateActor.visibility s d = some p) :
    d.Visibility = true ∧
    ∃ dn v, d.DisplayableNode = some dn ∧ UpdateActor.primaryDisplayNode d dn = some p ∧
      s.MRMLDisplayableNode = some v ∧ d.GetVisibility v.ID = true ∧
      ((SafeDownCastVolumeDisplayNode p).isSome = true →
        s.SliceCompositeNode.isSome = true ∧
        IsVolumeVisibleInSliceView s (SafeDownCastVolumeNode p.DisplayableNode) = true) ∧
      (SafeDownCastVolumeDisplayNode p = none → p.GetVisibility v.ID = true) := by
  unfold UpdateActor.visibility at h
  cases hvis : d.Visibility with
  | false => simp [hvis] at h
  | true =>
    refine ⟨rfl, ?_⟩
    cases hdn : d.DisplayableNode with
    | none => simp [hvis, hdn] at h
    | some dn =>
      cases hp : UpdateActor.primaryDisplayNode d dn with
      | none => simp [hvis, hdn, hp] at h
      | some p1 =>
        cases hv : s.MRMLDisplayableNode with
        | none => simp [hvis, hdn, hp, hv] at h
        | some v =>
          simp only [hvis, hdn, hp, hv, Bool.not_true, Bool.false_eq_true, if_false] at h
          cases hdv : d.GetVisibility v.ID with
          | false => simp [hdv] at h
          | true =>
            simp only [hdv, if_true, Bool.true_and] at h
            cases hcast : SafeDownCastVolumeDisplayNode p1 with
            | none =>
              simp only [hcast] at h
              cases hpv : p1.GetVisibility v.ID with
              | false => simp [hpv] at h
              | true =>
                simp only [hpv, Bool.not_true, Bool.false_eq_true, if_false,
                  Option.some.injEq] at h
                subst h
                exact ⟨dn, v, rfl, hp, rfl, hdv, by simp [hcast], fun _ => hpv⟩
            | some q =>
              have hq := SafeDownCastVolumeDisplayNode_eq_some p1 q hcast
              subst hq
              simp only [hcast] at h
              cases hsc : s.SliceCompositeNode.isSome with
              | false => simp [hsc] at h
              | true =>
                simp only [hsc, if_true] at h
                cases hvv : IsVolumeVisibleInSliceView s
                    (SafeDownCastVolumeNode q.DisplayableNode) with
                | false => simp [hvv] at h
                | true =>
                  simp only [hvv, Bool.not_true, Bool.false_eq_true, if_false,
                    Option.some.injEq] at h
                  subst h
                  exact ⟨dn, v, rfl, hp, rfl, hdv, fun _ => ⟨rfl, hvv⟩, by simp [hcast]⟩

/-! ## C4: the fallback search for the primary display node -/

/-- C4 fails on the code: the fallback loop of `UpdateActor` calls
`displayableNode->GetDisplayNode()` without the loop index, so it only ever inspects display
node 0. For a displayable node whose display nodes are a color legend display node followed
by a model display node, the first non-legend display node exists (the model display node),
yet no primary display node is found and the legend is computed as hidden. -/
theorem C4_fallback_inspects_only_display_node_0 :
    exampleLegendListedFirst.PrimaryDisplayNode.isNone = true ∧
    exampleLegendListedFirst.DisplayableNode.map (fun n => n.DisplayNodes.length) = some 2 ∧
    ((firstNonLegendDisplayNode exampleModelNode).map (fun n => n.Class)) =
      some .OtherDisplayNode ∧
    (UpdateActor.primaryDisplayNode exampleLegendListedFirst exampleModelNode).isNone = true ∧
    UpdateActor.visibility exampleManager exampleLegendListedFirst = none ∧
    UpdateActor.shows exampleManager exampleLegendListedFirst = false := by
  refine ⟨rfl, rfl, rfl, rfl, rfl, rfl⟩

/-! ## C5 and C6: visibility of the primary display node -/

theorem primary_of_visibility (s : Manager) (d : vtkMRMLColorLegendDisplayNode)
    (dn : vtkMRMLDisplayableNode) (p p1 : vtkMRMLDisplayNode)
    (hdn : d.DisplayableNode = some dn) (hp : UpdateActor.primaryDisplayNode d dn = some p)
    (h : UpdateActor.visibility s d = some p1) : p1 = p := by
  obtain ⟨-, dn1, v, hdn1, hp1, -⟩ := visibility_eq_some s d p1 h
  rw [hdn] at hdn1
  cases hdn1
  rw [hp] at hp1
  cases hp1
  rfl

/-- C5: for a descriptor whose primary display node is a volume display node, the actor is
attached to the legend renderer after `UpdateActor` only if a slice composite node is set and
the displayable node of the volume display node is a volume node whose ID is set and equals
the background, foreground or label volume ID set on the slice composite node; when no slice
composite node is set the actor is not attached, and its visibility flag is off when the
legend renderer is present. -/
theorem C5_volume_legend_needs_volume_in_slice_view (s : Manager)
    (d : vtkMRMLColorLegendDisplayNode) (a : Nat) (dn : vtkMRMLDisplayableNode)
    (p : vtkMRMLDisplayNode) (ha : GetColorLegendActor s (some d) = some a)
    (hdn : d.DisplayableNode = some dn) (hp : UpdateActor.primaryDisplayNode d dn = some p)
    (hvol : (SafeDownCastVolumeDisplayNode p).isSome = true) :
    ((UpdateActor s (some d)).2.IsAttached a = true →
      ∃ sc vol vid, s.SliceCompositeNode = some sc ∧ p.DisplayableNode = some vol ∧
        vol.IsVolumeNode = true ∧ vol.ID = some vid ∧
        (sc.BackgroundVolumeID = some vid ∨ sc.ForegroundVolumeID = some vid ∨
          sc.LabelVolumeID = some vid)) ∧
    (s.SliceCompositeNode = none →
      (UpdateActor s (some d)).2.IsAttached a = false ∧
      (s.ColorLegendRenderer.isSome = true →
        ((UpdateActor s (some d)).2.Actors a).Visibility = false)) := by
  have key : UpdateActor.shows s d = true →
      ∃ sc vol vid, s.SliceCompositeNode = some sc ∧ p.DisplayableNode = some vol ∧
        vol.IsVolumeNode = true ∧ vol.ID = some vid ∧
        (sc.BackgroundVolumeID = some vid ∨ sc.ForegroundVolumeID = some vid ∨
          sc.LabelVolumeID = some vid) := by
    intro hs
    obtain ⟨p1, hv⟩ := shows_imp_visibility s d hs
    have hp1 := primary_of_visibility s d dn p p1 hdn hp hv
    subst hp1
    obtain ⟨-, dn1, v, -, -, -, -, hvolume, -⟩ := visibility_eq_some s d p1 hv
    obtain ⟨-, hvis⟩ := hvolume hvol
    obtain ⟨vol, sc, vid, hcast, hsc, hid, hmatch⟩ :=
      (IsVolumeVisibleInSliceView_iff s _).mp hvis
    obtain ⟨hvol1, hisvol⟩ := (SafeDownCastVolumeNode_eq_some _ vol).mp hcast
    exact ⟨sc, vol, vid, hsc, hvol1, hisvol, hid, hmatch⟩
  refine ⟨fun hatt => key (UpdateActor_isAttached_imp_shows s d a ha hatt), fun hnone => ?_⟩
  have hs : UpdateActor.shows s d = false := by
    cases hs : UpdateActor.shows s d with
    | false => rfl
    | true =>
      obtain ⟨sc, -, -, hsc, -⟩ := key hs
      rw [hnone] at hsc
      cases hsc
  constructor
  · cases hatt : (UpdateActor s (some d)).2.IsAttached a with
    | false => rfl
    | true =>
      rw [UpdateActor_isAttached_imp_shows s d a ha hatt] at hs
      cases hs
  · intro hr
    rw [UpdateActor_actor_visibility s d a ha hr, hs]

/-- C6: for a descriptor whose primary display node is not a volume display node, the actor
is attached to the legend renderer after `UpdateActor` only if the view node is set and both
the descriptor's and the primary display node's visibility flag for that view are true; if
either flag is false the actor is not attached, and its visibility flag is off when the
legend renderer is present. -/
theorem C6_other_legend_needs_both_visibility_flags (s : Manager)
    (d : vtkMRMLColorLegendDisplayNode) (a : Nat) (dn : vtkMRMLDisplayableNode)
    (p : vtkMRMLDisplayNode) (ha : GetColorLegendActor s (some d) = some a)
    (hdn : d.DisplayableNode = some dn) (hp : UpdateActor.primaryDisplayNode d dn = some p)
    (hother : SafeDownCastVolumeDisplayNode p = none) :
    ((UpdateActor s (some d)).2.IsAttached a = true →
      ∃ v, s.MRMLDisplayableNode = some v ∧ d.GetVisibility v.ID = true ∧
        p.GetVisibility v.ID = true) ∧
    (∀ v, s.MRMLDisplayableNode = some v →
      (d.GetVisibility v.ID = false ∨ p.GetVisibility v.ID = false) →
      (UpdateActor s (some d)).2.IsAttached a = false ∧
      (s.ColorLegendRenderer.isSome = true →
        ((UpdateActor s (some d)).2.Actors a).Visibility = false)) := by
  have key : UpdateActor.shows s d = true →
      ∃ v, s.MRMLDisplayableNode = some v ∧ d.GetVisibility v.ID = true ∧
        p.GetVisibility v.ID = true := by
    intro hs
    obtain ⟨p1, hv⟩ := shows_imp_visibility s d hs
    have hp1 := primary_of_visibility s d dn p p1 hdn hp hv
    subst hp1
    obtain ⟨-, dn1, v, -, -, hview, hdv, -, hpv⟩ := visibility_eq_some s d p1 hv
    exact ⟨v, hview, hdv, hpv hother⟩
  refine ⟨fun hatt => key (UpdateActor_isAttached_imp_shows s d a ha hatt), ?_⟩
  intro v hview hflags
  have hs : UpdateActor.shows s d = false := by
    cases hs : UpdateActor.shows s d with
    | false => rfl
    | true =>
      obtain ⟨v1, hview1, hdv, hpv⟩ := key hs
      rw [hview] at hview1
      cases hview1
      rcases hflags with h | h
      · rw [h] at hdv
        cases hdv
      · rw [h] at hpv
        cases hpv
  constructor
  · cases hatt : (UpdateActor s (some d)).2.IsAttached a with
    | false => rfl
    | true =>
      rw [UpdateActor_isAttached_imp_shows s d a ha hatt] at hs
      cases hs
  · intro hr
    rw [UpdateActor_actor_visibility s d a ha hr, hs]

theorem mapFind_mapAssign (key : String) (value : Nat) (m : List (String × Nat)) :
    mapFind (mapAssign key value m) key = some value := by
  induction m with
  | nil => simp [mapAssign, mapFind]
  | cons e rest ih =>
    obtain ⟨k0, v0⟩ := e
    simp only [mapAssign]
    split
    · simp [mapFind]
    · rename_i hk
      split
      · simp [mapFind]
      · simp only [mapFind, List.find?_cons] at ih ⊢
        have : (k0 == key) = false := by simpa using hk
        simp only [this]
        exact ih

/-- After the node-added event of a legend descriptor, the descriptor is registered with
the actor that the event created. -/
theorem GetColorLegendActor_added (s : Manager) (d : vtkMRMLColorLegendDisplayNode)
    (hscene : s.MRMLScene.isSome = true) :
    GetColorLegendActor (OnMRMLSceneNodeAdded s (some (.ColorLegendDisplayNode d))) (some d) =
      some s.NextObject := by
  simp only [GetColorLegendActor, OnMRMLSceneNodeAdded_map s _ hscene,
    vtkMRMLNode.IsAColorLegendDisplayNode, if_true, vtkMRMLNode.GetID]
  exact mapFind_mapAssign _ _ _

theorem C5_witness :
    GetColorLegendActor exampleRegisteredVolume (some exampleVolumeLegend) = some 1 ∧
    (SafeDownCastVolumeDisplayNode exampleVolumeDisplayNode).isSome = true ∧
    exampleRegisteredVolume.SliceCompositeNode = none ∧
    (UpdateActor exampleRegisteredVolume (some exampleVolumeLegend)).2.IsAttached 1 = false :=
  have ha : GetColorLegendActor exampleRegisteredVolume (some exampleVolumeLegend) = some 1 :=
    GetColorLegendActor_added exampleManager exampleVolumeLegend rfl
  have hnone : exampleRegisteredVolume.SliceCompositeNode = none := by
    simp [exampleRegisteredVolume, exampleManager, Manager.initial]
  ⟨ha, rfl, hnone,
    ((C5_volume_legend_needs_volume_in_slice_view exampleRegisteredVolume exampleVolumeLegend 1
      { DisplayNodes := [exampleVolumeDisplayNode] } exampleVolumeDisplayNode ha rfl rfl
      rfl).2 hnone).1⟩

theorem C6_witness :
    GetColorLegendActor exampleRegistered (some exampleLegend) = some 1 ∧
    SafeDownCastVolumeDisplayNode exampleModelDisplayNode = none ∧
    (UpdateActor exampleRegistered (some exampleLegend)).2.IsAttached 1 = true ∧
    ∃ v, exampleRegistered.MRMLDisplayableNode = some v ∧
      exampleLegend.GetVisibility v.ID = true ∧
      exampleModelDisplayNode.GetVisibility v.ID = true :=
  have hr : exampleRegistered.ColorLegendRenderer.isSome = true := by
    simp [exampleRegistered, exampleManager, Manager.initial]
  have hatt : (UpdateActor exampleRegistered (some exampleLegend)).2.IsAttached 1 = true :=
    (UpdateActor_isAttached exampleRegistered exampleLegend 1 exampleRegistered_actor hr).trans
      exampleRegistered_shows
  ⟨exampleRegistered_actor, rfl, hatt,
    (C6_other_legend_needs_both_visibility_flags exampleRegistered exampleLegend 1
      { DisplayNodes := [exampleModelDisplayNode] } exampleModelDisplayNode
      exampleRegistered_actor rfl rfl rfl).1 hatt⟩

/-! ## The layout phase in exact arithmetic -/

@[simp] theorem labels_textProperties (s : Manager) (a : Nat)
    (d : vtkMRMLColorLegendDisplayNode) (c : vtkMRMLColorNode) (lut : vtkLookupTable) :
    (UpdateActor.labels s a d c lut).TextProperties = s.TextProperties := by
  unfold UpdateActor.labels
  split <;> simp

/-- The actor after the phase `labels`. -/
theorem labels_actor_self (s : Manager) (a : Nat) (d : vtkMRMLColorLegendDisplayNode)
    (c : vtkMRMLColorNode) (lut : vtkLookupTable) :
    (UpdateActor.labels s a d c lut).Actors a =
      if d.UseColorNamesForLabels && decide (c.NumberOfColors > 0) then
        { (s.Actors a) with
          LookupTable := some ((List.range (UpdateActor.newNumberOfColors c).toNat).foldl
            (UpdateActor.annotate c) lut.ResetAnnotations)
          NumberOfLabels := c.NumberOfColors
          MaximumNumberOfColors := UpdateActor.newNumberOfColors c
          UseAnnotationAsLabel := true
          CenterLabel := true }
      else
        { (s.Actors a) with
          LookupTable := some lut
          NumberOfLabels := d.NumberOfLabels
          MaximumNumberOfColors := d.MaxNumberOfColors
          UseAnnotationAsLabel := false
          CenterLabel := false } := by
  unfold UpdateActor.labels
  split <;> simp

/-- The phase `labels` leaves the layout attributes of the actor as they are. -/
theorem labels_actors (s : Manager) (a : Nat) (d : vtkMRMLColorLegendDisplayNode)
    (c : vtkMRMLColorNode) (lut : vtkLookupTable) :
    ∃ l n m u cl, (UpdateActor.labels s a d c lut).Actors a =
      { (s.Actors a) with
        LookupTable := l, NumberOfLabels := n, MaximumNumberOfColors := m,
        UseAnnotationAsLabel := u, CenterLabel := cl } := by
  rw [labels_actor_self]
  split
  · exact ⟨_, _, _, _, _, rfl⟩
  · exact ⟨_, _, _, _, _, rfl⟩

/-- After a call of `UpdateActor` that passes the visibility checks, the layout attributes of
the actor and all text properties are those that the layout phase has set. -/
theorem UpdateActor_keeps_layout (s : Manager) (d : vtkMRMLColorLegendDisplayNode) (a : Nat)
    (p : vtkMRMLDisplayNode) (ha : GetColorLegendActor s (some d) = some a)
    (hv : UpdateActor.visibility s d = some p) :
    (UpdateActor s (some d)).2.TextProperties = (UpdateActor.layout s a d).TextProperties ∧
    ∃ v l n m u cl, (UpdateActor s (some d)).2.Actors a =
      { ((UpdateActor.layout s a d).Actors a) with
        Visibility := v, LookupTable := l, NumberOfLabels := n, MaximumNumberOfColors := m,
        UseAnnotationAsLabel := u, CenterLabel := cl } := by
  have hide : ∀ s0 : Manager,
      (ShowActor s0 a false).2.TextProperties = s0.TextProperties ∧
      ∃ v l n m u cl, (ShowActor s0 a false).2.Actors a =
        { (s0.Actors a) with
          Visibility := v, LookupTable := l, NumberOfLabels := n, MaximumNumberOfColors := m,
          UseAnnotationAsLabel := u, CenterLabel := cl } := by
    intro s0
    obtain ⟨v, h⟩ := ShowActor_actors s0 a a false
    exact ⟨by simp, v, _, _, _, _, _, by rw [h]⟩
  rw [UpdateActor_of_actor s d a ha, hv]
  simp only []
  cases hc : p.ColorNode with
  | none => exact hide _
  | some c =>
    simp only []
    by_cases hd : p.ScalarRangeFlag = .UseDirectMapping
    · simp only [hd, if_true]
      exact hide _
    · simp only [hd, if_false]
      cases hl : c.LookupTable with
      | none => exact hide _
      | some l =>
        simp only []
        obtain ⟨v, h1⟩ := ShowActor_actors (UpdateActor.labels (UpdateActor.layout s a d) a d c
          { CreateLookupTableCopy l with TableRange := UpdateActor.range p }) a a true
        obtain ⟨l1, n, m, u, cl, h2⟩ := labels_actors (UpdateActor.layout s a d) a d c
          { CreateLookupTableCopy l with TableRange := UpdateActor.range p }
        refine ⟨by simp, v, l1, n, m, u, cl, ?_⟩
        rw [h1, h2]

theorem layout_vertical (s : Manager) (a : Nat) (d : vtkMRMLColorLegendDisplayNode)
    (ho : d.Orientation = .Vertical) :
    ((UpdateActor.layout s a d).Actors a).Orientation = .Vertical ∧
    ((UpdateActor.layout s a d).Actors a).Position =
      (d.Position.1 * (1 - d.Size.1), d.Position.2 * (1 - d.Size.2)) ∧
    ((UpdateActor.layout s a d).Actors a).Width = d.Size.1 ∧
    ((UpdateActor.layout s a d).Actors a).Height = d.Size.2 ∧
    ((UpdateActor.layout s a d).Actors a).TextPosition =
      (if d.Position.1 < 0.5 then .SucceedScalarBar else .PrecedeScalarBar) ∧
    ((UpdateActor.layout s a d).Actors a).TextPad = (if d.Position.1 < 0.5 then 2 else -2) ∧
    ((UpdateActor.layout s a d).TextProperties
        ((UpdateActor.layout s a d).Actors a).TitleTextProperty).Justification =
      (if d.Position.1 < 0.5 then .Left else .Right) := by
  simp only [UpdateActor.layout, ho]
  split <;> simp

theorem layout_horizontal (s : Manager) (a : Nat) (d : vtkMRMLColorLegendDisplayNode)
    (ho : d.Orientation = .Horizontal) :
    ((UpdateActor.layout s a d).Actors a).Orientation = .Horizontal ∧
    ((UpdateActor.layout s a d).Actors a).Position =
      (d.Position.1 * (1 - d.Size.2), d.Position.2 * (1 - d.Size.1)) ∧
    ((UpdateActor.layout s a d).Actors a).Width = d.Size.2 ∧
    ((UpdateActor.layout s a d).Actors a).Height = d.Size.1 ∧
    ((UpdateActor.layout s a d).Actors a).TextPosition =
      (if d.Position.2 < 0.5 then .SucceedScalarBar else .PrecedeScalarBar) ∧
    ((UpdateActor.layout s a d).Actors a).TextPad = 0 ∧
    ((UpdateActor.layout s a d).TextProperties
        ((UpdateActor.layout s a d).Actors a).TitleTextProperty).Justification = .Centered := by
  simp only [UpdateActor.layout, ho]
  split <;> simp

theorem exampleRegistered_visibility :
    UpdateActor.visibility exampleRegistered exampleLegend = some exampleModelDisplayNode :=
  (visibility_congr exampleManager exampleRegistered exampleLegend
    (by simp [exampleRegistered]) (by simp [exampleRegistered])).trans rfl

/-! ## The annotation indices in exact arithmetic -/

theorem truncToInt_of_nonneg (x : ℚ) (hx : 0 ≤ x) : truncToInt x = ⌊x⌋ := by
  simp [truncToInt, hx]

/-- In exact arithmetic the index `trunc(i / (256 / n))` is the integer quotient
`i * n / 256`. -/
theorem truncToInt_div_oversampling (n : Int) (hn : 0 < n) (i : Nat) :
    truncToInt (((i : Int) : ℚ) / (256 / (n : ℚ))) = ((i : Int) * n) / 256 := by
  have hn' : (0 : ℚ) < (n : ℚ) := by exact_mod_cast hn
  have hi : (0 : ℚ) ≤ ((i : Int) : ℚ) := by exact_mod_cast Int.natCast_nonneg i
  have hx : (0 : ℚ) ≤ ((i : Int) : ℚ) / (256 / (n : ℚ)) := by positivity
  rw [truncToInt_of_nonneg _ hx]
  have h : ((i : Int) : ℚ) / (256 / (n : ℚ)) = (((i : Int) * n : Int) : ℚ) / ((256 : Nat) : ℚ) := by
    push_cast
    field_simp
  rw [h, Rat.floor_intCast_div_natCast]
  rfl

/-- In exact arithmetic `n * (256 / n)` truncates to 256. -/
theorem truncToInt_mul_oversampling (n : Int) (hn : 0 < n) :
    truncToInt ((n : ℚ) * (256 / (n : ℚ))) = 256 := by
  have hn' : (n : ℚ) ≠ 0 := by
    have : (0 : ℚ) < (n : ℚ) := by exact_mod_cast hn
    exact ne_of_gt this
  have h : (n : ℚ) * (256 / (n : ℚ)) = ((256 : Int) : ℚ) := by
    push_cast
    field_simp
  rw [h, truncToInt_of_nonneg _ (by norm_num), Int.floor_intCast]

theorem setAnnotationEntry_fresh (value : Int) (text : String) (l : List (Int × String))
    (h : ∀ e ∈ l, e.1 ≠ value) : setAnnotationEntry value text l = l ++ [(value, text)] := by
  induction l with
  | nil => rfl
  | cons e rest ih =>
    obtain ⟨v, t⟩ := e
    have hv : v ≠ value := h (v, t) (by simp)
    simp only [setAnnotationEntry, hv, if_false, List.cons_append, List.cons.injEq, true_and]
    exact ih (fun e he => h e (by simp [he]))

theorem find_annotated (f : Nat → String) (count i : Nat) (hi : i < count) :
    ((List.range count).map (fun (j : Nat) => ((j : Int), f j))).find? (fun e => e.1 == (i : Int)) =
      some ((i : Int), f i) := by
  induction count with
  | zero => omega
  | succ k ih =>
    rw [List.range_succ, List.map_append, List.find?_append]
    by_cases hk : i < k
    · rw [ih hk]
      rfl
    · have hik : i = k := by omega
      subst hik
      have hnone : ((List.range i).map (fun (j : Nat) => ((j : Int), f j))).find?
          (fun e => e.1 == (i : Int)) = none := by
        simp only [List.find?_eq_none, List.mem_map, List.mem_range, beq_iff_eq]
        rintro e ⟨j, hj, rfl⟩
        simp only [Nat.cast_inj]
        omega
      rw [hnone]
      simp

/-! ## C11: direct color mapping -/

/-- A legend that is computed as shown has a primary display node that does not use direct
color mapping. -/
theorem shows_imp_not_direct (s : Manager) (d : vtkMRMLColorLegendDisplayNode)
    (dn : vtkMRMLDisplayableNode) (p : vtkMRMLDisplayNode)
    (hdn : d.DisplayableNode = some dn) (hp : UpdateActor.primaryDisplayNode d dn = some p)
    (hs : UpdateActor.shows s d = true) : p.ScalarRangeFlag ≠ .UseDirectMapping := by
  obtain ⟨p1, hv⟩ := shows_imp_visibility s d hs
  have hp1 := primary_of_visibility s d dn p p1 hdn hp hv
  subst hp1
  unfold UpdateActor.shows at hs
  rw [hv] at hs
  simp only [] at hs
  intro hdirect
  cases hc : p1.ColorNode with
  | none => simp [hc] at hs
  | some c => simp [hc, hdirect] at hs

/-- C11: for a registered descriptor whose primary display node uses direct color mapping,
the actor is not attached to the legend renderer after `UpdateActor`, the computed visibility
is false, and the actor's visibility flag is off when the legend renderer is present; this
holds whatever the visibility flags are and whether or not a color table is available. -/
theorem C11_direct_mapping_hides (s : Manager) (d : vtkMRMLColorLegendDisplayNode) (a : Nat)
    (dn : vtkMRMLDisplayableNode) (p : vtkMRMLDisplayNode)
    (ha : GetColorLegendActor s (some d) = some a)
    (hdn : d.DisplayableNode = some dn) (hp : UpdateActor.primaryDisplayNode d dn = some p)
    (hdirect : p.ScalarRangeFlag = .UseDirectMapping) :
    UpdateActor.shows s d = false ∧
    (UpdateActor s (some d)).2.IsAttached a = false ∧
    (s.ColorLegendRenderer.isSome = true →
      ((UpdateActor s (some d)).2.Actors a).Visibility = false) := by
  have hs : UpdateActor.shows s d = false := by
    cases hs : UpdateActor.shows s d with
    | false => rfl
    | true => exact absurd hdirect (shows_imp_not_direct s d dn p hdn hp hs)
  refine ⟨hs, ?_, fun hr => ?_⟩
  · cases hatt : (UpdateActor s (some d)).2.IsAttached a with
    | false => rfl
    | true =>
      rw [UpdateActor_isAttached_imp_shows s d a ha hatt] at hs
      cases hs
  · rw [UpdateActor_actor_visibility s d a ha hr, hs]

theorem C11_witness :
    GetColorLegendActor exampleRegisteredDirect (some exampleDirectLegend) = some 1 ∧
    exampleDirectLegend.Visibility = true ∧
    exampleDirectLegend.GetVisibility "vtkMRMLSliceNodeRed" = true ∧
    exampleDirectDisplayNode.GetVisibility "vtkMRMLSliceNodeRed" = true ∧
    (exampleDirectDisplayNode.ColorNode.bind (fun c => c.LookupTable)).isSome = true ∧
    (UpdateActor exampleRegisteredDirect (some exampleDirectLegend)).2.IsAttached 1 = false ∧
    ((UpdateActor exampleRegisteredDirect (some exampleDirectLegend)).2.Actors 1).Visibility =
      false :=
  have ha : GetColorLegendActor exampleRegisteredDirect (some exampleDirectLegend) = some 1 :=
    GetColorLegendActor_added exampleManager exampleDirectLegend rfl
  have hr : exampleRegisteredDirect.ColorLegendRenderer.isSome = true := by
    simp [exampleRegisteredDirect, exampleManager, Manager.initial]
  have h := C11_direct_mapping_hides exampleRegisteredDirect exampleDirectLegend 1
    { DisplayNodes := [exampleDirectDisplayNode] } exampleDirectDisplayNode ha rfl rfl rfl
  ⟨ha, rfl, rfl, rfl, rfl, h.2.1, h.2.2 hr⟩

/-! ## C12: unknown orientation -/

theorem layout_unknown (s : Manager) (a : Nat) (d : vtkMRMLColorLegendDisplayNode)
    (value : Int) (ho : d.Orientation = .Unknown value) :
    (UpdateActor.layout s a d).TextProperties = s.TextProperties ∧
    (UpdateActor.layout s a d).Actors a =
      { (s.Actors a) with
        Title := d.TitleText
        TitleTextProperty := d.TitleTextProperty
        LabelTextProperty := d.LabelTextProperty
        LabelFormat := d.LabelFormat } := by
  simp only [UpdateActor.layout, ho]
  simp

/-- The actor and the text properties after `UpdateActor` on a descriptor that passes the
visibility checks and has an unknown orientation. -/
theorem UpdateActor_unknown_orientation (s : Manager) (d : vtkMRMLColorLegendDisplayNode)
    (a : Nat) (p : vtkMRMLDisplayNode) (value : Int)
    (ha : GetColorLegendActor s (some d) = some a)
    (hv : UpdateActor.visibility s d = some p) (ho : d.Orientation = .Unknown value) :
    (UpdateActor s (some d)).2.TextProperties = s.TextProperties ∧
    ∃ v l n m u cl, (UpdateActor s (some d)).2.Actors a =
      { (s.Actors a) with
        Visibility := v, Title := d.TitleText, TitleTextProperty := d.TitleTextProperty,
        LabelTextProperty := d.LabelTextProperty, LabelFormat := d.LabelFormat,
        LookupTable := l, NumberOfLabels := n, MaximumNumberOfColors := m,
        UseAnnotationAsLabel := u, CenterLabel := cl } := by
  obtain ⟨ht, v, l, n, m, u, cl, hact⟩ := UpdateActor_keeps_layout s d a p ha hv
  obtain ⟨h1, h2⟩ := layout_unknown s a d value ho
  refine ⟨ht.trans h1, v, l, n, m, u, cl, ?_⟩
  rw [hact, h2]

/-- C12, as amended: when a registered descriptor passes the visibility checks of
`UpdateActor` and its orientation is neither Vertical nor Horizontal, the call leaves the
actor's orientation, anchor position, width, height, text padding and text position exactly
as they were, and writes no text property. The title justification afterwards is that of the
descriptor's title text property, which the call installs in the actor; it is the same as
before exactly when that text property has the justification of the text property the actor
used before, in particular when the actor already used the descriptor's text property. -/
theorem C12_unknown_orientation_keeps_geometry (s : Manager)
    (d : vtkMRMLColorLegendDisplayNode) (a : Nat) (p : vtkMRMLDisplayNode) (value : Int)
    (ha : GetColorLegendActor s (some d) = some a)
    (hv : UpdateActor.visibility s d = some p) (ho : d.Orientation = .Unknown value) :
    ((UpdateActor s (some d)).2.Actors a).Orientation = (s.Actors a).Orientation ∧
    ((UpdateActor s (some d)).2.Actors a).Position = (s.Actors a).Position ∧
    ((UpdateActor s (some d)).2.Actors a).Width = (s.Actors a).Width ∧
    ((UpdateActor s (some d)).2.Actors a).Height = (s.Actors a).Height ∧
    ((UpdateActor s (some d)).2.Actors a).TextPad = (s.Actors a).TextPad ∧
    ((UpdateActor s (some d)).2.Actors a).TextPosition = (s.Actors a).TextPosition ∧
    (UpdateActor s (some d)).2.TextProperties = s.TextProperties ∧
    ((UpdateActor s (some d)).2.TextProperties
        ((UpdateActor s (some d)).2.Actors a).TitleTextProperty).Justification =
      (s.TextProperties d.TitleTextProperty).Justification ∧
    (((UpdateActor s (some d)).2.TextProperties
          ((UpdateActor s (some d)).2.Actors a).TitleTextProperty).Justification =
        (s.TextProperties (s.Actors a).TitleTextProperty).Justification ↔
      (s.TextProperties d.TitleTextProperty).Justification =
        (s.TextProperties (s.Actors a).TitleTextProperty).Justification) ∧
    ((s.Actors a).TitleTextProperty = d.TitleTextProperty →
      ((UpdateActor s (some d)).2.TextProperties
          ((UpdateActor s (some d)).2.Actors a).TitleTextProperty).Justification =
        (s.TextProperties (s.Actors a).TitleTextProperty).Justification) := by
  obtain ⟨ht, v, l, n, m, u, cl, hact⟩ := UpdateActor_unknown_orientation s d a p value ha hv ho
  rw [ht, hact]
  refine ⟨rfl, rfl, rfl, rfl, rfl, rfl, rfl, rfl, Iff.rfl, fun h => ?_⟩
  rw [h]

theorem exampleRegisteredUnknown_actor :
    GetColorLegendActor exampleRegisteredUnknown (some exampleUnknownLegend) = some 1 :=
  GetColorLegendActor_added exampleCenteredManager exampleUnknownLegendHidden rfl

theorem exampleRegisteredUnknown_visibility :
    UpdateActor.visibility exampleRegisteredUnknown exampleUnknownLegend =
      some exampleModelDisplayNode :=
  (visibility_congr exampleCenteredManager exampleRegisteredUnknown exampleUnknownLegend
    (by simp [exampleRegisteredUnknown]) (by simp [exampleRegisteredUnknown])).trans rfl

theorem C12_witness :
    GetColorLegendActor exampleRegisteredUnknown (some exampleUnknownLegend) = some 1 ∧
    exampleUnknownLegend.Orientation = .Unknown 2 ∧
    ((UpdateActor exampleRegisteredUnknown (some exampleUnknownLegend)).2.Actors 1).Position =
      (exampleRegisteredUnknown.Actors 1).Position ∧
    ((UpdateActor exampleRegisteredUnknown (some exampleUnknownLegend)).2.Actors 1).Width =
      (exampleRegisteredUnknown.Actors 1).Width ∧
    ((UpdateActor exampleRegisteredUnknown (some exampleUnknownLegend)).2.Actors 1).Height =
      (exampleRegisteredUnknown.Actors 1).Height :=
  have h := C12_unknown_orientation_keeps_geometry exampleRegisteredUnknown
    exampleUnknownLegend 1 exampleModelDisplayNode 2 exampleRegisteredUnknown_actor
    exampleRegisteredUnknown_visibility rfl
  ⟨exampleRegisteredUnknown_actor, rfl, h.2.1, h.2.2.1, h.2.2.2.1⟩

/-- C12 fails as stated for the title justification: an actor created while its descriptor
was switched off has a left-justified title; when the descriptor, now visible and with an
unknown orientation, carries a centered title text property, `UpdateActor` leaves the actor
with a centered title. -/
theorem C12_counterexample :
    GetColorLegendActor exampleRegisteredUnknown (some exampleUnknownLegend) = some 1 ∧
    (UpdateActor.visibility exampleRegisteredUnknown exampleUnknownLegend).isSome = true ∧
    exampleUnknownLegend.Orientation = .Unknown 2 ∧
    (exampleRegisteredUnknown.TextProperties
      (exampleRegisteredUnknown.Actors 1).TitleTextProperty).Justification = .Left ∧
    ((UpdateActor exampleRegisteredUnknown (some exampleUnknownLegend)).2.TextProperties
      ((UpdateActor exampleRegisteredUnknown (some exampleUnknownLegend)).2.Actors
        1).TitleTextProperty).Justification = .Centered := by
  obtain ⟨ht, v, l, n, m, u, cl, hact⟩ :=
    UpdateActor_unknown_orientation exampleRegisteredUnknown exampleUnknownLegend 1
      exampleModelDisplayNode 2 exampleRegisteredUnknown_actor
      exampleRegisteredUnknown_visibility rfl
  refine ⟨exampleRegisteredUnknown_actor, ?_, rfl, ?_, ?_⟩
  · rw [exampleRegisteredUnknown_visibility]
    rfl
  · decide
  · rw [ht, hact]
    show (exampleRegisteredUnknown.TextProperties 100).Justification = .Centered
    decide

/-! ## C13: removal of a descriptor -/

theorem mapFind_mapErase_of_ne (key k : String) (m : List (String × Nat)) (h : k ≠ key) :
    mapFind (mapErase key m) k = mapFind m k := by
  induction m with
  | nil => rfl
  | cons e rest ih =>
    obtain ⟨k0, v0⟩ := e
    simp only [mapFind, mapErase] at ih ⊢
    by_cases hk0 : k0 = key
    · subst hk0
      have hne : (k0 == k) = false := by
        simp only [beq_eq_false_iff_ne, ne_eq]
        exact fun h' => h h'.symm
      simp only [List.filter_cons, bne_self_eq_false, Bool.false_eq_true, if_false,
        List.find?_cons, hne]
      exact ih
    · have hne : (k0 != key) = true := by simpa using hk0
      simp only [List.filter_cons, hne, if_true, List.find?_cons]
      cases hk : (k0 == k) with
      | true => rfl
      | false => exact ih

/-- The state after `OnMRMLSceneNodeRemoved` for a registered descriptor. -/
theorem OnMRMLSceneNodeRemoved_registered (s : Manager) (d : vtkMRMLColorLegendDisplayNode)
    (a : Nat) (hscene : s.MRMLScene.isSome = true)
    (ha : GetColorLegendActor s (some d) = some a) :
    OnMRMLSceneNodeRemoved s (some (.ColorLegendDisplayNode d)) =
      { s with
        ColorLegendActorsMap := mapErase d.ID s.ColorLegendActorsMap
        ColorLegendRenderer := s.ColorLegendRenderer.map (fun r => r.RemoveActor a) } := by
  obtain ⟨scene, hs⟩ := Option.isSome_iff_exists.mp hscene
  simp only [GetColorLegendActor] at ha
  simp only [OnMRMLSceneNodeRemoved, hs, vtkMRMLNode.IsAColorLegendDisplayNode, if_true,
    vtkMRMLNode.GetID, ha]
  cases hr : s.ColorLegendRenderer <;> simp

theorem OnMRMLSceneNodeRemoved_unregistered (s : Manager) (d : vtkMRMLColorLegendDisplayNode)
    (ha : GetColorLegendActor s (some d) = none) :
    OnMRMLSceneNodeRemoved s (some (.ColorLegendDisplayNode d)) = s := by
  simp only [GetColorLegendActor] at ha
  cases hs : s.MRMLScene <;>
    simp [OnMRMLSceneNodeRemoved, hs, vtkMRMLNode.IsAColorLegendDisplayNode,
      vtkMRMLNode.GetID, ha]

/-- C13: with a valid scene and a non-null color legend display node, if the node's ID is
registered then after `OnMRMLSceneNodeRemoved` the ID is no longer a key of the registry and
its actor is not attached to the legend renderer, while the entries of all other IDs and the
attachment of all other actors are as before; if the ID is not registered the state, and so
the registry and the renderer, is unchanged. -/
theorem C13_removal_affects_only_its_entry_and_actor (s : Manager)
    (d : vtkMRMLColorLegendDisplayNode) (hscene : s.MRMLScene.isSome = true) :
    (∀ a, GetColorLegendActor s (some d) = some a →
      d.ID ∉ mapKeys
        (OnMRMLSceneNodeRemoved s (some (.ColorLegendDisplayNode d))).ColorLegendActorsMap ∧
      (OnMRMLSceneNodeRemoved s (some (.ColorLegendDisplayNode d))).IsAttached a = false ∧
      (∀ k, k ≠ d.ID →
        mapFind (OnMRMLSceneNodeRemoved s (some (.ColorLegendDisplayNode d))
          ).ColorLegendActorsMap k = mapFind s.ColorLegendActorsMap k) ∧
      (∀ x, x ≠ a →
        (OnMRMLSceneNodeRemoved s (some (.ColorLegendDisplayNode d))).IsAttached x =
          s.IsAttached x)) ∧
    (GetColorLegendActor s (some d) = none →
      OnMRMLSceneNodeRemoved s (some (.ColorLegendDisplayNode d)) = s) := by
  refine ⟨fun a ha => ?_, OnMRMLSceneNodeRemoved_unregistered s d⟩
  rw [OnMRMLSceneNodeRemoved_registered s d a hscene ha]
  refine ⟨?_, ?_, fun k hk => mapFind_mapErase_of_ne _ _ _ hk, fun x hx => ?_⟩
  · simp [mem_mapKeys_mapErase]
  · cases hr : s.ColorLegendRenderer <;>
      simp [Manager.IsAttached, hr, vtkRenderer.HasViewProp, vtkRenderer.RemoveActor]
  · cases hr : s.ColorLegendRenderer <;>
      simp [Manager.IsAttached, hr, vtkRenderer.HasViewProp, vtkRenderer.RemoveActor, hx]

theorem C13_witness :
    exampleRegistered.MRMLScene.isSome = true ∧
    GetColorLegendActor exampleRegistered (some exampleLegend) = some 1 ∧
    exampleLegend.ID ∉ mapKeys
      (OnMRMLSceneNodeRemoved exampleRegistered
        (some (.ColorLegendDisplayNode exampleLegend))).ColorLegendActorsMap ∧
    (OnMRMLSceneNodeRemoved exampleRegistered
      (some (.ColorLegendDisplayNode exampleLegend))).IsAttached 1 = false :=
  have hscene : exampleRegistered.MRMLScene.isSome = true := by
    simp [exampleRegistered, exampleManager]
  have h := (C13_removal_affects_only_its_entry_and_actor exampleRegistered exampleLegend
    hscene).1 1 exampleRegistered_actor
  ⟨hscene, exampleRegistered_actor, h.1, h.2.1⟩

/-! ## C14: full resync -/

theorem mapFind_some_mem (m : List (String × Nat)) (key : String) (a : Nat)
    (h : mapFind m key = some a) : (key, a) ∈ m := by
  simp only [mapFind, Option.map_eq_some'] at h
  obtain ⟨e, he, rfl⟩ := h
  have hmem := List.mem_of_find?_eq_some he
  have hkey := List.find?_some he
  simp only [beq_iff_eq] at hkey
  rw [← hkey]
  exact hmem

theorem resolveLegend_id (scene : vtkMRMLScene) (id : String)
    (d : vtkMRMLColorLegendDisplayNode) (h : resolveLegend scene id = some d) : d.ID = id := by
  unfold resolveLegend at h
  split at h
  · rename_i displayNode hfind
    simp only [Option.some.injEq] at h
    subst h
    have := List.find?_some hfind
    simpa [vtkMRMLNode.GetID] using this
  · cases h

theorem layout_actors_other (s : Manager) (a x : Nat) (d : vtkMRMLColorLegendDisplayNode)
    (hx : x ≠ a) : (UpdateActor.layout s a d).Actors x = s.Actors x := by
  unfold UpdateActor.layout
  cases d.Orientation <;> simp only [] <;>
    first
    | (split <;> simp [modifyActor_actors_other _ _ _ _ hx])
    | simp [modifyActor_actors_other _ _ _ _ hx]

theorem labels_actors_other (s : Manager) (a x : Nat) (d : vtkMRMLColorLegendDisplayNode)
    (c : vtkMRMLColorNode) (lut : vtkLookupTable) (hx : x ≠ a) :
    (UpdateActor.labels s a d c lut).Actors x = s.Actors x := by
  unfold UpdateActor.labels
  split <;> simp [modifyActor_actors_other _ _ _ _ hx]

theorem ShowActor_actors_other (s : Manager) (a x : Nat) (b : Bool) (hx : x ≠ a) :
    (ShowActor s a b).2.Actors x = s.Actors x := by
  cases hr : s.ColorLegendRenderer with
  | none => simp [ShowActor, hr]
  | some r => simp [ShowActor, hr, modifyActor_actors_other _ _ _ _ hx]

theorem isAttached_congr (s s1 : Manager) (x : Nat)
    (h : s1.ColorLegendRenderer = s.ColorLegendRenderer) : s1.IsAttached x = s.IsAttached x := by
  simp [Manager.IsAttached, h]

/-- A call of `UpdateActor` touches neither the attributes nor the attachment of an actor
other than the one registered for its descriptor. -/
theorem UpdateActor_other_actor (s : Manager) (d : vtkMRMLColorLegendDisplayNode) (x : Nat)
    (hx : GetColorLegendActor s (some d) ≠ some x) :
    (UpdateActor s (some d)).2.Actors x = s.Actors x ∧
    (UpdateActor s (some d)).2.IsAttached x = s.IsAttached x := by
  cases ha : GetColorLegendActor s (some d) with
  | none =>
    rw [UpdateActor_of_no_actor s _ ha]
    exact ⟨rfl, rfl⟩
  | some a =>
    have hxa : x ≠ a := fun h => hx (by rw [ha, h])
    cases hs : UpdateActor.shows s d with
    | true =>
      obtain ⟨p, c, l, -, -, -, -, h⟩ := UpdateActor_of_shows s d a ha hs
      rw [h]
      simp only []
      rw [ShowActor_actors_other _ _ _ _ hxa, ShowActor_isAttached_other _ _ _ _ hxa,
        labels_actors_other _ _ _ _ _ _ hxa, layout_actors_other _ _ _ _ hxa]
      exact ⟨rfl, isAttached_congr _ _ x (by simp)⟩
    | false =>
      rcases UpdateActor_of_not_shows s d a ha hs with h | h <;> rw [h]
      · exact ⟨ShowActor_actors_other _ _ _ _ hxa, ShowActor_isAttached_other _ _ _ _ hxa⟩
      · rw [ShowActor_actors_other _ _ _ _ hxa, ShowActor_isAttached_other _ _ _ _ hxa,
          layout_actors_other _ _ _ _ hxa]
        exact ⟨rfl, isAttached_congr _ _ x (by simp)⟩

theorem updateActors_map (s : Manager) (ds : List vtkMRMLColorLegendDisplayNode) :
    (updateActors s ds).ColorLegendActorsMap = s.ColorLegendActorsMap := by
  induction ds generalizing s with
  | nil => rfl
  | cons d rest ih =>
    simp only [updateActors, List.foldl_cons] at ih ⊢
    rw [ih]
    simp

theorem updateActors_other_actor (s : Manager) (ds : List vtkMRMLColorLegendDisplayNode)
    (x : Nat) (hx : ∀ d ∈ ds, mapFind s.ColorLegendActorsMap d.ID ≠ some x) :
    (updateActors s ds).Actors x = s.Actors x ∧
    (updateActors s ds).IsAttached x = s.IsAttached x := by
  induction ds generalizing s with
  | nil => exact ⟨rfl, rfl⟩
  | cons d rest ih =>
    simp only [updateActors, List.foldl_cons] at ih ⊢
    have hd : GetColorLegendActor s (some d) ≠ some x := hx d (by simp)
    obtain ⟨h1, h2⟩ := UpdateActor_other_actor s d x hd
    have hrest := ih (UpdateActor s (some d)).2 (by
      intro d1 hd1
      rw [UpdateActor_map]
      exact hx d1 (by simp [hd1]))
    rw [hrest.1, hrest.2, h1, h2]
    exact ⟨rfl, rfl⟩

theorem resolvedLegends_cons (scene : vtkMRMLScene) (e : String × Nat)
    (rest : List (String × Nat)) :
    resolvedLegends scene (e :: rest) =
      match resolveLegend scene e.1 with
      | some d => d :: resolvedLegends scene rest
      | none => resolvedLegends scene rest := by
  simp only [resolvedLegends, List.filterMap_cons]
  cases resolveLegend scene e.1 <;> rfl

/-- One iteration of the loop of `UpdateFromMRML`, in terms of `resolveLegend`. -/
theorem resync_step (scene : vtkMRMLScene) (s : Manager) (e : String × Nat) :
    (match scene.GetNodeByID e.1 with
      | some (.ColorLegendDisplayNode displayNode) => (UpdateActor s (some displayNode)).2
      | _ => s) =
      match resolveLegend scene e.1 with
      | some d => (UpdateActor s (some d)).2
      | none => s := by
  unfold resolveLegend
  cases hnode : scene.GetNodeByID e.1 with
  | none => rfl
  | some node => cases node <;> rfl

theorem resync_loop (scene : vtkMRMLScene) (m : List (String × Nat)) (s : Manager) :
    m.foldl
        (fun s colorBarNodeIdToActorIt =>
          match scene.GetNodeByID colorBarNodeIdToActorIt.1 with
          | some (.ColorLegendDisplayNode displayNode) => (UpdateActor s (some displayNode)).2
          | _ => s)
        s =
      updateActors s (resolvedLegends scene m) := by
  induction m generalizing s with
  | nil => rfl
  | cons e rest ih =>
    rw [List.foldl_cons, resync_step, resolvedLegends_cons]
    cases hres : resolveLegend scene e.1 with
    | none => exact ih s
    | some d =>
      simp only [updateActors, List.foldl_cons]
      exact ih _

/-- The loop of `UpdateFromMRML` runs `UpdateActor` for the entries that resolve and nothing
for the others. -/
theorem UpdateFromMRML_eq_updateActors (s : Manager) (scene : vtkMRMLScene)
    (hscene : s.MRMLScene = some scene) :
    UpdateFromMRML s = updateActors s (resolvedLegends scene s.ColorLegendActorsMap) := by
  simp only [UpdateFromMRML, hscene]
  exact resync_loop scene _ s

/-! ## Actor handles -/

@[simp] theorem modifyActor_next (s : Manager) (a : Nat) (f) :
    (s.modifyActor a f).NextObject = s.NextObject := rfl

@[simp] theorem setJustification_next (s : Manager) (t : Nat) (j) :
    (s.setJustification t j).NextObject = s.NextObject := rfl

@[simp] theorem layout_next (s : Manager) (a : Nat) (d : vtkMRMLColorLegendDisplayNode) :
    (UpdateActor.layout s a d).NextObject = s.NextObject := by
  unfold UpdateActor.layout
  cases d.Orientation <;> simp only [] <;> first | (split <;> simp) | simp

@[simp] theorem labels_next (s : Manager) (a : Nat) (d : vtkMRMLColorLegendDisplayNode)
    (c : vtkMRMLColorNode) (lut : vtkLookupTable) :
    (UpdateActor.labels s a d c lut).NextObject = s.NextObject := by
  unfold UpdateActor.labels
  split <;> simp

@[simp] theorem ShowActor_next (s : Manager) (a : Nat) (b : Bool) :
    (ShowActor s a b).2.NextObject = s.NextObject := by
  unfold ShowActor
  cases s.ColorLegendRenderer <;> simp [Manager.modifyActor]

@[simp] theorem UpdateActor_next (s : Manager) (d : Option vtkMRMLColorLegendDisplayNode) :
    (UpdateActor s d).2.NextObject = s.NextObject := by
  cases ha : GetColorLegendActor s d with
  | none => rw [UpdateActor_of_no_actor s d ha]
  | some a =>
    cases d with
    | none => simp [GetColorLegendActor] at ha
    | some d =>
      rw [UpdateActor_of_actor s d a ha]
      repeat (first | split | simp)

@[simp] theorem ProcessMRMLNodesEvents_next (s : Manager) (caller : Option vtkMRMLNode)
    (event : Nat) :
    (ProcessMRMLNodesEvents s caller event).NextObject = s.NextObject := by
  unfold ProcessMRMLNodesEvents
  repeat (first | split | simp [RequestRender, SetUpdateFromMRMLRequested])

theorem OnMRMLSceneNodeAdded_next (s : Manager) (node : vtkMRMLNode)
    (hscene : s.MRMLScene.isSome = true) :
    (OnMRMLSceneNodeAdded s (some node)).NextObject =
      if node.IsAColorLegendDisplayNode then s.NextObject + 3 else s.NextObject := by
  obtain ⟨scene, hs⟩ := Option.isSome_iff_exists.mp hscene
  simp only [OnMRMLSceneNodeAdded, hs]
  split <;> simp [Manager.newActor]

theorem OnMRMLSceneNodeRemoved_next (s : Manager) (node : Option vtkMRMLNode) :
    (OnMRMLSceneNodeRemoved s node).NextObject = s.NextObject := by
  unfold OnMRMLSceneNodeRemoved
  repeat (first | split | simp)

theorem mem_mapAssign (key : String) (value : Nat) (m : List (String × Nat))
    (e : String × Nat) (h : e ∈ mapAssign key value m) : e = (key, value) ∨ e ∈ m := by
  induction m with
  | nil => simpa [mapAssign] using h
  | cons e0 rest ih =>
    obtain ⟨k0, v0⟩ := e0
    simp only [mapAssign] at h
    split at h
    · simp only [List.mem_cons] at h ⊢
      rcases h with h | h
      · exact Or.inl h
      · exact Or.inr (Or.inr h)
    · split at h
      · simp only [List.mem_cons] at h ⊢
        exact h
      · simp only [List.mem_cons] at h ⊢
        rcases h with h | h
        · exact Or.inr (Or.inl h)
        · rcases ih h with h1 | h1
          · exact Or.inl h1
          · exact Or.inr (Or.inr h1)

theorem mem_mapErase (key : String) (m : List (String × Nat)) (e : String × Nat)
    (h : e ∈ mapErase key m) : e ∈ m := by
  simp only [mapErase, List.mem_filter] at h
  exact h.1

/-- Scene events keep the actors of the registry distinct and allocated. -/
theorem deliver_handles (s : Manager) (e : SceneEvent) (hscene : s.MRMLScene.isSome = true)
    (hinj : mapInjective s.ColorLegendActorsMap) (halloc : s.HandlesAllocated) :
    mapInjective (deliver s e).ColorLegendActorsMap ∧ (deliver s e).HandlesAllocated := by
  cases e with
  | NodeAdded node =>
    simp only [deliver, Manager.HandlesAllocated, OnMRMLSceneNodeAdded_map s node hscene,
      OnMRMLSceneNodeAdded_next s node hscene]
    cases node.IsAColorLegendDisplayNode with
    | false => exact ⟨hinj, halloc⟩
    | true =>
      simp only [if_true]
      constructor
      · intro e1 h1 e2 h2 heq
        rcases mem_mapAssign _ _ _ _ h1 with h1 | h1 <;>
          rcases mem_mapAssign _ _ _ _ h2 with h2 | h2
        · rw [h1, h2]
        · have := halloc e2 h2
          rw [h1] at heq
          simp only at heq
          omega
        · have := halloc e1 h1
          rw [h2] at heq
          simp only at heq
          omega
        · exact hinj e1 h1 e2 h2 heq
      · intro e1 h1
        rcases mem_mapAssign _ _ _ _ h1 with h1 | h1
        · rw [h1]
          simp
        · have := halloc e1 h1
          omega
  | NodeRemoved node =>
    simp only [deliver, Manager.HandlesAllocated, OnMRMLSceneNodeRemoved_map s node hscene,
      OnMRMLSceneNodeRemoved_next]
    cases node.IsAColorLegendDisplayNode with
    | false => exact ⟨hinj, halloc⟩
    | true =>
      simp only [if_true]
      exact ⟨fun e1 h1 e2 h2 heq => hinj e1 (mem_mapErase _ _ _ h1) e2 (mem_mapErase _ _ _ h2) heq,
        fun e1 h1 => halloc e1 (mem_mapErase _ _ _ h1)⟩

/-- In every state reached from an empty registry by scene events, distinct IDs have
distinct actors. -/
theorem deliverAll_mapInjective (s : Manager) (events : List SceneEvent)
    (hscene : s.MRMLScene.isSome = true) (hempty : s.ColorLegendActorsMap = []) :
    mapInjective (deliverAll s events).ColorLegendActorsMap := by
  have h : mapInjective (deliverAll s events).ColorLegendActorsMap ∧
      (deliverAll s events).HandlesAllocated := by
    induction events using List.reverseRecOn with
    | nil =>
      simp only [deliverAll, List.foldl_nil, mapInjective, Manager.HandlesAllocated, hempty]
      exact ⟨fun e1 h1 => by simp at h1, fun e1 h1 => by simp at h1⟩
    | append_singleton es e ih =>
      rw [deliverAll_snoc]
      exact deliver_handles _ e (by rw [deliverAll_scene]; exact hscene) ih.1 ih.2
  exact h.1

theorem mem_resolvedLegends (scene : vtkMRMLScene) (m : List (String × Nat))
    (d : vtkMRMLColorLegendDisplayNode) (h : d ∈ resolvedLegends scene m) :
    ∃ e ∈ m, resolveLegend scene e.1 = some d := by
  simpa [resolvedLegends, List.mem_filterMap] using h

/-- C14: `UpdateFromMRML` never changes the registry, without a scene it does nothing, and
with a scene it runs `UpdateActor` for exactly the registered IDs that resolve to a color
legend display node of the scene, in registry order. For a registered ID that does not
resolve, in a registry whose entries have their own actors, the attributes and the attachment
of its actor are as before and its entry is still in the registry. -/
theorem C14_resync_skips_stale_entries (s : Manager) :
    (UpdateFromMRML s).ColorLegendActorsMap = s.ColorLegendActorsMap ∧
    (s.MRMLScene = none → UpdateFromMRML s = s) ∧
    (∀ scene, s.MRMLScene = some scene →
      UpdateFromMRML s = updateActors s (resolvedLegends scene s.ColorLegendActorsMap) ∧
      (mapInjective s.ColorLegendActorsMap →
        ∀ id a, (id, a) ∈ s.ColorLegendActorsMap → resolveLegend scene id = none →
          (UpdateFromMRML s).Actors a = s.Actors a ∧
          (UpdateFromMRML s).IsAttached a = s.IsAttached a ∧
          (id, a) ∈ (UpdateFromMRML s).ColorLegendActorsMap)) := by
  have hnone : s.MRMLScene = none → UpdateFromMRML s = s := fun h => by
    simp [UpdateFromMRML, h]
  have hmap : (UpdateFromMRML s).ColorLegendActorsMap = s.ColorLegendActorsMap := by
    cases hs : s.MRMLScene with
    | none => rw [hnone hs]
    | some scene => rw [UpdateFromMRML_eq_updateActors s scene hs, updateActors_map]
  refine ⟨hmap, hnone, fun scene hscene => ⟨UpdateFromMRML_eq_updateActors s scene hscene, ?_⟩⟩
  intro hinj id a hmem hstale
  have hother : ∀ d ∈ resolvedLegends scene s.ColorLegendActorsMap,
      mapFind s.ColorLegendActorsMap d.ID ≠ some a := by
    intro d hd hfind
    obtain ⟨e, he, hres⟩ := mem_resolvedLegends scene _ d hd
    have hid := resolveLegend_id scene e.1 d hres
    have hmem2 := mapFind_some_mem _ _ _ hfind
    have hsame : id = d.ID := hinj (id, a) hmem (d.ID, a) hmem2 rfl
    rw [hsame, hid, hres] at hstale
    cases hstale
  obtain ⟨h1, h2⟩ := updateActors_other_actor s _ a hother
  rw [hmap, UpdateFromMRML_eq_updateActors s scene hscene]
  exact ⟨h1, h2, hmem⟩

theorem C14_witness :
    exampleStale.MRMLScene = some exampleOtherScene ∧
    ("vtkMRMLColorLegendDisplayNode1", 1) ∈ exampleStale.ColorLegendActorsMap ∧
    (resolveLegend exampleOtherScene "vtkMRMLColorLegendDisplayNode1").isNone = true ∧
    (UpdateFromMRML exampleStale).Actors 1 = exampleStale.Actors 1 ∧
    (UpdateFromMRML exampleStale).IsAttached 1 = exampleStale.IsAttached 1 ∧
    ("vtkMRMLColorLegendDisplayNode1", 1) ∈ (UpdateFromMRML exampleStale).ColorLegendActorsMap :=
  have hscene : exampleStale.MRMLScene = some exampleOtherScene := by
    simp [exampleStale, exampleOtherSceneManager]
  have hmem : ("vtkMRMLColorLegendDisplayNode1", 1) ∈ exampleStale.ColorLegendActorsMap :=
    mapFind_some_mem _ _ _ (GetColorLegendActor_added exampleOtherSceneManager exampleLegend rfl)
  have hinj : mapInjective exampleStale.ColorLegendActorsMap :=
    deliverAll_mapInjective exampleOtherSceneManager
      [.NodeAdded (.ColorLegendDisplayNode exampleLegend)] rfl rfl
  have h := ((C14_resync_skips_stale_entries exampleStale).2.2 exampleOtherScene hscene).2 hinj
    "vtkMRMLColorLegendDisplayNode1" 1 hmem rfl
  ⟨hscene, hmem, rfl, h.1, h.2.1, h.2.2⟩

/-! ## C15: the legend stays inside the view -/

/-- C15: for a registered descriptor that passes the visibility checks of `UpdateActor`, with
Vertical or Horizontal orientation and position (x, y) and size (w, h) all in [0, 1], the
actor's anchor and extent afterwards satisfy 0 <= anchorX, 0 <= anchorY,
anchorX + width <= 1 and anchorY + height <= 1 (exact arithmetic). -/
theorem C15_legend_stays_inside_view (s : Manager) (d : vtkMRMLColorLegendDisplayNode)
    (a : Nat) (p : vtkMRMLDisplayNode) (x y w h : ℚ)
    (ha : GetColorLegendActor s (some d) = some a)
    (hv : UpdateActor.visibility s d = some p)
    (ho : d.Orientation = .Vertical ∨ d.Orientation = .Horizontal)
    (hpos : d.Position = (x, y)) (hsize : d.Size = (w, h))
    (hx : 0 ≤ x ∧ x ≤ 1) (hy : 0 ≤ y ∧ y ≤ 1) (hw : 0 ≤ w ∧ w ≤ 1) (hh : 0 ≤ h ∧ h ≤ 1) :
    0 ≤ ((UpdateActor s (some d)).2.Actors a).Position.1 ∧
    0 ≤ ((UpdateActor s (some d)).2.Actors a).Position.2 ∧
    ((UpdateActor s (some d)).2.Actors a).Position.1 +
      ((UpdateActor s (some d)).2.Actors a).Width ≤ 1 ∧
    ((UpdateActor s (some d)).2.Actors a).Position.2 +
      ((UpdateActor s (some d)).2.Actors a).Height ≤ 1 := by
  obtain ⟨-, v, l, n, m, u, cl, hact⟩ := UpdateActor_keeps_layout s d a p ha hv
  rw [hact]
  simp only []
  have hx1 : 0 ≤ 1 - x := by linarith [hx.2]
  have hy1 : 0 ≤ 1 - y := by linarith [hy.2]
  have hw1 : 0 ≤ 1 - w := by linarith [hw.2]
  have hh1 : 0 ≤ 1 - h := by linarith [hh.2]
  rcases ho with ho | ho
  · obtain ⟨-, h2, h3, h4, -⟩ := layout_vertical s a d ho
    simp only [hpos, hsize] at h2 h3 h4
    rw [h2, h3, h4]
    simp only []
    refine ⟨mul_nonneg hx.1 hw1, mul_nonneg hy.1 hh1, ?_, ?_⟩
    · nlinarith [mul_nonneg hx1 hw1]
    · nlinarith [mul_nonneg hy1 hh1]
  · obtain ⟨-, h2, h3, h4, -⟩ := layout_horizontal s a d ho
    simp only [hpos, hsize] at h2 h3 h4
    rw [h2, h3, h4]
    simp only []
    refine ⟨mul_nonneg hx.1 hh1, mul_nonneg hy.1 hw1, ?_, ?_⟩
    · nlinarith [mul_nonneg hx1 hh1]
    · nlinarith [mul_nonneg hy1 hw1]

theorem C15_witness :
    GetColorLegendActor exampleRegistered (some exampleLegend) = some 1 ∧
    exampleLegend.Position = (0.3, 0.5) ∧ exampleLegend.Size = (0.2, 0.4) ∧
    0 ≤ ((UpdateActor exampleRegistered (some exampleLegend)).2.Actors 1).Position.1 ∧
    0 ≤ ((UpdateActor exampleRegistered (some exampleLegend)).2.Actors 1).Position.2 ∧
    ((UpdateActor exampleRegistered (some exampleLegend)).2.Actors 1).Position.1 +
      ((UpdateActor exampleRegistered (some exampleLegend)).2.Actors 1).Width ≤ 1 ∧
    ((UpdateActor exampleRegistered (some exampleLegend)).2.Actors 1).Position.2 +
      ((UpdateActor exampleRegistered (some exampleLegend)).2.Actors 1).Height ≤ 1 :=
  have h := C15_legend_stays_inside_view exampleRegistered exampleLegend 1
    exampleModelDisplayNode 0.3 0.5 0.2 0.4 exampleRegistered_actor
    exampleRegistered_visibility (Or.inl rfl) rfl rfl
    (by norm_num) (by norm_num) (by norm_num) (by norm_num)
  ⟨exampleRegistered_actor, rfl, rfl, h.1, h.2.1, h.2.2.1, h.2.2.2⟩

/-! ## C16: annotation indices stay inside the color table -/

/-- C16: for a color table with n > 0 colors (also when n > 256) and every oversampled index
i with 0 <= i < newCount, where oversampling = 256 / n and newCount = trunc(n * oversampling),
the index trunc(i / oversampling) that the annotation loop passes to `GetColorName` satisfies
0 <= trunc(i / oversampling) < n (exact arithmetic). -/
theorem C16_annotation_index_inside_color_table (c : vtkMRMLColorNode) (i : Nat)
    (lut : vtkLookupTable) (hn : 0 < c.NumberOfColors)
    (hi : (i : Int) < UpdateActor.newNumberOfColors c) :
    UpdateActor.annotate c lut i =
      lut.SetAnnotation (i : Int)
        (c.GetColorName (truncToInt (((i : Int) : ℚ) / UpdateActor.oversampling c))) ∧
    0 ≤ truncToInt (((i : Int) : ℚ) / UpdateActor.oversampling c) ∧
    truncToInt (((i : Int) : ℚ) / UpdateActor.oversampling c) < c.NumberOfColors := by
  have hcount : UpdateActor.newNumberOfColors c = 256 :=
    truncToInt_mul_oversampling c.NumberOfColors hn
  rw [hcount] at hi
  have hidx : truncToInt (((i : Int) : ℚ) / UpdateActor.oversampling c) =
      ((i : Int) * c.NumberOfColors) / 256 :=
    truncToInt_div_oversampling c.NumberOfColors hn i
  refine ⟨rfl, ?_⟩
  rw [hidx]
  refine ⟨?_, ?_⟩
  · apply Int.ediv_nonneg
    · exact mul_nonneg (Int.natCast_nonneg i) (le_of_lt hn)
    · norm_num
  · apply Int.ediv_lt_of_lt_mul (by norm_num)
    nlinarith

theorem C16_witness :
    (0 : Int) < exampleLargeColorNode.NumberOfColors ∧
    ((255 : Nat) : Int) < UpdateActor.newNumberOfColors exampleLargeColorNode ∧
    0 ≤ truncToInt ((((255 : Nat) : Int) : ℚ) / UpdateActor.oversampling exampleLargeColorNode) ∧
    truncToInt ((((255 : Nat) : Int) : ℚ) / UpdateActor.oversampling exampleLargeColorNode) <
      300 :=
  have hn : (0 : Int) < exampleLargeColorNode.NumberOfColors := by decide
  have hi : ((255 : Nat) : Int) < UpdateActor.newNumberOfColors exampleLargeColorNode := by
    rw [show UpdateActor.newNumberOfColors exampleLargeColorNode = 256 from
      truncToInt_mul_oversampling 300 (by decide)]
    decide
  have h := C16_annotation_index_inside_color_table exampleLargeColorNode 255
    { TableRange := (0, 299), Annotations := [] } hn hi
  ⟨hn, hi, h.2.1, h.2.2⟩

/-! ## Double precision: the layout, the label annotations and the table range

The theorems of this section are about the embedding of namespace `Binary64`, in which the
arithmetic of `UpdateActor` is IEEE 754 binary64 arithmetic. -/

namespace Binary64

/-! ### The arithmetic on sample values -/

/-- Sample values of the operations: the sum `0.1 + 0.2`, a quotient that is not
representable, ties to even above `2^53`, overflow to infinity, halves of subnormal numbers,
division by zero, NaN in comparisons, the sum of zeros of opposite sign, and truncation toward
zero of a negative and of a positive value. -/
theorem b64_arithmetic_samples :
    (Double.ofRatio 1 10).add (Double.ofRatio 2 10) = .finite false 5404319552844596 (-54) ∧
    (Double.ofInt 1).div (Double.ofInt 3) = .finite false 6004799503160661 (-54) ∧
    Double.ofInt 9007199254740993 = .finite false 4503599627370496 1 ∧
    Double.ofInt 9007199254740995 = .finite false 4503599627370498 1 ∧
    (Double.finite false 9007199254740991 971).add (.finite false 9007199254740991 971) =
      .infinite false ∧
    (Double.finite false 1 (-1074)).div (Double.ofInt 2) = .finite false 0 (-1074) ∧
    (Double.finite false 3 (-1074)).div (Double.ofInt 2) = .finite false 2 (-1074) ∧
    (Double.ofInt 1).div (Double.ofInt 0) = .infinite false ∧
    (Double.ofInt (-1)).div (Double.ofInt 0) = .infinite true ∧
    (Double.ofInt 0).div (Double.ofInt 0) = .nan ∧
    Double.nan.lt (Double.ofInt 1) = false ∧
    (Double.ofInt 1).lt .nan = false ∧
    (Double.ofInt 0).neg.add (Double.ofInt 0) = .finite false 0 (-1074) ∧
    (Double.ofRatio (-27) 10).toInt = -2 ∧
    (Double.ofRatio 27 10).toInt = 2 := by
  decide

/-- The literal `0.3` is the double `5404319552844595 * 2^-54`. -/
theorem b64_literal_three_tenths :
    Double.ofRatio 3 10 = .finite false 5404319552844595 (-54) := by decide

/-- The double product `0.7 * (1 - 0.3)` is `0.48999999999999994`, the double next below the
literal `0.49`. -/
theorem b64_product_below_literal :
    (Double.ofRatio 7 10).mul ((Double.ofInt 1).sub (Double.ofRatio 3 10)) =
      .finite false 8827055269646171 (-54) ∧
    Double.ofRatio 49 100 = .finite false 8827055269646172 (-54) := by decide

/-- The double product `0.2 * (1 - 0.1)` is `0.18000000000000002`, the double next above the
literal `0.18`. -/
theorem b64_product_above_literal :
    (Double.ofRatio 2 10).mul ((Double.ofInt 1).sub (Double.ofRatio 1 10)) =
      .finite false 6485183463413515 (-55) ∧
    Double.ofRatio 18 100 = .finite false 6485183463413514 (-55) := by decide

/-- With level `0.1` and window `0.7` the lower bound `level - window / 2.0` is
`-0.24999999999999997`, not `-0.25`. -/
theorem b64_range_lower_bound_rounds :
    (Double.ofRatio 1 10).sub ((Double.ofRatio 7 10).div (Double.ofRatio 2 1)) =
      .finite true 9007199254740991 (-55) ∧
    Double.ofRatio (-25) 100 = .finite true 4503599627370496 (-54) := by decide

/-- With level `1e16` and window `0.001` both bounds of the range are the level. -/
theorem b64_range_absorbs_small_window :
    (Double.ofInt 10000000000000000).sub
        ((Double.ofRatio 1 1000).div (Double.ofRatio 2 1)) = Double.ofInt 10000000000000000 ∧
    (Double.ofInt 10000000000000000).add
        ((Double.ofRatio 1 1000).div (Double.ofRatio 2 1)) = Double.ofInt 10000000000000000 := by
  decide

/-- For 49 colors the new number of colors is 255: the double product `49 * (256.0 / 49)` is
below 256. -/
theorem b64_newNumberOfColors_49 : UpdateActor.newNumberOfColors exampleColorNode49 = 255 := by
  decide

/-- For 300 colors the oversampled index 192 names color 224: the double quotient
`192 / (256.0 / 300)` is below 225. -/
theorem b64_annotated_index_300 :
    ((Double.ofInt 192).div (UpdateActor.oversampling exampleColorNode300)).toInt = 224 := by
  decide

/-! ### Frame lemmas -/

@[simp] theorem b64_modifyActor_view (s : Manager) (a : Nat) (f) :
    (s.modifyActor a f).MRMLDisplayableNode = s.MRMLDisplayableNode := rfl

@[simp] theorem b64_modifyActor_map (s : Manager) (a : Nat) (f) :
    (s.modifyActor a f).ColorLegendActorsMap = s.ColorLegendActorsMap := rfl

@[simp] theorem b64_modifyActor_composite (s : Manager) (a : Nat) (f) :
    (s.modifyActor a f).SliceCompositeNode = s.SliceCompositeNode := rfl

@[simp] theorem b64_modifyActor_renderer (s : Manager) (a : Nat) (f) :
    (s.modifyActor a f).ColorLegendRenderer = s.ColorLegendRenderer := rfl

@[simp] theorem b64_modifyActor_textProperties (s : Manager) (a : Nat) (f) :
    (s.modifyActor a f).TextProperties = s.TextProperties := rfl

@[simp] theorem b64_modifyActor_actors_self (s : Manager) (a : Nat) (f) :
    (s.modifyActor a f).Actors a = f (s.Actors a) := by
  simp [Manager.modifyActor]

theorem b64_modifyActor_actors_other (s : Manager) (a b : Nat) (f) (h : b ≠ a) :
    (s.modifyActor a f).Actors b = s.Actors b := by
  simp [Manager.modifyActor, Function.update_noteq h]

@[simp] theorem b64_setJustification_renderer (s : Manager) (t : Nat) (j) :
    (s.setJustification t j).ColorLegendRenderer = s.ColorLegendRenderer := rfl

@[simp] theorem b64_setJustification_actors (s : Manager) (t : Nat) (j) :
    (s.setJustification t j).Actors = s.Actors := rfl

@[simp] theorem b64_setJustification_textProperties_self (s : Manager) (t : Nat) (j) :
    ((s.setJustification t j).TextProperties t).Justification = j := by
  simp [Manager.setJustification]

@[simp] theorem b64_ShowActor_textProperties (s : Manager) (a : Nat) (b : Bool) :
    (ShowActor s a b).2.TextProperties = s.TextProperties := by
  cases hr : s.ColorLegendRenderer with
  | none => simp [ShowActor, hr]
  | some r => simp [ShowActor, hr]

/-- The call `ShowActor` changes no attribute of an actor other than its visibility flag. -/
theorem b64_ShowActor_actors (s : Manager) (a x : Nat) (b : Bool) :
    ∃ v, (ShowActor s a b).2.Actors x = { (s.Actors x) with Visibility := v } := by
  cases hr : s.ColorLegendRenderer with
  | none => exact ⟨(s.Actors x).Visibility, by simp [ShowActor, hr]⟩
  | some r =>
    by_cases hx : x = a
    · subst hx
      exact ⟨b, by simp [ShowActor, hr]⟩
    · exact ⟨(s.Actors x).Visibility, by
        simp [ShowActor, hr, b64_modifyActor_actors_other _ _ _ _ hx]⟩

/-- With a known actor, `UpdateActor` is the chain of its phases. -/
theorem b64_UpdateActor_of_actor (s : Manager) (d : vtkMRMLColorLegendDisplayNode) (a : Nat)
    (ha : GetColorLegendActor s (some d) = some a) :
    UpdateActor s (some d) =
      match UpdateActor.visibility s d with
      | none => ShowActor s a false
      | some primaryDisplayNode =>
        match primaryDisplayNode.ColorNode with
        | none => ShowActor (UpdateActor.layout s a d) a false
        | some colorNode =>
          if primaryDisplayNode.ScalarRangeFlag = .UseDirectMapping then
            ShowActor (UpdateActor.layout s a d) a false
          else
            match colorNode.LookupTable with
            | none => ShowActor (UpdateActor.layout s a d) a false
            | some lookupTable =>
              (true, (ShowActor (UpdateActor.labels (UpdateActor.layout s a d) a d colorNode
                { CreateLookupTableCopy lookupTable with
                  TableRange := UpdateActor.range primaryDisplayNode }) a true).2) := by
  simp only [UpdateActor, ha]

/-- When the computed visibility is `true`, `UpdateActor` runs all its phases. -/
theorem b64_UpdateActor_of_shows (s : Manager) (d : vtkMRMLColorLegendDisplayNode) (a : Nat)
    (ha : GetColorLegendActor s (some d) = some a) (hs : UpdateActor.shows s d = true) :
    ∃ p c l, UpdateActor.visibility s d = some p ∧ p.ColorNode = some c ∧
      p.ScalarRangeFlag ≠ .UseDirectMapping ∧ c.LookupTable = some l ∧
      UpdateActor s (some d) =
        (true, (ShowActor (UpdateActor.labels (UpdateActor.layout s a d) a d c
          { CreateLookupTableCopy l with TableRange := UpdateActor.range p }) a true).2) := by
  rw [b64_UpdateActor_of_actor s d a ha]
  unfold UpdateActor.shows at hs
  cases hv : UpdateActor.visibility s d with
  | none => simp [hv] at hs
  | some p =>
    cases hc : p.ColorNode with
    | none => simp [hv, hc] at hs
    | some c =>
      by_cases hd : p.ScalarRangeFlag = .UseDirectMapping
      · simp [hv, hc, hd] at hs
      · cases hl : c.LookupTable with
        | none => simp [hv, hc, hd, hl] at hs
        | some l => exact ⟨p, c, l, rfl, hc, hd, hl, by simp [hc, hd, hl]⟩

@[simp] theorem b64_labels_textProperties (s : Manager) (a : Nat)
    (d : vtkMRMLColorLegendDisplayNode) (c : vtkMRMLColorNode) (lut : vtkLookupTable) :
    (UpdateActor.labels s a d c lut).TextProperties = s.TextProperties := by
  unfold UpdateActor.labels
  split <;> simp

/-- The actor after the phase `labels`. -/
theorem b64_labels_actor_self (s : Manager) (a : Nat) (d : vtkMRMLColorLegendDisplayNode)
    (c : vtkMRMLColorNode) (lut : vtkLookupTable) :
    (UpdateActor.labels s a d c lut).Actors a =
      if d.UseColorNamesForLabels && decide (c.NumberOfColors > 0) then
        { (s.Actors a) with
          LookupTable := some ((List.range (UpdateActor.newNumberOfColors c).toNat).foldl
            (UpdateActor.annotate c) lut.ResetAnnotations)
          NumberOfLabels := c.NumberOfColors
          MaximumNumberOfColors := UpdateActor.newNumberOfColors c
          UseAnnotationAsLabel := true
          CenterLabel := true }
      else
        { (s.Actors a) with
          LookupTable := some lut
          NumberOfLabels := d.NumberOfLabels
          MaximumNumberOfColors := d.MaxNumberOfColors
          UseAnnotationAsLabel := false
          CenterLabel := false } := by
  unfold UpdateActor.labels
  split <;> simp

/-- The phase `labels` leaves the layout attributes of the actor as they are. -/
theorem b64_labels_actors (s : Manager) (a : Nat) (d : vtkMRMLColorLegendDisplayNode)
    (c : vtkMRMLColorNode) (lut : vtkLookupTable) :
    ∃ l n m u cl, (UpdateActor.labels s a d c lut).Actors a =
      { (s.Actors a) with
        LookupTable := l, NumberOfLabels := n, MaximumNumberOfColors := m,
        UseAnnotationAsLabel := u, CenterLabel := cl } := by
  rw [b64_labels_actor_self]
  split
  · exact ⟨_, _, _, _, _, rfl⟩
  · exact ⟨_, _, _, _, _, rfl⟩

/-- After a call of `UpdateActor` that passes the visibility checks, the layout attributes of
the actor and all text properties are those that the layout phase has set. -/
theorem b64_UpdateActor_keeps_layout (s : Manager) (d : vtkMRMLColorLegendDisplayNode)
    (a : Nat) (p : vtkMRMLDisplayNode) (ha : GetColorLegendActor s (some d) = some a)
    (hv : UpdateActor.visibility s d = some p) :
    (UpdateActor s (some d)).2.TextProperties = (UpdateActor.layout s a d).TextProperties ∧
    ∃ v l n m u cl, (UpdateActor s (some d)).2.Actors a =
      { ((UpdateActor.layout s a d).Actors a) with
        Visibility := v, LookupTable := l, NumberOfLabels := n, MaximumNumberOfColors := m,
        UseAnnotationAsLabel := u, CenterLabel := cl } := by
  have hide : ∀ s0 : Manager,
      (ShowActor s0 a false).2.TextProperties = s0.TextProperties ∧
      ∃ v l n m u cl, (ShowActor s0 a false).2.Actors a =
        { (s0.Actors a) with
          Visibility := v, LookupTable := l, NumberOfLabels := n, MaximumNumberOfColors := m,
          UseAnnotationAsLabel := u, CenterLabel := cl } := by
    intro s0
    obtain ⟨v, h⟩ := b64_ShowActor_actors s0 a a false
    exact ⟨by simp, v, _, _, _, _, _, by rw [h]⟩
  rw [b64_UpdateActor_of_actor s d a ha, hv]
  simp only []
  cases hc : p.ColorNode with
  | none => exact hide _
  | some c =>
    simp only []
    by_cases hd : p.ScalarRangeFlag = .UseDirectMapping
    · simp only [hd, if_true]
      exact hide _
    · simp only [hd, if_false]
      cases hl : c.LookupTable with
      | none => exact hide _
      | some l =>
        simp only []
        obtain ⟨v, h1⟩ := b64_ShowActor_actors
          (UpdateActor.labels (UpdateActor.layout s a d) a d c
            { CreateLookupTableCopy l with TableRange := UpdateActor.range p }) a a true
        obtain ⟨l1, n, m, u, cl, h2⟩ := b64_labels_actors (UpdateActor.layout s a d) a d c
          { CreateLookupTableCopy l with TableRange := UpdateActor.range p }
        refine ⟨by simp, v, l1, n, m, u, cl, ?_⟩
        rw [h1, h2]

/-- The attributes that the Vertical case of the layout switch leaves in the actor. -/
theorem b64_layout_vertical (s : Manager) (a : Nat) (d : vtkMRMLColorLegendDisplayNode)
    (ho : d.Orientation = .Vertical) :
    ((UpdateActor.layout s a d).Actors a).Orientation = .Vertical ∧
    ((UpdateActor.layout s a d).Actors a).Position =
      (d.Position.1.mul ((Double.ofInt 1).sub d.Size.1),
       d.Position.2.mul ((Double.ofInt 1).sub d.Size.2)) ∧
    ((UpdateActor.layout s a d).Actors a).Width = d.Size.1 ∧
    ((UpdateActor.layout s a d).Actors a).Height = d.Size.2 ∧
    ((UpdateActor.layout s a d).Actors a).TextPosition =
      (if d.Position.1.lt (Double.ofRatio 5 10) then .SucceedScalarBar
       else .PrecedeScalarBar) ∧
    ((UpdateActor.layout s a d).Actors a).TextPad =
      (if d.Position.1.lt (Double.ofRatio 5 10) then 2 else -2) ∧
    ((UpdateActor.layout s a d).TextProperties
        ((UpdateActor.layout s a d).Actors a).TitleTextProperty).Justification =
      (if d.Position.1.lt (Double.ofRatio 5 10) then .Left else .Right) := by
  simp only [UpdateActor.layout, ho]
  split <;> simp [*]

/-- The attributes that the Horizontal case of the layout switch leaves in the actor. -/
theorem b64_layout_horizontal (s : Manager) (a : Nat) (d : vtkMRMLColorLegendDisplayNode)
    (ho : d.Orientation = .Horizontal) :
    ((UpdateActor.layout s a d).Actors a).Orientation = .Horizontal ∧
    ((UpdateActor.layout s a d).Actors a).Position =
      (d.Position.1.mul ((Double.ofInt 1).sub d.Size.2),
       d.Position.2.mul ((Double.ofInt 1).sub d.Size.1)) ∧
    ((UpdateActor.layout s a d).Actors a).Width = d.Size.2 ∧
    ((UpdateActor.layout s a d).Actors a).Height = d.Size.1 ∧
    ((UpdateActor.layout s a d).Actors a).TextPosition =
      (if d.Position.2.lt (Double.ofRatio 5 10) then .SucceedScalarBar
       else .PrecedeScalarBar) ∧
    ((UpdateActor.layout s a d).Actors a).TextPad = 0 ∧
    ((UpdateActor.layout s a d).TextProperties
        ((UpdateActor.layout s a d).Actors a).TitleTextProperty).Justification = .Centered := by
  simp only [UpdateActor.layout, ho]
  split <;> simp [*]

/-- The loop of lines 389–392 on a table without annotations: one entry per index, in
order. -/
theorem b64_annotate_loop (c : vtkMRMLColorNode) (lut : vtkLookupTable) (count : Nat) :
    (List.range count).foldl (UpdateActor.annotate c) lut.ResetAnnotations =
      { TableRange := lut.TableRange
        Annotations := (List.range count).map (fun (i : Nat) =>
          ((i : Int), c.GetColorName
            ((Double.ofInt (i : Int)).div (UpdateActor.oversampling c)).toInt)) } := by
  induction count with
  | zero => rfl
  | succ k ih =>
    rw [List.range_succ, List.foldl_append, ih]
    simp only [List.foldl_cons, List.foldl_nil, UpdateActor.annotate,
      vtkLookupTable.SetAnnotation, List.map_append, List.map_cons, List.map_nil]
    rw [setAnnotationEntry_fresh]
    intro e he
    simp only [List.mem_map, List.mem_range] at he
    obtain ⟨j, hj, rfl⟩ := he
    simp only [ne_eq, Nat.cast_inj]
    omega

/-! ### C7 and C8: layout -/

/-- C7: for a registered descriptor that passes the visibility checks of `UpdateActor` and has
Vertical orientation, position (x, y) and size (w, h), the actor afterwards is vertical,
anchored at (x*(1-w), y*(1-h)) as computed in double arithmetic, with width w and height h;
if x < 0.5 the text succeeds the bar, the text padding is 2 and the title is left-justified,
otherwise the text precedes the bar, the text padding is -2 and the title is
right-justified. -/
theorem C7_vertical_layout (s : Manager) (d : vtkMRMLColorLegendDisplayNode) (a : Nat)
    (p : vtkMRMLDisplayNode) (x y w h : Double)
    (ha : GetColorLegendActor s (some d) = some a)
    (hv : UpdateActor.visibility s d = some p) (ho : d.Orientation = .Vertical)
    (hpos : d.Position = (x, y)) (hsize : d.Size = (w, h)) :
    ((UpdateActor s (some d)).2.Actors a).Orientation = .Vertical ∧
    ((UpdateActor s (some d)).2.Actors a).Position =
      (x.mul ((Double.ofInt 1).sub w), y.mul ((Double.ofInt 1).sub h)) ∧
    ((UpdateActor s (some d)).2.Actors a).Width = w ∧
    ((UpdateActor s (some d)).2.Actors a).Height = h ∧
    (x.lt (Double.ofRatio 5 10) = true →
      ((UpdateActor s (some d)).2.Actors a).TextPosition = .SucceedScalarBar ∧
      ((UpdateActor s (some d)).2.Actors a).TextPad = 2 ∧
      ((UpdateActor s (some d)).2.TextProperties
        ((UpdateActor s (some d)).2.Actors a).TitleTextProperty).Justification = .Left) ∧
    (x.lt (Double.ofRatio 5 10) = false →
      ((UpdateActor s (some d)).2.Actors a).TextPosition = .PrecedeScalarBar ∧
      ((UpdateActor s (some d)).2.Actors a).TextPad = -2 ∧
      ((UpdateActor s (some d)).2.TextProperties
        ((UpdateActor s (some d)).2.Actors a).TitleTextProperty).Justification = .Right) := by
  obtain ⟨ht, v, l, n, m, u, cl, hact⟩ := b64_UpdateActor_keeps_layout s d a p ha hv
  obtain ⟨h1, h2, h3, h4, h5, h6, h7⟩ := b64_layout_vertical s a d ho
  simp only [hpos, hsize] at h2 h3 h4 h5 h6 h7
  rw [ht, hact]
  simp only []
  refine ⟨h1, h2, h3, h4, fun hx => ?_, fun hx => ?_⟩
  · rw [h5, h6, h7]
    simp [hx]
  · rw [h5, h6, h7]
    simp [hx]

/-- C8: for a registered descriptor that passes the visibility checks of `UpdateActor` and has
Horizontal orientation, position (x, y) and size (w, h), the actor afterwards is horizontal,
anchored at (x*(1-h), y*(1-w)) as computed in double arithmetic, with width h and height w,
text padding 0 and a centered title; the text succeeds the bar if y < 0.5 and precedes it
otherwise. -/
theorem C8_horizontal_layout (s : Manager) (d : vtkMRMLColorLegendDisplayNode) (a : Nat)
    (p : vtkMRMLDisplayNode) (x y w h : Double)
    (ha : GetColorLegendActor s (some d) = some a)
    (hv : UpdateActor.visibility s d = some p) (ho : d.Orientation = .Horizontal)
    (hpos : d.Position = (x, y)) (hsize : d.Size = (w, h)) :
    ((UpdateActor s (some d)).2.Actors a).Orientation = .Horizontal ∧
    ((UpdateActor s (some d)).2.Actors a).Position =
      (x.mul ((Double.ofInt 1).sub h), y.mul ((Double.ofInt 1).sub w)) ∧
    ((UpdateActor s (some d)).2.Actors a).Width = h ∧
    ((UpdateActor s (some d)).2.Actors a).Height = w ∧
    ((UpdateActor s (some d)).2.Actors a).TextPad = 0 ∧
    ((UpdateActor s (some d)).2.TextProperties
      ((UpdateActor s (some d)).2.Actors a).TitleTextProperty).Justification = .Centered ∧
    (y.lt (Double.ofRatio 5 10) = true →
      ((UpdateActor s (some d)).2.Actors a).TextPosition = .SucceedScalarBar) ∧
    (y.lt (Double.ofRatio 5 10) = false →
      ((UpdateActor s (some d)).2.Actors a).TextPosition = .PrecedeScalarBar) := by
  obtain ⟨ht, v, l, n, m, u, cl, hact⟩ := b64_UpdateActor_keeps_layout s d a p ha hv
  obtain ⟨h1, h2, h3, h4, h5, h6, h7⟩ := b64_layout_horizontal s a d ho
  simp only [hpos, hsize] at h2 h3 h4 h5
  rw [ht, hact]
  simp only []
  refine ⟨h1, h2, h3, h4, h6, h7, fun hy => ?_, fun hy => ?_⟩
  · rw [h5]
    simp [hy]
  · rw [h5]
    simp [hy]

theorem C7_witness :
    GetColorLegendActor exampleRegistered (some exampleLegend) = some 1 ∧
    UpdateActor.visibility exampleRegistered exampleLegend = some exampleModelDisplayNode ∧
    exampleLegend.Orientation = .Vertical ∧
    exampleLegend.Position = (Double.ofRatio 3 10, Double.ofRatio 5 10) ∧
    exampleLegend.Size = (Double.ofRatio 2 10, Double.ofRatio 4 10) ∧
    ((UpdateActor exampleRegistered (some exampleLegend)).2.Actors 1).Position =
      (Double.ofRatio 24 100, Double.ofRatio 30 100) ∧
    ((UpdateActor exampleRegistered (some exampleLegend)).2.Actors 1).Width =
      Double.ofRatio 2 10 ∧
    ((UpdateActor exampleRegistered (some exampleLegend)).2.Actors 1).Height =
      Double.ofRatio 4 10 ∧
    ((UpdateActor exampleRegistered (some exampleLegend)).2.Actors 1).TextPosition =
      .SucceedScalarBar ∧
    ((UpdateActor exampleRegistered (some exampleLegend)).2.Actors 1).TextPad = 2 ∧
    ((UpdateActor exampleRegistered (some exampleLegend)).2.TextProperties
      ((UpdateActor exampleRegistered (some exampleLegend)).2.Actors 1).TitleTextProperty
      ).Justification = .Left := by
  obtain ⟨-, h2, h3, h4, h5, -⟩ :=
    C7_vertical_layout exampleRegistered exampleLegend 1 exampleModelDisplayNode
      (Double.ofRatio 3 10) (Double.ofRatio 5 10) (Double.ofRatio 2 10) (Double.ofRatio 4 10)
      rfl rfl rfl rfl rfl
  have hx : (Double.ofRatio 3 10).lt (Double.ofRatio 5 10) = true := by decide
  obtain ⟨h6, h7, h8⟩ := h5 hx
  refine ⟨rfl, rfl, rfl, rfl, rfl, ?_, h3, h4, h6, h7, h8⟩
  rw [h2]
  decide

/-- C8, the sample values of the claim: for position (0.7, 0.2) and size (0.1, 0.3) the
anchor that `UpdateActor` stores is (0.48999999999999994, 0.18000000000000002), which is not
the pair of doubles (0.49, 0.18). -/
theorem C8_counterexample :
    GetColorLegendActor exampleRegisteredHorizontal (some exampleHorizontalLegend) = some 1 ∧
    UpdateActor.visibility exampleRegisteredHorizontal exampleHorizontalLegend =
      some exampleModelDisplayNode ∧
    exampleHorizontalLegend.Orientation = .Horizontal ∧
    exampleHorizontalLegend.Position = (Double.ofRatio 7 10, Double.ofRatio 2 10) ∧
    exampleHorizontalLegend.Size = (Double.ofRatio 1 10, Double.ofRatio 3 10) ∧
    ((UpdateActor exampleRegisteredHorizontal (some exampleHorizontalLegend)).2.Actors
      1).Position ≠ (Double.ofRatio 49 100, Double.ofRatio 18 100) ∧
    ((UpdateActor exampleRegisteredHorizontal (some exampleHorizontalLegend)).2.Actors
      1).Position.1 ≠ Double.ofRatio 49 100 ∧
    ((UpdateActor exampleRegisteredHorizontal (some exampleHorizontalLegend)).2.Actors
      1).Position.2 ≠ Double.ofRatio 18 100 := by
  obtain ⟨-, v, l, n, m, u, cl, hact⟩ :=
    b64_UpdateActor_keeps_layout exampleRegisteredHorizontal exampleHorizontalLegend 1
      exampleModelDisplayNode rfl rfl
  obtain ⟨-, h2, -⟩ := b64_layout_horizontal exampleRegisteredHorizontal 1
    exampleHorizontalLegend rfl
  refine ⟨rfl, rfl, rfl, rfl, rfl, ?_, ?_, ?_⟩
  · rw [hact]
    simp only []
    rw [h2]
    decide
  · rw [hact]
    simp only []
    rw [h2]
    decide
  · rw [hact]
    simp only []
    rw [h2]
    decide

theorem C8_witness :
    GetColorLegendActor exampleRegisteredHorizontal (some exampleHorizontalLegend) = some 1 ∧
    UpdateActor.visibility exampleRegisteredHorizontal exampleHorizontalLegend =
      some exampleModelDisplayNode ∧
    exampleHorizontalLegend.Orientation = .Horizontal ∧
    exampleHorizontalLegend.Position = (Double.ofRatio 7 10, Double.ofRatio 2 10) ∧
    exampleHorizontalLegend.Size = (Double.ofRatio 1 10, Double.ofRatio 3 10) ∧
    ((UpdateActor exampleRegisteredHorizontal (some exampleHorizontalLegend)).2.Actors
      1).Position =
        (.finite false 8827055269646171 (-54), .finite false 6485183463413515 (-55)) ∧
    ((UpdateActor exampleRegisteredHorizontal (some exampleHorizontalLegend)).2.Actors
      1).Width = Double.ofRatio 3 10 ∧
    ((UpdateActor exampleRegisteredHorizontal (some exampleHorizontalLegend)).2.Actors
      1).Height = Double.ofRatio 1 10 ∧
    ((UpdateActor exampleRegisteredHorizontal (some exampleHorizontalLegend)).2.Actors
      1).TextPad = 0 ∧
    ((UpdateActor exampleRegisteredHorizontal (some exampleHorizontalLegend)).2.TextProperties
      ((UpdateActor exampleRegisteredHorizontal (some exampleHorizontalLegend)).2.Actors
        1).TitleTextProperty).Justification = .Centered ∧
    ((UpdateActor exampleRegisteredHorizontal (some exampleHorizontalLegend)).2.Actors
      1).TextPosition = .SucceedScalarBar := by
  obtain ⟨-, h2, h3, h4, h5, h6, h7, -⟩ :=
    C8_horizontal_layout exampleRegisteredHorizontal exampleHorizontalLegend 1
      exampleModelDisplayNode (Double.ofRatio 7 10) (Double.ofRatio 2 10) (Double.ofRatio 1 10)
      (Double.ofRatio 3 10) rfl rfl rfl rfl rfl
  have hy : (Double.ofRatio 2 10).lt (Double.ofRatio 5 10) = true := by decide
  refine ⟨rfl, rfl, rfl, rfl, rfl, ?_, h3, h4, h5, h6, h7 hy⟩
  rw [h2]
  decide

/-! ### C9: label annotation mode -/

/-- C9: when a registered descriptor is computed as shown, requests color names for labels,
and the color table of its primary display node has n > 0 colors, then with
oversampling = 256.0 / n and newCount = n * oversampling converted to int (both operations in
double arithmetic) the actor afterwards has n labels and at most newCount colors, and its
lookup table is annotated at exactly the indices 0, ..., newCount - 1, index i carrying the
name of the color at index i / oversampling converted to int. -/
theorem C9_label_annotation_mode (s : Manager) (d : vtkMRMLColorLegendDisplayNode) (a : Nat)
    (p : vtkMRMLDisplayNode) (c : vtkMRMLColorNode)
    (ha : GetColorLegendActor s (some d) = some a) (hs : UpdateActor.shows s d = true)
    (hv : UpdateActor.visibility s d = some p) (hc : p.ColorNode = some c)
    (huse : d.UseColorNamesForLabels = true) (hn : 0 < c.NumberOfColors) :
    ((UpdateActor s (some d)).2.Actors a).NumberOfLabels = c.NumberOfColors ∧
    ((UpdateActor s (some d)).2.Actors a).MaximumNumberOfColors =
      ((Double.ofInt c.NumberOfColors).mul
        ((Double.ofRatio 256 1).div (Double.ofInt c.NumberOfColors))).toInt ∧
    ∃ lut, ((UpdateActor s (some d)).2.Actors a).LookupTable = some lut ∧
      lut.Annotations =
        (List.range ((Double.ofInt c.NumberOfColors).mul
            ((Double.ofRatio 256 1).div (Double.ofInt c.NumberOfColors))).toInt.toNat).map
          (fun (i : Nat) => ((i : Int),
            c.GetColorName ((Double.ofInt (i : Int)).div
              ((Double.ofRatio 256 1).div (Double.ofInt c.NumberOfColors))).toInt)) ∧
      ∀ i : Nat,
        (i : Int) < ((Double.ofInt c.NumberOfColors).mul
          ((Double.ofRatio 256 1).div (Double.ofInt c.NumberOfColors))).toInt →
        lut.GetAnnotation (i : Int) =
          some (c.GetColorName ((Double.ofInt (i : Int)).div
            ((Double.ofRatio 256 1).div (Double.ofInt c.NumberOfColors))).toInt) := by
  obtain ⟨p1, c1, l, hv1, hc1, -, -, hrun⟩ := b64_UpdateActor_of_shows s d a ha hs
  rw [hv] at hv1
  cases hv1
  rw [hc] at hc1
  cases hc1
  obtain ⟨v, hshow⟩ := b64_ShowActor_actors
    (UpdateActor.labels (UpdateActor.layout s a d) a d c
      { CreateLookupTableCopy l with TableRange := UpdateActor.range p }) a a true
  have hcond : (d.UseColorNamesForLabels && decide (c.NumberOfColors > 0)) = true := by
    simp [huse, hn]
  rw [hrun]
  simp only []
  rw [hshow, b64_labels_actor_self, if_pos hcond]
  refine ⟨rfl, rfl, _, rfl, ?_, ?_⟩
  · rw [b64_annotate_loop]
    rfl
  · intro i hi
    rw [b64_annotate_loop]
    simp only [vtkLookupTable.GetAnnotation]
    rw [find_annotated (fun j => c.GetColorName
      ((Double.ofInt (j : Int)).div (UpdateActor.oversampling c)).toInt) _ i]
    · rfl
    · simp only [UpdateActor.newNumberOfColors, UpdateActor.oversampling]
      omega

set_option maxRecDepth 100000 in
/-- For four colors the oversampling is the double 64, and every oversampled index `i` below
256 maps back to the color `i / 64` (integer quotient). -/
theorem b64_index_four_colors :
    UpdateActor.oversampling exampleColorNode = Double.ofInt 64 ∧
    ∀ i : Nat, i < 256 →
      ((Double.ofInt (i : Int)).div
        ((Double.ofRatio 256 1).div (Double.ofInt 4))).toInt = ((i / 64 : Nat) : Int) := by
  decide

theorem C9_witness :
    GetColorLegendActor exampleRegisteredNamed (some exampleNamedLegend) = some 1 ∧
    UpdateActor.shows exampleRegisteredNamed exampleNamedLegend = true ∧
    exampleNamedLegend.UseColorNamesForLabels = true ∧
    exampleColorNode.NumberOfColors = 4 ∧
    (Double.ofRatio 256 1).div (Double.ofInt 4) = Double.ofInt 64 ∧
    ((Double.ofInt 4).mul ((Double.ofRatio 256 1).div (Double.ofInt 4))).toInt = 256 ∧
    ((UpdateActor exampleRegisteredNamed (some exampleNamedLegend)).2.Actors 1).NumberOfLabels
      = 4 ∧
    ((UpdateActor exampleRegisteredNamed (some exampleNamedLegend)).2.Actors
      1).MaximumNumberOfColors = 256 ∧
    ∃ lut,
      ((UpdateActor exampleRegisteredNamed (some exampleNamedLegend)).2.Actors 1).LookupTable =
        some lut ∧
      lut.Annotations.length = 256 ∧
      (∀ i : Nat, i < 256 →
        lut.GetAnnotation (i : Int) = some (exampleColorNode.GetColorName ((i / 64 : Nat) : Int))) ∧
      lut.GetAnnotation 0 = some "background" ∧ lut.GetAnnotation 63 = some "background" ∧
      lut.GetAnnotation 64 = some "liver" ∧ lut.GetAnnotation 127 = some "liver" ∧
      lut.GetAnnotation 128 = some "kidney" ∧ lut.GetAnnotation 191 = some "kidney" ∧
      lut.GetAnnotation 192 = some "spleen" ∧ lut.GetAnnotation 255 = some "spleen" := by
  have hs : UpdateActor.shows exampleRegisteredNamed exampleNamedLegend = true := by decide
  have hcount :
      ((Double.ofInt 4).mul ((Double.ofRatio 256 1).div (Double.ofInt 4))).toInt = 256 := by
    decide
  obtain ⟨h1, h2, lut, h3, h4, h5⟩ :=
    C9_label_annotation_mode exampleRegisteredNamed exampleNamedLegend 1
      exampleModelDisplayNode exampleColorNode rfl hs rfl rfl rfl (by decide)
  have hlt : ∀ i : Nat, i < 256 → lut.GetAnnotation (i : Int) =
      some (exampleColorNode.GetColorName ((i / 64 : Nat) : Int)) := fun i hi => by
    rw [← b64_index_four_colors.2 i hi]
    apply h5 i
    show (i : Int) < ((Double.ofInt 4).mul ((Double.ofRatio 256 1).div (Double.ofInt 4))).toInt
    rw [hcount]
    omega
  refine ⟨rfl, hs, rfl, rfl, by decide, hcount, h1, h2.trans hcount, lut, h3, ?_, hlt,
    hlt 0 (by decide), hlt 63 (by decide), hlt 64 (by decide), hlt 127 (by decide),
    hlt 128 (by decide), hlt 191 (by decide), hlt 192 (by decide), hlt 255 (by decide)⟩
  rw [h4, List.length_map, List.length_range]
  show ((Double.ofInt 4).mul ((Double.ofRatio 256 1).div (Double.ofInt 4))).toInt.toNat = 256
  rw [hcount]
  rfl

/-! ### C10: the scalar range of the legend's lookup table -/

/-- C10: when a registered descriptor is computed as shown, the lookup table that
`UpdateActor` gives to the actor has table range [L - W/2, L + W/2], as computed in double
arithmetic, if the primary display node is a scalar volume display node with window W and
level L, and the scalar range reported by the primary display node if it is of any other
kind. -/
theorem C10_lookup_table_range (s : Manager) (d : vtkMRMLColorLegendDisplayNode) (a : Nat)
    (p : vtkMRMLDisplayNode) (ha : GetColorLegendActor s (some d) = some a)
    (hs : UpdateActor.shows s d = true) (hv : UpdateActor.visibility s d = some p) :
    ∃ lut, ((UpdateActor s (some d)).2.Actors a).LookupTable = some lut ∧
      (∀ W L : Double, p.Class = .ScalarVolumeDisplayNode W L →
        lut.TableRange =
          (L.sub (W.div (Double.ofRatio 2 1)), L.add (W.div (Double.ofRatio 2 1)))) ∧
      ((∀ W L : Double, p.Class ≠ .ScalarVolumeDisplayNode W L) →
        lut.TableRange = p.ScalarRange) := by
  obtain ⟨p1, c, l, hv1, -, -, -, hrun⟩ := b64_UpdateActor_of_shows s d a ha hs
  rw [hv] at hv1
  cases hv1
  obtain ⟨v, hshow⟩ := b64_ShowActor_actors
    (UpdateActor.labels (UpdateActor.layout s a d) a d c
      { CreateLookupTableCopy l with TableRange := UpdateActor.range p }) a a true
  have hrange : ∀ lut : vtkLookupTable, lut.TableRange = UpdateActor.range p →
      (∀ W L : Double, p.Class = .ScalarVolumeDisplayNode W L →
        lut.TableRange =
          (L.sub (W.div (Double.ofRatio 2 1)), L.add (W.div (Double.ofRatio 2 1)))) ∧
      ((∀ W L : Double, p.Class ≠ .ScalarVolumeDisplayNode W L) →
        lut.TableRange = p.ScalarRange) := by
    intro lut hlut
    constructor
    · intro W L hclass
      rw [hlut]
      simp [UpdateActor.range, SafeDownCastScalarVolumeDisplayNode, hclass]
    · intro hclass
      rw [hlut]
      unfold UpdateActor.range SafeDownCastScalarVolumeDisplayNode
      split
      · rename_i window level heq
        split at heq
        · rename_i W L hW
          exact absurd hW (hclass W L)
        · cases heq
      · rfl
  rw [hrun]
  simp only []
  rw [hshow, b64_labels_actor_self]
  split
  · exact ⟨_, rfl, hrange _ (by rw [b64_annotate_loop])⟩
  · exact ⟨_, rfl, hrange _ rfl⟩

theorem C10_witness :
    GetColorLegendActor exampleRegisteredVolumeInSlice (some exampleVolumeLegend) = some 1 ∧
    UpdateActor.shows exampleRegisteredVolumeInSlice exampleVolumeLegend = true ∧
    exampleVolumeDisplayNode.Class =
      .ScalarVolumeDisplayNode (Double.ofInt 100) (Double.ofInt 50) ∧
    ∃ lut,
      ((UpdateActor exampleRegisteredVolumeInSlice (some exampleVolumeLegend)).2.Actors
        1).LookupTable = some lut ∧
      lut.TableRange = (Double.ofInt 0, Double.ofInt 100) := by
  have hs : UpdateActor.shows exampleRegisteredVolumeInSlice exampleVolumeLegend = true := by
    decide
  obtain ⟨lut, h1, h2, -⟩ :=
    C10_lookup_table_range exampleRegisteredVolumeInSlice exampleVolumeLegend 1
      exampleVolumeDisplayNode rfl hs rfl
  refine ⟨rfl, hs, rfl, lut, h1, ?_⟩
  rw [h2 (Double.ofInt 100) (Double.ofInt 50) rfl]
  decide

end Binary64

end vtkMRMLColorLegendDisplayableManager
